import Mathlib

/-!
# Suscan local analyzer and worker: a shallow embedding

The definitions below transcribe `analyzer/impl/local.c`, `analyzer/worker.c`,
`analyzer/source/impl/soapysdr.c` and `util/win32-bundle.imp.h` into pure
state-passing functions.  Objects reached through C pointers are
represented by value together with an `addr` field that stands for the address
of the object; `NULL` is `none`.  Frequencies (`SUFREQ`, a C double) are
represented by exact integers.
-/

namespace Suscan

/-! ## Plain data -/

/-- The `enum suscan_analyzer_mode` of the analyzer parameters. -/
inductive suscan_analyzer_mode where
  | CHANNEL
  | WIDE_SPECTRUM
deriving DecidableEq, Repr

/-- The `struct suscan_analyzer_sweep_params`: the sweep plan of the wide
spectrum mode.  The two enumerations are kept as their integer codes. -/
structure suscan_analyzer_sweep_params where
  strategy : Nat := 0
  partitioning : Nat := 0
  min_freq : Int := 0
  max_freq : Int := 0
  fft_min_samples : Nat := 0
deriving DecidableEq, Repr

/-- Modelled from the spec: the inspector life cycle states (the enumeration
`suscan_async_state` is declared in a header of the repository; the spec lists
INIT, RUNNING and HALTED). -/
inductive suscan_async_state where
  | INIT
  | RUNNING
  | HALTED
deriving DecidableEq, Repr

/-- The part of `suscan_inspector_t` used by the local analyzer: its life cycle
state and the user-data slot (a pointer to an overridable request, or NULL).
`addr` is the address of the inspector object. -/
structure suscan_inspector_t where
  addr : Nat := 0
  state : suscan_async_state := suscan_async_state.INIT
  userdata : Option Nat := none
deriving DecidableEq, Repr

/-- The `struct suscan_inspector_overridable_request` fields set by `local.c`:
`insp` is the address of the inspector, `next` the next node of the intrusive
list. Every other field is zero after `calloc`. -/
structure suscan_inspector_overridable_request where
  insp : Nat := 0
  next : Option Nat := none
deriving DecidableEq, Repr

/-- The `struct sigutils_channel_detector_params` of the signal library, as far
as `local.c` names its fields; `rest` stands for all the other fields. -/
structure sigutils_channel_detector_params where
  mode : Nat := 0
  samp_rate : Nat := 0
  window_size : Nat := 0
  window : Nat := 0
  fc : Int := 0
  rest : Nat := 0
deriving DecidableEq, Repr

/-- The `struct suscan_analyzer_params` (the `params` member of the parent
analyzer object, and the payload of a PARAMS message).  The update intervals
(C floats) are exact numbers. -/
structure suscan_analyzer_params where
  mode : suscan_analyzer_mode := suscan_analyzer_mode.CHANNEL
  detector_params : sigutils_channel_detector_params := {}
  channel_update_int : Int := 0
  psd_update_int : Int := 0
  min_freq : Int := 0
  max_freq : Int := 0
deriving DecidableEq, Repr

/-- The `struct suscan_worker_callback`: the function pointer and the private
pointer of a queued callback; `addr` is the address of the record. -/
structure suscan_worker_callback where
  addr : Nat := 0
  func : Nat := 0
  private_ : Option Nat := none
deriving DecidableEq, Repr

/-- Modelled from the spec: the status code of a SOURCE_INIT message
(`SUSCAN_ANALYZER_INIT_SUCCESS` and `SUSCAN_ANALYZER_INIT_FAILURE`, declared in
the message header of the analyzer). -/
inductive suscan_analyzer_init_code where
  | INIT_SUCCESS
  | INIT_FAILURE
deriving DecidableEq, Repr

/-- A message of a message queue: the `type` of the C message selects the
constructor, and the constructor carries what `private` points to.  `HALT` is
`SUSCAN_WORKER_MSG_TYPE_HALT`, `CALLBACK` is `SUSCAN_WORKER_MSG_TYPE_CALLBACK`,
the others are the `SUSCAN_ANALYZER_MESSAGE_TYPE_` kinds; `OTHER` is any other
type code.  An `Option Nat` payload is a raw pointer that may be NULL, an
`addr` is the address of a payload that is there. -/
inductive suscan_msg where
  | CALLBACK (cb : suscan_worker_callback)
  | HALT (private_ : Option Nat)
  | INSPECTOR (private_ : Option Nat)
  | EOS (private_ : Option Nat)
  | CHANNEL (private_ : Option Nat)
  | THROTTLE (addr : Nat) (samp_rate : Nat)
  | PARAMS (addr : Nat) (params : suscan_analyzer_params)
  | SOURCE_INIT (code : suscan_analyzer_init_code)
  | OTHER (type : Nat) (private_ : Option Nat)
deriving DecidableEq, Repr

/-- Whether the `private` pointer of a message is not NULL. -/
def suscan_msg.has_private : suscan_msg → Bool
  | suscan_msg.CALLBACK _ => true
  | suscan_msg.HALT p => p.isSome
  | suscan_msg.INSPECTOR p => p.isSome
  | suscan_msg.EOS p => p.isSome
  | suscan_msg.CHANNEL p => p.isSome
  | suscan_msg.THROTTLE _ _ => true
  | suscan_msg.PARAMS _ _ => true
  | suscan_msg.SOURCE_INIT _ => true
  | suscan_msg.OTHER _ p => p.isSome

/-- Whether the type of a message is `SUSCAN_WORKER_MSG_TYPE_HALT`. -/
def suscan_msg.is_halt : suscan_msg → Bool
  | suscan_msg.HALT _ => true
  | _ => false

/-- Whether the type of a message is `SUSCAN_WORKER_MSG_TYPE_CALLBACK`. -/
def suscan_msg.is_callback : suscan_msg → Bool
  | suscan_msg.CALLBACK _ => true
  | _ => false

/-- The calls whose only effect lies outside the state of the embedding; they
are appended to a log in the order the code makes them. -/
inductive Event where
  /-- `(cb->func) (worker->mq_out, worker_private, callback_private)` -/
  | call (cb : suscan_worker_callback) (worker_private callback_private : Option Nat)
  /-- `suscan_worker_callback_destroy(cb)`, `cb` being the `private` pointer
  of the message -/
  | callback_destroy (msg : suscan_msg)
  /-- `suscan_msg_destroy(msg)` -/
  | msg_destroy (msg : suscan_msg)
  /-- `suscan_analyzer_dispose_message(type, private)` -/
  | dispose (msg : suscan_msg)
  /-- `suscan_local_analyzer_parse_inspector_msg(self, private)` -/
  | parse_inspector_msg (private_ : Option Nat)
  /-- `pthread_join(worker->thread, NULL)` -/
  | pthread_join
  /-- `suscan_mq_finalize(&worker->mq_in)` -/
  | mq_finalize
  /-- `free(worker)` -/
  | free_worker
  /-- `suscan_source_stop_capture(self->source)` -/
  | stop_capture
deriving DecidableEq, Repr

/-- The `enum suscan_worker_state`. -/
inductive suscan_worker_state where
  | CREATED
  | RUNNING
  | HALTED
deriving DecidableEq, Repr

/-- The `suscan_worker_t` object: `addr` is its address, `mq_in` the content
of its input queue (head first), `mq_out` the content of the queue `mq_out`
points to, `log` the calls made on its behalf. -/
structure suscan_worker_t where
  addr : Nat := 0
  state : suscan_worker_state := suscan_worker_state.CREATED
  mq_in : List suscan_msg := []
  mq_out : List suscan_msg := []
  private_ : Option Nat := none
  log : List Event := []
deriving DecidableEq, Repr

/-- Modelled from the spec: the kind of a source, a recorded file or a live
radio (`suscan_source_get_type`; only `SUSCAN_SOURCE_TYPE_SDR` is named in
`local.c`). -/
inductive suscan_source_type where
  | FILE
  | SDR
deriving DecidableEq, Repr

/-- Modelled from the spec: the source object as the analyzer sees it
(`suscan_source_get_samp_rate`, `suscan_source_is_capturing`,
`suscan_source_get_type`, and its `mtu` member). -/
structure suscan_source_t where
  addr : Nat := 0
  samp_rate : Nat := 0
  capturing : Bool := false
  type : suscan_source_type := suscan_source_type.FILE
  mtu : Nat := 0
deriving DecidableEq, Repr

/-- Modelled from the spec: the throttle is a virtual clock with a nominal
rate and an accumulator of samples. -/
structure suscan_throttle_t where
  samp_rate : Nat := 0
  samp_count : Nat := 0
deriving DecidableEq, Repr

/-- The channel detector object of the signal library: its address and its
parameters. -/
structure su_channel_detector_t where
  addr : Nat := 0
  params : sigutils_channel_detector_params := {}
deriving DecidableEq, Repr

/-- The `su_specttuner_channel_t` object of the signal library as `local.c`
uses it: its address and the member `params.privdata`. -/
structure su_specttuner_channel_t where
  addr : Nat := 0
  privdata : Option Nat := none
deriving DecidableEq, Repr

/-- Modelled from the spec: a task-info record binds one tuner channel to one
inspector (`struct suscan_inspector_task_info`, declared in a header of the
repository); `insp` is the address of the inspector, `channel` the address of
the channel, NULL until `local.c` sets it. -/
structure suscan_inspector_task_info where
  insp : Nat := 0
  channel : Option Nat := none
deriving DecidableEq, Repr

/-- The fields of `suscan_local_analyzer_t` that the code below reads or
writes.  `params`, `running` and `mq_out` belong to the parent
`suscan_analyzer_t` (`mq_out` is the content of the queue it points to).  A
mutex field is true while the mutex is held.  `req_heap` is the memory holding
the overridable requests: cell `p` is the request at address `p`, `none` once
freed.  `log` collects the calls that leave the state of the embedding.
`stuner` is the window size of the spectral tuner, `sched` the number of
workers of the inspector scheduler, `barrier` the count the cycle barrier was
initialised with (each `none` until the object is created), and `thread`
tells whether the control thread exists.  `barrier_waiting` is the number of
threads that wait at the cycle barrier, `sched_lock` the scheduler mutex,
`sched_tasks` the addresses of the task-info records registered with the
scheduler, and `task_heap` the memory holding the task-info records. -/
structure suscan_local_analyzer_t where
  params : suscan_analyzer_params := {}
  running : Bool := false
  mq_out : List suscan_msg := []
  mq_in : List suscan_msg := []
  source : suscan_source_t := {}
  source_wk : suscan_worker_t := {}
  throttle : suscan_throttle_t := {}
  throttle_mutex : Bool := false
  effective_samp_rate : Nat := 0
  loop_mutex : Bool := false
  detector : su_channel_detector_t := {}
  interval_channels : Int := 0
  interval_psd : Int := 0
  det_num_psd : Nat := 0
  last_psd : Nat := 0
  current_sweep_params : suscan_analyzer_sweep_params := {}
  pending_sweep_params : suscan_analyzer_sweep_params := {}
  sweep_params_requested : Bool := false
  inspector_list : List (Option suscan_inspector_t) := []
  inspector_list_mutex : Bool := false
  insp_overridable : Option Nat := none
  req_heap : List (Option suscan_inspector_overridable_request) := []
  log : List Event := []
  throttle_mutex_init : Bool := false
  read_size : Nat := 0
  last_channels : Nat := 0
  slow_wk : suscan_worker_t := {}
  stuner : Option Nat := none
  sched : Option Nat := none
  barrier : Option Nat := none
  thread : Bool := false
  barrier_waiting : Nat := 0
  sched_lock : Bool := false
  sched_tasks : List Nat := []
  task_heap : List (Option suscan_inspector_task_info) := []
deriving DecidableEq, Repr

/-- The members of the parent `suscan_analyzer_t` that `local.c` uses: the
analyzer parameters, the `running` flag and the content of the output queue. -/
structure suscan_analyzer_t where
  params : suscan_analyzer_params := {}
  running : Bool := false
  mq_out : List suscan_msg := []
deriving DecidableEq, Repr

/-! ## Message queues

Modelled from the spec: the message queue (`mq.c`) is a FIFO of typed messages;
`write` enqueues at the tail, `write_urgent` enqueues at the head, `read`
takes the head and blocks on an empty queue, `poll` takes the head and
reports an empty queue without blocking.  The spec gives the writes no way to
fail; where the C code tests the result of `suscan_mq_write`, the outcome of
the call is a parameter. -/

/-- Modelled from the spec: `suscan_mq_write` enqueues at the tail; `ok` is
whether the call succeeds. -/
def suscan_mq_write (ok : Bool) (mq : List suscan_msg) (msg : suscan_msg) :
    Bool × List suscan_msg :=
  if ok then (true, mq ++ [msg]) else (false, mq)

/-- Modelled from the spec: `suscan_mq_write_msg` enqueues a message that is
already allocated at the tail. -/
def suscan_mq_write_msg (mq : List suscan_msg) (msg : suscan_msg) : List suscan_msg :=
  mq ++ [msg]

/-- Modelled from the spec: `suscan_mq_write_urgent` enqueues at the head. -/
def suscan_mq_write_urgent (mq : List suscan_msg) (msg : suscan_msg) : List suscan_msg :=
  msg :: mq

/-- Modelled from the spec: `suscan_mq_read` and `suscan_mq_read_msg` take the
head of the queue; on an empty queue the call blocks (`none`). -/
def suscan_mq_read : List suscan_msg → Option (suscan_msg × List suscan_msg)
  | [] => none
  | msg :: mq => some (msg, mq)

/-- Modelled from the spec: `suscan_mq_poll` and `suscan_mq_poll_msg` take the
head of the queue; on an empty queue the call returns false (`none`). -/
def suscan_mq_poll : List suscan_msg → Option (suscan_msg × List suscan_msg)
  | [] => none
  | msg :: mq => some (msg, mq)

/-! ## Wide spectrum mutators (`local.c`, "Worker specific methods") -/

/-- The `suscan_local_analyzer_set_sweep_strategy` function. -/
def suscan_local_analyzer_set_sweep_strategy
    (self : suscan_local_analyzer_t) (strategy : Nat) :
    Bool × suscan_local_analyzer_t :=
  if self.params.mode ≠ suscan_analyzer_mode.WIDE_SPECTRUM then (false, self)
  else
    let pending :=
      if self.sweep_params_requested then self.pending_sweep_params
      else self.current_sweep_params
    (true, { self with
      pending_sweep_params := { pending with strategy := strategy }
      sweep_params_requested := true })

/-- The `suscan_local_analyzer_set_spectrum_partitioning` function. -/
def suscan_local_analyzer_set_spectrum_partitioning
    (self : suscan_local_analyzer_t) (partitioning : Nat) :
    Bool × suscan_local_analyzer_t :=
  if self.params.mode ≠ suscan_analyzer_mode.WIDE_SPECTRUM then (false, self)
  else
    let pending :=
      if self.sweep_params_requested then self.pending_sweep_params
      else self.current_sweep_params
    (true, { self with
      pending_sweep_params := { pending with partitioning := partitioning }
      sweep_params_requested := true })

/-- The `suscan_local_analyzer_set_hop_range` function. -/
def suscan_local_analyzer_set_hop_range
    (self : suscan_local_analyzer_t) (min max : Int) :
    Bool × suscan_local_analyzer_t :=
  if self.params.mode ≠ suscan_analyzer_mode.WIDE_SPECTRUM then (false, self)
  else if ¬ (max - min ≥ 0) then (false, self)
  else
    let pending :=
      if self.sweep_params_requested then self.pending_sweep_params
      else self.current_sweep_params
    (true, { self with
      pending_sweep_params := { pending with min_freq := min, max_freq := max }
      sweep_params_requested := true })

/-- The `suscan_local_analyzer_set_buffering_size` function. -/
def suscan_local_analyzer_set_buffering_size
    (self : suscan_local_analyzer_t) (size : Nat) :
    Bool × suscan_local_analyzer_t :=
  if self.params.mode ≠ suscan_analyzer_mode.WIDE_SPECTRUM then (false, self)
  else
    let pending :=
      if self.sweep_params_requested then self.pending_sweep_params
      else self.current_sweep_params
    (true, { self with
      pending_sweep_params := { pending with fft_min_samples := size }
      sweep_params_requested := true })

/-! ## Mutexes

A POSIX mutex of the default kind is a flag: `pthread_mutex_lock` on a free
mutex takes it and returns 0; on a held mutex the call does not return until
the mutex is released, which in a sequential run is never (result `none`).
`pthread_mutex_unlock` frees the mutex.  Both return an error number, never
a negative value, so the test `!= -1` of the C wrappers always succeeds. -/

/-- The `pthread_mutex_lock` call on a mutex flag: the returned error number
and the new flag, or `none` when the call blocks for ever. -/
def pthread_mutex_lock (held : Bool) : Option (Int × Bool) :=
  if held then none else some (0, true)

/-- The `pthread_mutex_unlock` call on a mutex flag. -/
def pthread_mutex_unlock (_held : Bool) : Int × Bool :=
  (0, false)

/-- The `suscan_local_analyzer_lock_inspector_list` function:
`pthread_mutex_lock(&self->inspector_list_mutex) != -1`. -/
def suscan_local_analyzer_lock_inspector_list
    (self : suscan_local_analyzer_t) : Option (Bool × suscan_local_analyzer_t) :=
  match pthread_mutex_lock self.inspector_list_mutex with
  | none => none
  | some (rc, held) => some (rc != -1, { self with inspector_list_mutex := held })

/-- The `suscan_local_analyzer_unlock_inspector_list` function. -/
def suscan_local_analyzer_unlock_inspector_list
    (self : suscan_local_analyzer_t) : suscan_local_analyzer_t :=
  { self with
    inspector_list_mutex := (pthread_mutex_unlock self.inspector_list_mutex).2 }

/-! ## Overridable request API (`local.c`) -/

/-- Modelled from the spec: `suscan_local_analyzer_get_inspector` is defined
in another file of the repository.  The inspector table is a dense vector indexed by
the integer handle; a handle out of range (or an empty slot) gives NULL. -/
def suscan_local_analyzer_get_inspector
    (self : suscan_local_analyzer_t) (handle : Int) : Option suscan_inspector_t :=
  if 0 ≤ handle ∧ handle < (self.inspector_list.length : Int) then
    self.inspector_list.getD handle.toNat none
  else none

/-- Modelled from the spec: `suscan_inspector_get_userdata` reads the
user-data slot of the inspector. -/
def suscan_inspector_get_userdata (insp : suscan_inspector_t) : Option Nat :=
  insp.userdata

/-- Modelled from the spec: `suscan_inspector_set_userdata` writes the
user-data slot of the inspector; the inspector is the object the table holds
at `handle`. -/
def suscan_inspector_set_userdata
    (self : suscan_local_analyzer_t) (handle : Int) (insp : suscan_inspector_t)
    (req : Nat) : suscan_local_analyzer_t :=
  { self with
    inspector_list :=
      self.inspector_list.set handle.toNat (some { insp with userdata := some req }) }

/-- The `suscan_inspector_overridable_request_destroy` function: `free(self)`. -/
def suscan_inspector_overridable_request_destroy
    (self : suscan_local_analyzer_t) (req : Nat) : suscan_local_analyzer_t :=
  { self with req_heap := self.req_heap.set req none }

/-- The `suscan_inspector_overridable_request_new` function.  `calloc_ok` tells
whether `calloc` succeeds; a new request gets the first unused address and is
zero but for its `insp` field. -/
def suscan_inspector_overridable_request_new
    (calloc_ok : Bool) (self : suscan_local_analyzer_t) (insp : Nat) :
    Option Nat × suscan_local_analyzer_t :=
  if calloc_ok then
    (some self.req_heap.length,
      { self with req_heap := self.req_heap ++ [some { insp := insp, next := none }] })
  else (none, self)

/-- The `suscan_local_analyzer_acquire_overridable` function.  `others` is what
the other threads do to the analyzer while the inspector list mutex is
released; the outer `none` means that a lock call never returns. -/
def suscan_local_analyzer_acquire_overridable
    (others : suscan_local_analyzer_t → suscan_local_analyzer_t)
    (calloc_ok : Bool) (self : suscan_local_analyzer_t) (handle : Int) :
    Option (Option Nat × suscan_local_analyzer_t) :=
  match suscan_local_analyzer_lock_inspector_list self with
  | none => none
  | some (false, self) => some (none, self)
  | some (true, self) =>
    match suscan_local_analyzer_get_inspector self handle with
    | none => some (none, self)
    | some insp =>
      if insp.state ≠ suscan_async_state.RUNNING then some (none, self)
      else
        match suscan_inspector_get_userdata insp with
        | some req => some (some req, self)
        | none =>
          /- No userdata. Release mutex, create object and lock again. -/
          let self := suscan_local_analyzer_unlock_inspector_list self
          let self := others self
          match suscan_inspector_overridable_request_new calloc_ok self insp.addr with
          | (none, self) => some (none, self)
          | (some own_req, self) =>
            match suscan_local_analyzer_lock_inspector_list self with
            | none => none
            | some (false, self) =>
              some (none, suscan_inspector_overridable_request_destroy self own_req)
            | some (true, self) =>
              /- Many things may have happened here -/
              if ¬ (handle ≥ 0 ∧ handle < (self.inspector_list.length : Int)) then
                some (none, suscan_inspector_overridable_request_destroy self own_req)
              else
                match suscan_local_analyzer_get_inspector self handle with
                | none =>
                  some (none, suscan_inspector_overridable_request_destroy self own_req)
                | some insp2 =>
                  if insp2.state ≠ suscan_async_state.RUNNING then
                    some (none, suscan_inspector_overridable_request_destroy self own_req)
                  else
                    let req := own_req
                    let self := { self with
                      req_heap := self.req_heap.modify
                        (Option.map fun r => { r with next := self.insp_overridable }) req
                      insp_overridable := some req }
                    some (some req, suscan_inspector_set_userdata self handle insp2 req)

/-- The `suscan_local_analyzer_release_overridable` function. -/
def suscan_local_analyzer_release_overridable
    (self : suscan_local_analyzer_t) (_rq : Nat) : Bool × suscan_local_analyzer_t :=
  (true, suscan_local_analyzer_unlock_inspector_list self)

/-- One acquire/release pair as the callers of the overridable API run it:
the request is released when one was returned. -/
def acquire_release_pair
    (calloc_ok : Bool) (self : suscan_local_analyzer_t) (handle : Int) :
    Option (Option Nat × suscan_local_analyzer_t) :=
  match suscan_local_analyzer_acquire_overridable id calloc_ok self handle with
  | none => none
  | some (none, self) => some (none, self)
  | some (some req, self) =>
    some (some req, (suscan_local_analyzer_release_overridable self req).2)

/-- A sequence of acquire/release pairs on one handle, one after another;
`callocs` gives the outcome of `calloc` for each pair.  Returns the requests
handed out, in order. -/
def acquire_release_pairs
    (self : suscan_local_analyzer_t) (handle : Int) :
    List Bool → Option (List (Option Nat) × suscan_local_analyzer_t)
  | [] => some ([], self)
  | calloc_ok :: callocs =>
    match acquire_release_pair calloc_ok self handle with
    | none => none
    | some (req, self) =>
      match acquire_release_pairs self handle callocs with
      | none => none
      | some (reqs, self) => some (req :: reqs, self)

/-! ## Worker (`worker.c`) -/

/-- What the callback functions do when the worker thread calls them: for the
`i`-th message the thread handles, the function pointer `func` called with the
content of `mq_out`, the private pointer of the worker and the private pointer
of the callback returns a boolean and leaves `mq_out` with a new content. -/
abbrev callback_semantics :=
  Nat → Nat → List suscan_msg → Option Nat → Option Nat → Bool × List suscan_msg

/-- How a thread function has come to rest. -/
inductive thread_outcome (σ : Type) where
  /-- the thread function has returned -/
  | exited (s : σ)
  /-- the thread is blocked in a read of its empty input queue -/
  | waiting (s : σ)
  /-- the thread is still looping after the given number of messages -/
  | looping (s : σ)
deriving Repr

/-- The `suscan_worker_callback_new` function; `malloc` is the address returned
by the allocator, NULL when the allocation fails. -/
def suscan_worker_callback_new
    (malloc : Option Nat) (func : Nat) (private_ : Option Nat) :
    Option suscan_worker_callback :=
  match malloc with
  | none => none
  | some addr => some { addr := addr, func := func, private_ := private_ }

/-- The `suscan_worker_ack_halt` function: an urgent HALT on `mq_out` whose
payload is the worker itself. -/
def suscan_worker_ack_halt (worker : suscan_worker_t) : suscan_worker_t :=
  { worker with
    mq_out := suscan_mq_write_urgent worker.mq_out (suscan_msg.HALT (some worker.addr)) }

/-- The loop of `suscan_worker_wait_for_halt` over the messages it reads:
`none` when the read blocks on the emptied queue. -/
def suscan_worker_wait_for_halt_loop (worker : suscan_worker_t) :
    List suscan_msg → Option suscan_worker_t
  | [] => none
  | suscan_msg.HALT _ :: mq =>
    some (suscan_worker_ack_halt { worker with mq_in := mq })
  | msg :: mq =>
    suscan_worker_wait_for_halt_loop
      { worker with log := worker.log ++ [Event.callback_destroy msg] } mq

/-- The `suscan_worker_wait_for_halt` function. -/
def suscan_worker_wait_for_halt (worker : suscan_worker_t) : Option suscan_worker_t :=
  suscan_worker_wait_for_halt_loop worker worker.mq_in

/-- The `switch` of `suscan_worker_thread` on one message taken from the input
queue.  The boolean of the result is true when the case ends in `goto done`
(then `halt_acked` is true, the HALT case being the only one that jumps). -/
def suscan_worker_thread_switch
    (F : callback_semantics) (i : Nat) (worker : suscan_worker_t) (msg : suscan_msg) :
    suscan_worker_t × Bool :=
  match msg with
  | suscan_msg.CALLBACK cb =>
    let r := F i cb.func worker.mq_out worker.private_ cb.private_
    let worker := { worker with
      mq_out := r.2
      log := worker.log ++ [Event.call cb worker.private_ cb.private_] }
    if !r.1 then
      /- Callback returns FALSE: remove from message queue -/
      ({ worker with
          log := worker.log ++ [Event.callback_destroy msg, Event.msg_destroy msg] }, false)
    else
      /- Callback returns TRUE: queue again -/
      ({ worker with mq_in := suscan_mq_write_msg worker.mq_in msg }, false)
  | suscan_msg.HALT _ =>
    let worker := { worker with
      state := suscan_worker_state.HALTED
      log := worker.log ++ [Event.msg_destroy msg] }
    (suscan_worker_ack_halt worker, true)
  | _ =>
    ({ worker with log := worker.log ++ [Event.msg_destroy msg] }, false)

/-- The code of `suscan_worker_thread` after the label `done`. -/
def suscan_worker_thread_done (worker : suscan_worker_t) (halt_acked : Bool) :
    thread_outcome suscan_worker_t :=
  let worker := { worker with state := suscan_worker_state.HALTED }
  if !halt_acked then
    match suscan_worker_wait_for_halt worker with
    | none => thread_outcome.waiting worker
    | some worker => thread_outcome.exited worker
  else thread_outcome.exited worker

/-- The `suscan_worker_thread` function, run until it returns, blocks on its
empty input queue, or has handled `fuel` messages.  The blocking read at the
top of the outer loop and the polls of the inner loop both take the head of
the input queue; an empty poll leads to the blocking read.  `i` counts the
messages handled before. -/
def suscan_worker_thread (F : callback_semantics) :
    Nat → Nat → suscan_worker_t → thread_outcome suscan_worker_t
  | 0, _, worker => thread_outcome.looping worker
  | fuel + 1, i, worker =>
    match suscan_mq_read worker.mq_in with
    | none => thread_outcome.waiting worker
    | some (msg, mq) =>
      match suscan_worker_thread_switch F i { worker with mq_in := mq } msg with
      | (worker, true) => suscan_worker_thread_done worker true
      | (worker, false) => suscan_worker_thread F fuel (i + 1) worker

/-- The `suscan_worker_push` function; `malloc` is the outcome of the
allocation of the callback record, `write_ok` the outcome of the queue write. -/
def suscan_worker_push
    (malloc : Option Nat) (write_ok : Bool)
    (worker : suscan_worker_t) (func : Nat) (private_ : Option Nat) :
    Bool × suscan_worker_t :=
  match suscan_worker_callback_new malloc func private_ with
  | none => (false, worker)
  | some cb =>
    match suscan_mq_write write_ok worker.mq_in (suscan_msg.CALLBACK cb) with
    | (false, mq) =>
      (false, { worker with
        mq_in := mq
        log := worker.log ++ [Event.callback_destroy (suscan_msg.CALLBACK cb)] })
    | (true, mq) => (true, { worker with mq_in := mq })

/-- The `suscan_worker_req_halt` function. -/
def suscan_worker_req_halt (worker : suscan_worker_t) : suscan_worker_t :=
  { worker with mq_in := suscan_mq_write_urgent worker.mq_in (suscan_msg.HALT none) }

/-- The loop of `suscan_worker_destroy` that pops all messages and releases
the callback records. -/
def suscan_worker_destroy_loop (worker : suscan_worker_t) :
    List suscan_msg → suscan_worker_t
  | [] => { worker with mq_in := [] }
  | msg :: mq =>
    suscan_worker_destroy_loop
      (if msg.is_callback then
        { worker with log := worker.log ++ [Event.callback_destroy msg] }
      else worker) mq

/-- The end of `suscan_worker_destroy`, from the comment "Thread stopped, pop
all messages and release memory" on. -/
def suscan_worker_destroy_release (worker : suscan_worker_t) : Bool × suscan_worker_t :=
  let worker := suscan_worker_destroy_loop worker worker.mq_in
  (true, { worker with log := worker.log ++ [Event.mq_finalize, Event.free_worker] })

/-- The `suscan_worker_destroy` function; `join_rc` is the error number that
`pthread_join` returns (0 on success, a positive number otherwise). -/
def suscan_worker_destroy (join_rc : Nat) (worker : suscan_worker_t) :
    Bool × suscan_worker_t :=
  if worker.state = suscan_worker_state.RUNNING then (false, worker)
  else if worker.state = suscan_worker_state.HALTED then
    let worker := { worker with log := worker.log ++ [Event.pthread_join] }
    if (join_rc : Int) = -1 then (false, worker)
    else suscan_worker_destroy_release worker
  else suscan_worker_destroy_release worker

/-! ## Analyzer control thread (`local.c`) -/

/-- The function pointer `suscan_source_channel_wk_cb`. -/
def suscan_source_channel_wk_cb : Nat := 1

/-- The function pointer `suscan_source_wide_wk_cb`. -/
def suscan_source_wide_wk_cb : Nat := 2

/-- The outcomes that the control thread takes from its surroundings.  The
index `i` is the number of input messages the thread has read before.
`push_malloc` and `push_write_ok` are the outcomes of the allocation and of the
queue write inside the initial `suscan_worker_push`; `parse_inspector_msg` is
the result of the inspector message parser; `mq_write_ok` the result of
`suscan_mq_write` on the output queue.  The other fields are the functions of
the signal library and the clock.  What the parser does to the analyzer
beside returning its result is not part of the embedding. -/
structure Env where
  push_malloc : Option Nat := some 0
  push_write_ok : Bool := true
  parse_inspector_msg : Nat → Option Nat → Bool := fun _ _ => true
  mq_write_ok : Nat → Bool := fun _ => true
  su_channel_params_adjust :
    sigutils_channel_detector_params → sigutils_channel_detector_params := id
  su_channel_detector_set_params :
    Nat → su_channel_detector_t → sigutils_channel_detector_params →
      Bool × su_channel_detector_t := fun _ d p => (true, { d with params := p })
  su_channel_detector_new :
    Nat → sigutils_channel_detector_params → Option su_channel_detector_t :=
      fun _ p => some { params := p }
  sufcmp : Int → Int → Bool := fun a b => a != b
  suscan_gettime_coarse : Nat → Nat := fun _ => 0

/-- Modelled from the spec: `suscan_throttle_init` sets the nominal rate and
clears the accumulator. -/
def suscan_throttle_init (val : Nat) : suscan_throttle_t :=
  { samp_rate := val, samp_count := 0 }

/-- The `suscan_local_analyzer_get_samp_rate` function:
`suscan_source_get_samp_rate(self->source)`. -/
def suscan_local_analyzer_get_samp_rate (self : suscan_local_analyzer_t) : Nat :=
  self.source.samp_rate

/-- Modelled from the spec: `suscan_analyzer_send_status` emits a status
message of the given code on the output queue of the analyzer. -/
def suscan_analyzer_send_status
    (self : suscan_local_analyzer_t) (code : suscan_analyzer_init_code) :
    suscan_local_analyzer_t :=
  { self with mq_out := (suscan_mq_write true self.mq_out (suscan_msg.SOURCE_INIT code)).2 }

/-- The `suscan_analyzer_dispose_message(type, private)` call. -/
def suscan_analyzer_dispose_message
    (self : suscan_local_analyzer_t) (msg : suscan_msg) : suscan_local_analyzer_t :=
  { self with log := self.log ++ [Event.dispose msg] }

/-- The `suscan_local_analyzer_ack_halt` function: an urgent HALT with a NULL
payload on the output queue. -/
def suscan_local_analyzer_ack_halt (self : suscan_local_analyzer_t) :
    suscan_local_analyzer_t :=
  { self with mq_out := suscan_mq_write_urgent self.mq_out (suscan_msg.HALT none) }

/-- The loop of `suscan_local_analyzer_wait_for_halt` over the messages it
reads: `none` when the read blocks on the emptied queue. -/
def suscan_local_analyzer_wait_for_halt_loop (self : suscan_local_analyzer_t) :
    List suscan_msg → Option suscan_local_analyzer_t
  | [] => none
  | suscan_msg.HALT _ :: mq =>
    some (suscan_local_analyzer_ack_halt { self with mq_in := mq })
  | msg :: mq =>
    suscan_local_analyzer_wait_for_halt_loop (suscan_analyzer_dispose_message self msg) mq

/-- The `suscan_local_analyzer_wait_for_halt` function. -/
def suscan_local_analyzer_wait_for_halt (self : suscan_local_analyzer_t) :
    Option suscan_local_analyzer_t :=
  suscan_local_analyzer_wait_for_halt_loop self self.mq_in

/-- The `suscan_local_analyzer_override_throttle` function; `none` when the
lock of the throttle mutex never returns. -/
def suscan_local_analyzer_override_throttle
    (self : suscan_local_analyzer_t) (val : Nat) :
    Option (Bool × suscan_local_analyzer_t) :=
  match pthread_mutex_lock self.throttle_mutex with
  | none => none
  | some (rc, held) =>
    let self := { self with throttle_mutex := held }
    if ¬ (rc ≠ -1) then some (false, self)
    else
      let self := { self with
        throttle := suscan_throttle_init val
        effective_samp_rate := val }
      some (true, { self with throttle_mutex := (pthread_mutex_unlock self.throttle_mutex).2 })

/-- The `suscan_local_analyzer_reset_throttle` function. -/
def suscan_local_analyzer_reset_throttle (self : suscan_local_analyzer_t) :
    Option (Bool × suscan_local_analyzer_t) :=
  suscan_local_analyzer_override_throttle self (suscan_local_analyzer_get_samp_rate self)

/-- The `suscan_local_analyzer_readjust_detector` function. -/
def suscan_local_analyzer_readjust_detector
    (env : Env) (i : Nat) (self : suscan_local_analyzer_t)
    (params : sigutils_channel_detector_params) : Bool × suscan_local_analyzer_t :=
  let params := env.su_channel_params_adjust params
  match env.su_channel_detector_set_params i self.detector params with
  | (true, detector) => (true, { self with detector := detector })
  | (false, detector) =>
    /- If not possibe, re-create detector object -/
    match env.su_channel_detector_new i params with
    | none => (false, { self with detector := detector })
    | some new_detector => (true, { self with detector := new_detector })

/-- Modelled from the spec: `suscan_source_stop_capture` stops the capture of
the source. -/
def suscan_source_stop_capture (self : suscan_local_analyzer_t) : suscan_local_analyzer_t :=
  { self with
    source := { self.source with capturing := false }
    log := self.log ++ [Event.stop_capture] }

/-- The local variables of `suscan_analyzer_thread` that the code after the
label `done` reads: `private_` is the message whose payload the pointer
`private` still holds (with its `type`), `none` when `private` is NULL. -/
structure thread_locals where
  private_ : Option suscan_msg := none
  mutex_acquired : Bool := false
  halt_acked : Bool := false
deriving DecidableEq, Repr

/-- The value of the locals `type` and `private` after a read of `msg`. -/
def thread_locals.of_msg (msg : suscan_msg) : Option suscan_msg :=
  if msg.has_private then some msg else none

/-- The PARAMS case of the `switch` of `suscan_analyzer_thread`, between the
lock and the unlock of the loop mutex.  The boolean is false at a
`goto done`. -/
def suscan_analyzer_thread_params_update
    (env : Env) (i : Nat) (self : suscan_local_analyzer_t)
    (new_params : suscan_analyzer_params) : Bool × suscan_local_analyzer_t :=
  /- Attempt to update detector parameters -/
  let new_det_params := self.detector.params
  let new_det_params := { new_det_params with
    window_size := new_params.detector_params.window_size
    window := new_params.detector_params.window
    fc := new_params.detector_params.fc }
  let new_det_params := env.su_channel_params_adjust new_det_params
  match suscan_local_analyzer_readjust_detector env i self new_det_params with
  | (false, self) => (false, self)
  | (true, self) =>
    let self := { self with interval_channels := new_params.channel_update_int }
    if env.sufcmp self.interval_psd new_params.psd_update_int then
      (true, { self with
        interval_psd := new_params.psd_update_int
        det_num_psd := 0
        last_psd := env.suscan_gettime_coarse i })
    else (true, self)

/-- The body of the inner loop of `suscan_analyzer_thread` for the message
just read: the `switch` on its type and the dispose that follows it.  The
result is `none` when a lock never returns; otherwise the analyzer, with
`none` when the loop goes on and the locals at a `goto done`. -/
def suscan_analyzer_thread_switch
    (env : Env) (i : Nat) (self : suscan_local_analyzer_t) (msg : suscan_msg) :
    Option (suscan_local_analyzer_t × Option thread_locals) :=
  match msg with
  | suscan_msg.HALT _ =>
    some (suscan_local_analyzer_ack_halt self,
      some { private_ := thread_locals.of_msg msg, halt_acked := true })
  | suscan_msg.INSPECTOR p =>
    /- Baudrate inspector command. Handle separately -/
    let self := { self with log := self.log ++ [Event.parse_inspector_msg p] }
    if ¬ env.parse_inspector_msg i p then
      some (self, some { private_ := thread_locals.of_msg msg })
    else some (self, none)
  | suscan_msg.EOS _ | suscan_msg.CHANNEL _ =>
    /- Forward these messages to output -/
    match suscan_mq_write (env.mq_write_ok i) self.mq_out msg with
    | (false, mq) =>
      some ({ self with mq_out := mq }, some { private_ := thread_locals.of_msg msg })
    | (true, mq) => some ({ self with mq_out := mq }, none)
  | suscan_msg.THROTTLE _ samp_rate =>
    match
      (if samp_rate = 0 then suscan_local_analyzer_reset_throttle self
       else suscan_local_analyzer_override_throttle self samp_rate) with
    | none => none
    | some (false, self) => some (self, some { private_ := thread_locals.of_msg msg })
    | some (true, self) => some (suscan_analyzer_dispose_message self msg, none)
  | suscan_msg.PARAMS _ new_params =>
    match pthread_mutex_lock self.loop_mutex with
    | none => none
    | some (rc, held) =>
      let self := { self with loop_mutex := held }
      if ¬ (rc ≠ -1) then some (self, some { private_ := thread_locals.of_msg msg })
      else
        match suscan_analyzer_thread_params_update env i self new_params with
        | (false, self) =>
          some (self, some { private_ := thread_locals.of_msg msg, mutex_acquired := true })
        | (true, self) =>
          let rc := pthread_mutex_unlock self.loop_mutex
          let self := { self with loop_mutex := rc.2 }
          if ¬ (rc.1 ≠ -1) then
            some (self, some { private_ := thread_locals.of_msg msg, mutex_acquired := true })
          else some (suscan_analyzer_dispose_message self msg, none)
  | _ =>
    if msg.has_private then some (suscan_analyzer_dispose_message self msg, none)
    else some (self, none)

/-- The message loop of `suscan_analyzer_thread`.  The blocking read at the top
of the outer loop and the polls of the inner loop both take the head of the
input queue, and an empty poll leads to the blocking read, so the loop handles
the input messages in order; it ends at the first `goto done` and blocks
(`none`) when the messages run out.  `i` counts the messages read before. -/
def suscan_analyzer_thread_loop (env : Env) :
    Nat → suscan_local_analyzer_t → List suscan_msg →
      Option (suscan_local_analyzer_t × thread_locals)
  | _, _, [] => none
  | i, self, msg :: mq =>
    match suscan_analyzer_thread_switch env i { self with mq_in := mq } msg with
    | none => none
    | some (self, some locals) => some (self, locals)
    | some (self, none) => suscan_analyzer_thread_loop env (i + 1) self mq

/-- The code of `suscan_analyzer_thread` from its start to the `goto done`
that ends it: the initial push, the SOURCE_INIT status and the message loop,
run on the messages that the input queue delivers (`self.mq_in`, in the order
they are read).  The result is `none` when the thread blocks on the emptied
queue or in a lock. -/
def suscan_analyzer_thread_main (env : Env) (self : suscan_local_analyzer_t) :
    Option (suscan_local_analyzer_t × thread_locals) :=
  let func :=
    match self.params.mode with
    | suscan_analyzer_mode.CHANNEL => suscan_source_channel_wk_cb
    | suscan_analyzer_mode.WIDE_SPECTRUM => suscan_source_wide_wk_cb
  match suscan_worker_push env.push_malloc env.push_write_ok self.source_wk func
      (some self.source.addr) with
  | (false, wk) =>
    let self := { self with source_wk := wk }
    some (suscan_analyzer_send_status self suscan_analyzer_init_code.INIT_FAILURE, {})
  | (true, wk) =>
    let self := { self with source_wk := wk }
    /- Signal initialization success -/
    let self := suscan_analyzer_send_status self suscan_analyzer_init_code.INIT_SUCCESS
    /- Pop all messages from queue before reading from the source -/
    suscan_analyzer_thread_loop env 0 self self.mq_in

/-- The code of `suscan_analyzer_thread` after the label `done`, up to the
test of `halt_acked`: the loop mutex is released when it is held, the payload
still referenced is disposed, the capture is stopped. -/
def suscan_analyzer_thread_cleanup
    (self : suscan_local_analyzer_t) (locals : thread_locals) :
    suscan_local_analyzer_t :=
  let self :=
    if locals.mutex_acquired then
      { self with loop_mutex := (pthread_mutex_unlock self.loop_mutex).2 }
    else self
  let self :=
    match locals.private_ with
    | some msg => suscan_analyzer_dispose_message self msg
    | none => self
  if self.source.capturing then suscan_source_stop_capture self else self

/-- The code of `suscan_analyzer_thread` after the label `done`. -/
def suscan_analyzer_thread_done
    (self : suscan_local_analyzer_t) (locals : thread_locals) :
    Option suscan_local_analyzer_t :=
  let self := suscan_analyzer_thread_cleanup self locals
  match (if !locals.halt_acked then suscan_local_analyzer_wait_for_halt self else some self) with
  | none => none
  | some self => some { self with running := false }

/-- The `suscan_analyzer_thread` function.  The result is `none` when the
thread never returns. -/
def suscan_analyzer_thread (env : Env) (self : suscan_local_analyzer_t) :
    Option suscan_local_analyzer_t :=
  match suscan_analyzer_thread_main env self with
  | none => none
  | some (self, locals) => suscan_analyzer_thread_done self locals

/-- The content of a queue after the non-urgent writes of the messages of
`later`, each of which succeeds. -/
def suscan_mq_writes (mq later : List suscan_msg) : List suscan_msg :=
  later.foldl (fun q msg => (suscan_mq_write true q msg).2) mq

/-- The state a thread outcome carries. -/
def thread_outcome.state {σ : Type} : thread_outcome σ → σ
  | thread_outcome.exited s => s
  | thread_outcome.waiting s => s
  | thread_outcome.looping s => s

/-- The `suscan_local_analyzer_req_halt` function. -/
def suscan_local_analyzer_req_halt (self : suscan_local_analyzer_t) :
    suscan_local_analyzer_t :=
  { self with mq_in := suscan_mq_write_urgent self.mq_in (suscan_msg.HALT none) }

/-- The `suscan_local_analyzer_write` function; `ok` is the outcome of the
queue write. -/
def suscan_local_analyzer_write
    (ok : Bool) (self : suscan_local_analyzer_t) (msg : suscan_msg) :
    Bool × suscan_local_analyzer_t :=
  let r := suscan_mq_write ok self.mq_in msg
  (r.1, { self with mq_in := r.2 })

/-! ## The trace of the control loop

Two descriptions used to state what the control loop has done with the
messages it has read. -/

/-- Whether the control loop forwards a message of this type to the output
queue: the EOS and CHANNEL types. -/
def suscan_msg.is_forwarded : suscan_msg → Bool
  | suscan_msg.EOS _ => true
  | suscan_msg.CHANNEL _ => true
  | _ => false

/-- The calls that the body of the control loop logs for a message after which
the loop goes on: the parser call for an INSPECTOR message, nothing for a
forwarded message, one dispose of the payload for any other message with a
payload. -/
def handled_events : suscan_msg → List Event
  | suscan_msg.INSPECTOR p => [Event.parse_inspector_msg p]
  | suscan_msg.EOS _ => []
  | suscan_msg.CHANNEL _ => []
  | suscan_msg.HALT _ => []
  | msg => if msg.has_private then [Event.dispose msg] else []

/-- The calls that the body of the control loop logs for the message at which
the loop ends with `goto done`: the parser call for an INSPECTOR message. -/
def failed_events : suscan_msg → List Event
  | suscan_msg.INSPECTOR p => [Event.parse_inspector_msg p]
  | _ => []

/-- The detector parameters `cur` with only `window_size`, `window` and `fc`
replaced by those of `msg`: what a PARAMS message is said to build. -/
def detector_params_with_message_fields
    (cur msg : sigutils_channel_detector_params) : sigutils_channel_detector_params :=
  { cur with window_size := msg.window_size, window := msg.window, fc := msg.fc }

/-! ## Construction (`local.c`, `worker.c`) -/

/-- The `suscan_local_analyzer_is_real_time` function. -/
def suscan_local_analyzer_is_real_time (self : suscan_local_analyzer_t) : Bool :=
  self.source.type = suscan_source_type.SDR

/-- The `suscan_local_analyzer_source_init` function; `source_new` is the
result of `suscan_source_new(config)`, NULL when it fails. -/
def suscan_local_analyzer_source_init
    (source_new : Option suscan_source_t) (self : suscan_local_analyzer_t) :
    Bool × suscan_local_analyzer_t :=
  match source_new with
  | none => (false, self)
  | some source =>
    let self := { self with source := source }
    /- For non-realtime sources (i.e. file sources), enable throttling -/
    if ¬ suscan_local_analyzer_is_real_time self then
      let self := { self with throttle_mutex := false, throttle_mutex_init := true }
      (true, { self with
        throttle := suscan_throttle_init (suscan_local_analyzer_get_samp_rate self) })
    else (true, self)

/-- The `suscan_worker_new` function.  `calloc` is the address of the new
worker, NULL when the allocation fails; `mq_init_ok` is the result of
`suscan_mq_init`; `create_rc` is the error number that `pthread_create`
returns (0 on success, a positive number otherwise).  At the label `fail` the
partial worker is destroyed and NULL is returned. -/
def suscan_worker_new
    (calloc : Option Nat) (mq_init_ok : Bool) (create_rc : Nat)
    (mq_out : List suscan_msg) (private_ : Option Nat) : Option suscan_worker_t :=
  match calloc with
  | none => none
  | some addr =>
    let new : suscan_worker_t :=
      { addr := addr
        state := suscan_worker_state.CREATED
        mq_out := mq_out
        private_ := private_ }
    if ¬ mq_init_ok then none
    else if (create_rc : Int) = -1 then none
    else some { new with state := suscan_worker_state.RUNNING }

/-- The outcomes that the constructor takes from its surroundings, and the
constants of the analyzer headers.  A field ending in `_rc` is the error
number a `pthread` call returns (0 on success, a positive number otherwise);
`suscan_source_start_capture` gives the source once capturing, with the rate
and the transfer size the hardware has settled on, NULL when the start fails;
`suscan_inspsched_new` gives the number of workers of the new scheduler. -/
structure CtorEnv where
  SUSCAN_ANALYZER_READ_SIZE : Nat := 512
  SUSCAN_ANALYZER_MIN_POST_HOP_FFTS : Nat := 7
  SU_CHANNEL_DETECTOR_MODE_SPECTRUM : Nat := 1
  calloc : Option Nat := some 1000
  read_buf_ok : Bool := true
  mq_init_ok : Bool := true
  suscan_source_new : Option suscan_source_t := some {}
  source_wk_calloc : Option Nat := some 1001
  source_wk_mq_init_ok : Bool := true
  source_wk_create_rc : Nat := 0
  slow_wk_calloc : Option Nat := some 1002
  slow_wk_mq_init_ok : Bool := true
  slow_wk_create_rc : Nat := 0
  hotconf_mutex_init_rc : Nat := 0
  su_specttuner_new_ok : Bool := true
  suscan_inspsched_new : Option Nat := some 4
  barrier_init_rc : Nat := 0
  sched_lock_init_rc : Nat := 0
  inspector_list_mutex_init_rc : Nat := 0
  suscan_source_start_capture : suscan_source_t → Option suscan_source_t :=
    fun source => some { source with capturing := true }
  realloc_ok : Bool := true
  pthread_create_rc : Nat := 0

/-- The `suscan_local_analyzer_init_detector_params` function, applied to the
template `self->parent->params.detector_params`. -/
def suscan_local_analyzer_init_detector_params
    (sys : CtorEnv) (env : Env) (self : suscan_local_analyzer_t) :
    sigutils_channel_detector_params :=
  /- Recover template -/
  let params := self.params.detector_params
  /- Populate members with source information -/
  let params := { params with mode := sys.SU_CHANNEL_DETECTOR_MODE_SPECTRUM }
  let params := { params with samp_rate := suscan_local_analyzer_get_samp_rate self }
  /- Adjust parameters that depend on sample rate -/
  env.su_channel_params_adjust params

/-- The block of `suscan_local_analyzer_ctor` that follows the comment "In
case the source rejected our initial sample rate configuration, we update the
detector accordingly": the analyzer and the local variable `det_params` after
it, `none` at the `goto fail`.  The call of
`suscan_local_analyzer_readjust_detector` adjusts `det_params` in place. -/
def suscan_local_analyzer_ctor_rate
    (env : Env) (new : suscan_local_analyzer_t)
    (det_params : sigutils_channel_detector_params) :
    Option (suscan_local_analyzer_t × sigutils_channel_detector_params) :=
  if new.effective_samp_rate ≠ new.detector.params.samp_rate then
    let det_params := new.detector.params
    let det_params := { det_params with samp_rate := new.effective_samp_rate }
    match suscan_local_analyzer_readjust_detector env 0 new det_params with
    | (false, _) => none
    | (true, new) => some (new, env.su_channel_params_adjust det_params)
  else some (new, det_params)

/-- The block of `suscan_local_analyzer_ctor` that follows the comment "In
wide spectrum mode, additional tests are required"; `none` at the
`goto fail`. -/
def suscan_local_analyzer_ctor_wide
    (sys : CtorEnv) (parent : suscan_analyzer_t) (new : suscan_local_analyzer_t)
    (det_params : sigutils_channel_detector_params) : Option suscan_local_analyzer_t :=
  if parent.params.mode = suscan_analyzer_mode.WIDE_SPECTRUM then
    if ¬ (parent.params.max_freq - parent.params.min_freq
        ≥ (suscan_local_analyzer_get_samp_rate new : Int)) then none
    else
      some { new with
        current_sweep_params := { new.current_sweep_params with
          fft_min_samples := sys.SUSCAN_ANALYZER_MIN_POST_HOP_FFTS * det_params.window_size
          max_freq := parent.params.max_freq
          min_freq := parent.params.min_freq } }
  else some new

/-- The second half of `suscan_local_analyzer_ctor`, from the start of the
capture to the creation of the control thread.  `det_params` is the local
variable of that name. -/
def suscan_local_analyzer_ctor_start
    (sys : CtorEnv) (env : Env) (parent : suscan_analyzer_t)
    (new : suscan_local_analyzer_t) (det_params : sigutils_channel_detector_params) :
    Option suscan_local_analyzer_t :=
  match sys.suscan_source_start_capture new.source with
  | none => none
  | some source =>
    let new := { new with source := source }
    if new.read_size < new.source.mtu ∧ ¬ sys.realloc_ok then none
    else
      let new :=
        if new.read_size < new.source.mtu then { new with read_size := new.source.mtu }
        else new
      let new := { new with effective_samp_rate := suscan_local_analyzer_get_samp_rate new }
      match suscan_local_analyzer_ctor_rate env new det_params with
      | none => none
      | some (new, det_params) =>
        match suscan_local_analyzer_ctor_wide sys parent new det_params with
        | none => none
        | some new =>
          if (sys.pthread_create_rc : Int) = -1 then none
          else some { new with thread := decide (sys.pthread_create_rc = 0) }

/-- The first half of `suscan_local_analyzer_ctor`, down to the initialisation
of the inspector list mutex, followed by the second half.  The result is
`none` at a `goto fail`. -/
def suscan_local_analyzer_ctor_build
    (sys : CtorEnv) (env : Env) (parent : suscan_analyzer_t) :
    Option suscan_local_analyzer_t :=
  match sys.calloc with
  | none => none
  | some addr =>
    let new : suscan_local_analyzer_t :=
      { params := parent.params, running := parent.running, mq_out := parent.mq_out }
    /- Allocate read buffer -/
    let new := { new with read_size := sys.SUSCAN_ANALYZER_READ_SIZE }
    if ¬ sys.read_buf_ok then none
    /- Create input message queue -/
    else if ¬ sys.mq_init_ok then none
    else
      /- Initialize source -/
      match suscan_local_analyzer_source_init sys.suscan_source_new new with
      | (false, _) => none
      | (true, new) =>
        /- Periodic updates -/
        let new := { new with
          interval_channels := parent.params.channel_update_int
          interval_psd := parent.params.psd_update_int
          last_psd := env.suscan_gettime_coarse 0
          last_channels := env.suscan_gettime_coarse 0 }
        /- Create channel detector -/
        let new := { new with loop_mutex := false }
        let det_params := suscan_local_analyzer_init_detector_params sys env new
        match env.su_channel_detector_new 0 det_params with
        | none => none
        | some detector =>
          let new := { new with detector := detector }
          /- Create source worker -/
          match suscan_worker_new sys.source_wk_calloc sys.source_wk_mq_init_ok
              sys.source_wk_create_rc new.mq_in (some addr) with
          | none => none
          | some source_wk =>
            let new := { new with source_wk := source_wk }
            /- Create slow worker -/
            match suscan_worker_new sys.slow_wk_calloc sys.slow_wk_mq_init_ok
                sys.slow_wk_create_rc new.mq_in (some addr) with
            | none => none
            | some slow_wk =>
              let new := { new with slow_wk := slow_wk }
              /- Initialize gain request mutex -/
              if ¬ ((sys.hotconf_mutex_init_rc : Int) ≠ -1) then none
              /- Create spectral tuner, with matching read size -/
              else if ¬ sys.su_specttuner_new_ok then none
              else
                let new := { new with stuner := some det_params.window_size }
                /- Create inspector scheduler and barrier -/
                match sys.suscan_inspsched_new with
                | none => none
                | some num_workers =>
                  let new := { new with sched := some num_workers }
                  if ¬ (sys.barrier_init_rc = 0) then none
                  else
                    let new := { new with barrier := some (num_workers + 1) }
                    if ¬ (sys.sched_lock_init_rc = 0) then none
                    else if ¬ (sys.inspector_list_mutex_init_rc = 0) then none
                    else
                      let new := { new with inspector_list_mutex := false }
                      suscan_local_analyzer_ctor_start sys env parent new det_params

/-- The `suscan_local_analyzer_ctor` function: the new analyzer, NULL at a
`goto fail` (where the partial object is destroyed), and the parent object
after the call. -/
def suscan_local_analyzer_ctor
    (sys : CtorEnv) (env : Env) (parent : suscan_analyzer_t) :
    Option suscan_local_analyzer_t × suscan_analyzer_t :=
  match suscan_local_analyzer_ctor_build sys env parent with
  | none => (none, parent)
  | some new => (some { new with running := true }, { parent with running := true })

/-! ## Sequences of wide spectrum mutator calls -/

/-- A call of one of the four wide spectrum mutators with its arguments. -/
inductive sweep_call where
  | set_sweep_strategy (strategy : Nat)
  | set_spectrum_partitioning (partitioning : Nat)
  | set_hop_range (min max : Int)
  | set_buffering_size (size : Nat)
deriving DecidableEq, Repr

/-- The mutator call made on an analyzer: the boolean it returns and the
analyzer after it. -/
def sweep_call.apply (self : suscan_local_analyzer_t) :
    sweep_call → Bool × suscan_local_analyzer_t
  | sweep_call.set_sweep_strategy strategy =>
    suscan_local_analyzer_set_sweep_strategy self strategy
  | sweep_call.set_spectrum_partitioning partitioning =>
    suscan_local_analyzer_set_spectrum_partitioning self partitioning
  | sweep_call.set_hop_range min max => suscan_local_analyzer_set_hop_range self min max
  | sweep_call.set_buffering_size size => suscan_local_analyzer_set_buffering_size self size

/-- A sequence of mutator calls made one after another, with no publish in
between: each call with the boolean it returned, and the analyzer after the
last call. -/
def sweep_run (self : suscan_local_analyzer_t) :
    List sweep_call → List (sweep_call × Bool) × suscan_local_analyzer_t
  | [] => ([], self)
  | call :: calls =>
    ((call, (call.apply self).1) :: (sweep_run (call.apply self).2 calls).1,
      (sweep_run (call.apply self).2 calls).2)

/-- The strategy a call sets, if it sets one. -/
def sweep_call.strategy? : sweep_call → Option Nat
  | sweep_call.set_sweep_strategy strategy => some strategy
  | _ => none

/-- The partitioning a call sets, if it sets one. -/
def sweep_call.partitioning? : sweep_call → Option Nat
  | sweep_call.set_spectrum_partitioning partitioning => some partitioning
  | _ => none

/-- The lower end of the range a call sets, if it sets one. -/
def sweep_call.min_freq? : sweep_call → Option Int
  | sweep_call.set_hop_range min _ => some min
  | _ => none

/-- The upper end of the range a call sets, if it sets one. -/
def sweep_call.max_freq? : sweep_call → Option Int
  | sweep_call.set_hop_range _ max => some max
  | _ => none

/-- The buffering size a call sets, if it sets one. -/
def sweep_call.fft_min_samples? : sweep_call → Option Nat
  | sweep_call.set_buffering_size size => some size
  | _ => none

/-- The value that the last successful call touching a field has given to it,
`dflt` when no successful call touches the field; `field` tells which value a
call gives to the field. -/
def last_successful {α : Type} (field : sweep_call → Option α)
    (trace : List (sweep_call × Bool)) (dflt : α) : α :=
  ((trace.filterMap fun cr => if cr.2 then field cr.1 else none).getLast?).getD dflt

/-- The sweep parameters `base` with, for each field touched by at least one
successful call of the trace, the value of the last such call. -/
def sweep_params_after (base : suscan_analyzer_sweep_params)
    (trace : List (sweep_call × Bool)) : suscan_analyzer_sweep_params :=
  { strategy := last_successful sweep_call.strategy? trace base.strategy
    partitioning := last_successful sweep_call.partitioning? trace base.partitioning
    min_freq := last_successful sweep_call.min_freq? trace base.min_freq
    max_freq := last_successful sweep_call.max_freq? trace base.max_freq
    fft_min_samples := last_successful sweep_call.fft_min_samples? trace base.fft_min_samples }

/-! ## Cycle barrier, scheduler lock and inspector binding (`local.c`) -/

/-- The `pthread_barrier_wait` call as the barrier sees it: one more thread
waits, and when `count` threads wait all of them are released.  The result is
the number of threads that wait after the call. -/
def pthread_barrier_wait (count waiting : Nat) : Nat :=
  if waiting + 1 ≥ count then 0 else waiting + 1

/-- The `suscan_local_analyzer_source_barrier` function. -/
def suscan_local_analyzer_source_barrier
    (self : suscan_local_analyzer_t) : suscan_local_analyzer_t :=
  match self.barrier with
  | none => self
  | some count =>
    { self with barrier_waiting := pthread_barrier_wait count self.barrier_waiting }

/-- The `suscan_local_analyzer_enter_sched` function; `none` when the lock
never returns. -/
def suscan_local_analyzer_enter_sched
    (self : suscan_local_analyzer_t) : Option suscan_local_analyzer_t :=
  match pthread_mutex_lock self.sched_lock with
  | none => none
  | some (_, held) => some { self with sched_lock := held }

/-- The `suscan_local_analyzer_leave_sched` function. -/
def suscan_local_analyzer_leave_sched
    (self : suscan_local_analyzer_t) : suscan_local_analyzer_t :=
  { self with sched_lock := (pthread_mutex_unlock self.sched_lock).2 }

/-- Modelled from the spec: `suscan_inspector_task_info_new` allocates a
task-info record for the inspector; `calloc_ok` tells whether the allocation
succeeds, and a new record gets the first unused address. -/
def suscan_inspector_task_info_new
    (calloc_ok : Bool) (self : suscan_local_analyzer_t) (insp : suscan_inspector_t) :
    Option Nat × suscan_local_analyzer_t :=
  if calloc_ok then
    (some self.task_heap.length,
      { self with task_heap := self.task_heap ++ [some { insp := insp.addr, channel := none }] })
  else (none, self)

/-- Modelled from the spec: `suscan_inspector_task_info_destroy` frees the
record. -/
def suscan_inspector_task_info_destroy
    (self : suscan_local_analyzer_t) (task_info : Nat) : suscan_local_analyzer_t :=
  { self with task_heap := self.task_heap.set task_info none }

/-- Modelled from the spec: `suscan_inspsched_append_task_info` registers the
record with the scheduler; `ok` tells whether the call succeeds. -/
def suscan_inspsched_append_task_info
    (ok : Bool) (self : suscan_local_analyzer_t) (task_info : Nat) :
    Bool × suscan_local_analyzer_t :=
  if ok then (true, { self with sched_tasks := self.sched_tasks ++ [task_info] })
  else (false, self)

/-- The `suscan_local_analyzer_bind_inspector_to_channel` function: the
boolean it returns and the analyzer, the channel and the inspector after the
call; `none` when the scheduler lock never returns. -/
def suscan_local_analyzer_bind_inspector_to_channel
    (calloc_ok append_ok : Bool) (self : suscan_local_analyzer_t)
    (channel : su_specttuner_channel_t) (insp : suscan_inspector_t) :
    Option (Bool × suscan_local_analyzer_t × su_specttuner_channel_t × suscan_inspector_t) :=
  match suscan_inspector_task_info_new calloc_ok self insp with
  | (none, self) => some (false, self, channel, insp)
  | (some task_info, self) =>
    let self := { self with
      task_heap := self.task_heap.modify
        (Option.map fun t => { t with channel := some channel.addr }) task_info }
    match suscan_local_analyzer_enter_sched self with
    | none => none
    | some self =>
      match suscan_inspsched_append_task_info append_ok self task_info with
      | (false, self) =>
        let self := suscan_local_analyzer_leave_sched self
        some (false, suscan_inspector_task_info_destroy self task_info, channel, insp)
      | (true, self) =>
        /- Task info registered, binding it to the inspector. -/
        let channel := { channel with privdata := some task_info }
        /- Now we can say that the inspector is actually running -/
        let insp := { insp with state := suscan_async_state.RUNNING }
        some (true, suscan_local_analyzer_leave_sched self, channel, insp)

/-! ## Operations on a constructed analyzer

The functions of `local.c` embedded above, as the calls that the threads of a
running analyzer make on it.  The destructor is not among them. -/

/-- The count the cycle barrier was initialised with and the number of workers
of the inspector scheduler. -/
def suscan_local_analyzer_t.width (self : suscan_local_analyzer_t) :
    Option Nat × Option Nat :=
  (self.barrier, self.sched)

/-- A call of a function of `local.c` on the analyzer, with its arguments and
the outcomes it takes from its surroundings. -/
inductive analyzer_call where
  | sweep (call : sweep_call)
  | lock_inspector_list
  | unlock_inspector_list
  | release_overridable (rq : Nat)
  | override_throttle (val : Nat)
  | reset_throttle
  | readjust_detector (params : sigutils_channel_detector_params)
  | thread
  | write (ok : Bool) (msg : suscan_msg)
  | req_halt
  | source_barrier
  | enter_sched
  | leave_sched
  | bind_inspector_to_channel (calloc_ok append_ok : Bool)
      (channel : su_specttuner_channel_t) (insp : suscan_inspector_t)

/-- The analyzer after a call, `none` when the call never returns. -/
def analyzer_call.step (env : Env) (self : suscan_local_analyzer_t) :
    analyzer_call → Option suscan_local_analyzer_t
  | analyzer_call.sweep call => some (call.apply self).2
  | analyzer_call.lock_inspector_list =>
    (suscan_local_analyzer_lock_inspector_list self).map Prod.snd
  | analyzer_call.unlock_inspector_list =>
    some (suscan_local_analyzer_unlock_inspector_list self)
  | analyzer_call.release_overridable rq =>
    some (suscan_local_analyzer_release_overridable self rq).2
  | analyzer_call.override_throttle val =>
    (suscan_local_analyzer_override_throttle self val).map Prod.snd
  | analyzer_call.reset_throttle =>
    (suscan_local_analyzer_reset_throttle self).map Prod.snd
  | analyzer_call.readjust_detector params =>
    some (suscan_local_analyzer_readjust_detector env 0 self params).2
  | analyzer_call.thread => suscan_analyzer_thread env self
  | analyzer_call.write ok msg => some (suscan_local_analyzer_write ok self msg).2
  | analyzer_call.req_halt => some (suscan_local_analyzer_req_halt self)
  | analyzer_call.source_barrier => some (suscan_local_analyzer_source_barrier self)
  | analyzer_call.enter_sched => suscan_local_analyzer_enter_sched self
  | analyzer_call.leave_sched => some (suscan_local_analyzer_leave_sched self)
  | analyzer_call.bind_inspector_to_channel calloc_ok append_ok channel insp =>
    (suscan_local_analyzer_bind_inspector_to_channel calloc_ok append_ok self channel insp).map
      fun r => r.2.1

/-- The analyzer after the calls of the list, made one after another up to the
first call that never returns. -/
def analyzer_calls (env : Env) :
    List analyzer_call → suscan_local_analyzer_t → suscan_local_analyzer_t
  | [], self => self
  | call :: calls, self =>
    match call.step env self with
    | none => self
    | some self => analyzer_calls env calls self

/-- An operation of a thread on the analyzer: a call, or a call of
`suscan_local_analyzer_acquire_overridable` during which the other threads
make the calls `others` while the inspector list mutex is released. -/
inductive analyzer_op where
  | call (c : analyzer_call)
  | acquire_overridable (others : List analyzer_call) (calloc_ok : Bool) (handle : Int)

/-- The analyzer after an operation, `none` when it never returns. -/
def analyzer_op.step (env : Env) (self : suscan_local_analyzer_t) :
    analyzer_op → Option suscan_local_analyzer_t
  | analyzer_op.call c => c.step env self
  | analyzer_op.acquire_overridable others calloc_ok handle =>
    (suscan_local_analyzer_acquire_overridable (analyzer_calls env others)
      calloc_ok self handle).map Prod.snd

/-- The analyzer after the operations of the list, made one after another up
to the first one that never returns. -/
def analyzer_ops (env : Env) :
    List analyzer_op → suscan_local_analyzer_t → suscan_local_analyzer_t
  | [], self => self
  | op :: ops, self =>
    match op.step env self with
    | none => self
    | some self => analyzer_ops env ops self

/-! ## SoapySDR source adapter (`analyzer/source/impl/soapysdr.c`)

The device library is outside the repository: what a device call returns is
taken from `SoapyDevice`, and the calls that change the device are appended
to a log.  The constants of the headers are taken from `SoapyConsts`. -/

/-- The header constants that `soapysdr.c` names: the three retryable result
codes of `SoapySDRDevice_readStream`, the error code of the signal library
that a failed read returns, and the two permission masks of the analyzer
header.  The values given here are examples. -/
structure SoapyConsts where
  SOAPY_SDR_TIMEOUT : Int := -1
  SOAPY_SDR_OVERFLOW : Int := -4
  SOAPY_SDR_UNDERFLOW : Int := -7
  SU_BLOCK_PORT_READ_ERROR_ACQUIRE : Int := -2
  SUSCAN_ANALYZER_ALL_SDR_PERMISSIONS : Nat := 0xfffffffffffe7fff
  SUSCAN_ANALYZER_PERM_SET_DC_REMOVE : Nat := 0x40

/-- The members of `suscan_source_config_t` that the adapter reads.  The
antenna name is kept as a number, NULL when no antenna is configured. -/
structure suscan_source_config_t where
  channel : Nat := 0
  antenna : Option Nat := none
  freq : Int := 0
  lnb_freq : Int := 0
  bandwidth : Int := 0
  ppm : Int := 0
  samp_rate : Nat := 0
  dc_remove : Bool := false
deriving DecidableEq, Repr

/-- A call that changes the device, with the arguments that `soapysdr.c`
chooses. -/
inductive SoapyCall where
  /-- `SoapySDRDevice_setAntenna(sdr, SOAPY_SDR_RX, channel, name)` -/
  | setAntenna (channel : Nat) (name : Nat)
  /-- `SoapySDRDevice_setGainMode(sdr, SOAPY_SDR_RX, channel, automatic)` -/
  | setGainMode (channel : Nat) (automatic : Bool)
  /-- `SoapySDRDevice_setFrequency(sdr, SOAPY_SDR_RX, channel, freq, NULL)` -/
  | setFrequency (channel : Nat) (freq : Int)
  /-- `SoapySDRDevice_setBandwidth(sdr, SOAPY_SDR_RX, channel, bw)` -/
  | setBandwidth (channel : Nat) (bw : Int)
  /-- `SoapySDRDevice_setFrequencyCorrection(sdr, SOAPY_SDR_RX, channel, ppm)` -/
  | setFrequencyCorrection (channel : Nat) (ppm : Int)
  /-- `SoapySDRDevice_setSampleRate(sdr, SOAPY_SDR_RX, channel, rate)` -/
  | setSampleRate (channel : Nat) (rate : Nat)
  /-- `SoapySDRDevice_setDCOffsetMode(sdr, SOAPY_SDR_RX, channel, automatic)` -/
  | setDCOffsetMode (channel : Nat) (automatic : Bool)
  /-- `SoapySDRDevice_setupStream` on the given channel -/
  | setupStream (channel : Nat)
  /-- `SoapySDRDevice_deactivateStream(sdr, rx_stream, 0, 0)` -/
  | deactivateStream
  /-- `SoapySDRDevice_closeStream(sdr, rx_stream)` -/
  | closeStream
  /-- `SoapySDRDevice_unmake(sdr)` -/
  | unmake
deriving DecidableEq, Repr

/-- What the device answers.  A field ending in `_rc` is the integer a call
returns (0 on success); `setFrequency` and `setBandwidth` give that integer for
the channel and the value they are called with; `readStream` gives the result
of the read that follows the given number of earlier reads; the other fields
are the values the device reports. -/
structure SoapyDevice where
  make_ok : Bool := true
  setAntenna_rc : Int := 0
  setGainMode_rc : Int := 0
  setFrequency : Nat → Int → Int := fun _ _ => 0
  setBandwidth : Nat → Int → Int := fun _ _ => 0
  has_frequency_correction : Bool := true
  setFrequencyCorrection_rc : Int := 0
  setSampleRate_rc : Int := 0
  hasDCOffsetMode : Bool := true
  setDCOffsetMode_rc : Int := 0
  setupStream_ok : Bool := true
  settings_count : Nat := 0
  settings_ok : Bool := true
  getStreamMTU : Nat := 0
  getSampleRate : Nat := 0
  getAntenna : Option Nat := none
  deactivateStream_rc : Int := 0
  readStream : Nat → Int := fun _ => 0

/-- The `struct suscan_source_soapysdr`.  `sdr` and `rx_stream` tell whether
the pointers are set; `reads` counts the calls of
`SoapySDRDevice_readStream` made so far; `calls` logs the calls that change
the device. -/
structure suscan_source_soapysdr where
  config : suscan_source_config_t := {}
  sdr : Bool := false
  rx_stream : Bool := false
  have_dc : Bool := false
  mtu : Nat := 0
  samp_rate : Nat := 0
  force_eos : Bool := false
  reads : Nat := 0
  calls : List SoapyCall := []
deriving DecidableEq, Repr

/-- The members of `struct suscan_source_info` that the adapter fills in. -/
structure suscan_source_info where
  permissions : Nat := 0
  mtu : Nat := 0
  source_samp_rate : Nat := 0
  effective_samp_rate : Nat := 0
  measured_samp_rate : Nat := 0
  source_start : Nat := 0
deriving DecidableEq, Repr

/-- The operator `~` on a 64 bit unsigned word. -/
def uint64_not (x : Nat) : Nat :=
  (2 ^ 64 - 1) ^^^ x

/-- The first part of `suscan_source_soapysdr_init_sdr`, from
`SoapySDRDevice_make` to `SoapySDRDevice_setSampleRate`; the boolean is false
at a `goto done`.  The loop over the configured gains (a failure there is
only a warning) changes nothing that the adapter reads back, and is left out;
`has_frequency_correction` is the test of `SOAPY_SDR_API_VERSION`. -/
def suscan_source_soapysdr_init_sdr_tune
    (dev : SoapyDevice) (self : suscan_source_soapysdr) :
    Bool × suscan_source_soapysdr :=
  let config := self.config
  if ¬ dev.make_ok then (false, self)
  else
    let self := { self with sdr := true }
    let antenna_rc : Int × suscan_source_soapysdr :=
      match config.antenna with
      | none => (0, self)
      | some name =>
        (dev.setAntenna_rc,
          { self with calls := self.calls ++ [SoapyCall.setAntenna config.channel name] })
    if antenna_rc.1 ≠ 0 then (false, antenna_rc.2)
    else
      let self := antenna_rc.2
      /- Disable AGC to prevent eccentric receivers from ignoring gain settings -/
      let self := { self with calls := self.calls ++ [SoapyCall.setGainMode 0 false] }
      if dev.setGainMode_rc ≠ 0 then (false, self)
      else
        let self := { self with
          calls := self.calls ++
            [SoapyCall.setFrequency config.channel (config.freq - config.lnb_freq)] }
        if dev.setFrequency config.channel (config.freq - config.lnb_freq) ≠ 0 then
          (false, self)
        else
          let self := { self with
            calls := self.calls ++ [SoapyCall.setBandwidth config.channel config.bandwidth] }
          if dev.setBandwidth config.channel config.bandwidth ≠ 0 then (false, self)
          else
            let self :=
              if dev.has_frequency_correction then
                { self with
                  calls := self.calls ++
                    [SoapyCall.setFrequencyCorrection config.channel config.ppm] }
              else self
            if dev.has_frequency_correction ∧ dev.setFrequencyCorrection_rc ≠ 0 then
              (false, self)
            else
              let self := { self with
                calls := self.calls ++
                  [SoapyCall.setSampleRate config.channel config.samp_rate] }
              if dev.setSampleRate_rc ≠ 0 then (false, self) else (true, self)

/-- The second part of `suscan_source_soapysdr_init_sdr`, from
`SoapySDRDevice_hasDCOffsetMode` to the end; the boolean is the value of `ok`.
The loop that writes the device settings changes nothing that the adapter
reads back, and is left out. -/
def suscan_source_soapysdr_init_sdr_stream
    (dev : SoapyDevice) (self : suscan_source_soapysdr) :
    Bool × suscan_source_soapysdr :=
  let config := self.config
  let self := { self with have_dc := dev.hasDCOffsetMode }
  let self :=
    if self.have_dc then
      { self with
        calls := self.calls ++ [SoapyCall.setDCOffsetMode config.channel config.dc_remove] }
    else self
  if self.have_dc ∧ dev.setDCOffsetMode_rc ≠ 0 then (false, self)
  else
    /- All set: open SoapySDR stream -/
    let self := { self with calls := self.calls ++ [SoapyCall.setupStream config.channel] }
    if ¬ dev.setupStream_ok then (false, self)
    else
      let self := { self with rx_stream := true }
      if dev.settings_count ≠ 0 ∧ ¬ dev.settings_ok then (false, self)
      else
        let self := { self with mtu := dev.getStreamMTU }
        let self := { self with samp_rate := dev.getSampleRate }
        let self :=
          match dev.getAntenna with
          | some antenna =>
            { self with config := { self.config with antenna := some antenna } }
          | none => self
        (true, self)

/-- The `suscan_source_soapysdr_init_sdr` function. -/
def suscan_source_soapysdr_init_sdr
    (dev : SoapyDevice) (self : suscan_source_soapysdr) :
    Bool × suscan_source_soapysdr :=
  match suscan_source_soapysdr_init_sdr_tune dev self with
  | (false, self) => (false, self)
  | (true, self) => suscan_source_soapysdr_init_sdr_stream dev self

/-- The `suscan_source_soapysdr_close` function, up to `free(self)`. -/
def suscan_source_soapysdr_close (self : suscan_source_soapysdr) : suscan_source_soapysdr :=
  let self :=
    if self.rx_stream then { self with calls := self.calls ++ [SoapyCall.closeStream] }
    else self
  if self.sdr then { self with calls := self.calls ++ [SoapyCall.unmake] } else self

/-- The `suscan_source_soapysdr_open` function.  `calloc_ok` tells whether the
allocation of the adapter succeeds, `now` is the time `gettimeofday` gives.
The result is the new adapter, NULL at `fail`, and the source info after the
call. -/
def suscan_source_soapysdr_open
    (c : SoapyConsts) (dev : SoapyDevice) (calloc_ok : Bool) (now : Nat)
    (config : suscan_source_config_t) (info : suscan_source_info) :
    Option suscan_source_soapysdr × suscan_source_info :=
  if ¬ calloc_ok then (none, info)
  else
    let new : suscan_source_soapysdr := { config := config }
    match suscan_source_soapysdr_init_sdr dev new with
    | (false, _) => (none, info)
    | (true, new) =>
      /- Initialize source info -/
      let info := { info with permissions := c.SUSCAN_ANALYZER_ALL_SDR_PERMISSIONS }
      let info :=
        if ¬ new.have_dc then
          { info with
            permissions :=
              info.permissions &&& uint64_not c.SUSCAN_ANALYZER_PERM_SET_DC_REMOVE }
        else info
      let info := { info with mtu := new.mtu }
      let info := { info with source_samp_rate := new.samp_rate }
      let info := { info with effective_samp_rate := new.samp_rate }
      let info := { info with measured_samp_rate := new.samp_rate }
      let info := { info with source_start := now }
      (some new, info)

/-- Whether a result of the device read is one of the three codes after which
the adapter is said to retry. -/
def SoapyConsts.retryable (c : SoapyConsts) (result : Int) : Bool :=
  result = c.SOAPY_SDR_TIMEOUT ∨ result = c.SOAPY_SDR_OVERFLOW
    ∨ result = c.SOAPY_SDR_UNDERFLOW

/-- The `do ... while (retry)` loop of `suscan_source_soapysdr_read`: the value
of `result` when the loop ends, `none` when it is still running after `fuel`
iterations. -/
def suscan_source_soapysdr_read_loop (c : SoapyConsts) (dev : SoapyDevice) :
    Nat → suscan_source_soapysdr → Option (Int × suscan_source_soapysdr)
  | 0, _ => none
  | fuel + 1, self =>
    let r : Int × suscan_source_soapysdr :=
      if self.force_eos then (0, self)
      else (dev.readStream self.reads, { self with reads := self.reads + 1 })
    if r.1 = c.SOAPY_SDR_TIMEOUT ∨ r.1 = c.SOAPY_SDR_OVERFLOW
        ∨ r.1 = c.SOAPY_SDR_UNDERFLOW then
      /- We should use this statuses as quality indicators -/
      suscan_source_soapysdr_read_loop c dev fuel r.2
    else some r

/-- The `suscan_source_soapysdr_read` function, its loop run for at most
`fuel` iterations. -/
def suscan_source_soapysdr_read
    (c : SoapyConsts) (dev : SoapyDevice) (fuel : Nat) (self : suscan_source_soapysdr) :
    Option (Int × suscan_source_soapysdr) :=
  match suscan_source_soapysdr_read_loop c dev fuel self with
  | none => none
  | some (result, self) =>
    if result < 0 then some (c.SU_BLOCK_PORT_READ_ERROR_ACQUIRE, self)
    else some (result, self)

/-- The `suscan_source_soapysdr_cancel` function. -/
def suscan_source_soapysdr_cancel
    (dev : SoapyDevice) (self : suscan_source_soapysdr) : Bool × suscan_source_soapysdr :=
  let self := { self with force_eos := true }
  let self := { self with calls := self.calls ++ [SoapyCall.deactivateStream] }
  if dev.deactivateStream_rc ≠ 0 then (false, self) else (true, self)

/-- The `suscan_source_soapysdr_set_frequency` function. -/
def suscan_source_soapysdr_set_frequency
    (dev : SoapyDevice) (self : suscan_source_soapysdr) (freq : Int) :
    Bool × suscan_source_soapysdr :=
  /- Set device frequency -/
  let self := { self with
    calls := self.calls ++ [SoapyCall.setFrequency self.config.channel freq] }
  if dev.setFrequency self.config.channel freq ≠ 0 then (false, self) else (true, self)

/-- The `suscan_source_soapysdr_set_bandwidth` function. -/
def suscan_source_soapysdr_set_bandwidth
    (dev : SoapyDevice) (self : suscan_source_soapysdr) (_bw : Int) :
    Bool × suscan_source_soapysdr :=
  /- Set device bandwidth -/
  let self := { self with
    calls := self.calls ++
      [SoapyCall.setBandwidth self.config.channel self.config.bandwidth] }
  if dev.setBandwidth self.config.channel self.config.bandwidth ≠ 0 then (false, self)
  else (true, self)

/-! ## Bundle paths (`util/win32-bundle.imp.h`) -/

/-- What a pointer that `get_bundle_path` returns points to when it is not
NULL: the fresh buffer of `MAX_PATH + 1` bytes, which was never written. -/
inductive bundle_path where
  | buffer
deriving DecidableEq, Repr

/-- The surroundings of `get_bundle_path`: the outcomes of the three calls of
`malloc`, the result of `GetModuleFileNameA` (0 when it fails), the value of
`GetLastError()`, the constant `ERROR_INSUFFICIENT_BUFFER`, and the string
constant `SOAPY_SDR_ABI_VERSION`. -/
structure BundleEnv where
  malloc_thismodpath_ok : Bool := true
  malloc_path_ok : Bool := true
  malloc_pathtofile_ok : Bool := true
  GetModuleFileNameA : Nat := 1
  GetLastError : Nat := 0
  ERROR_INSUFFICIENT_BUFFER : Nat := 122
  SOAPY_SDR_ABI_VERSION : String := "0.8"

/-- The two static variables of `win32-bundle.imp.h`. -/
structure bundle_globals where
  g_modpath : Option bundle_path := none
  g_configpath : Option bundle_path := none
deriving DecidableEq, Repr

/-- The `get_bundle_path` function: the value of `pathtofile` it returns, NULL
or the fresh buffer.  Once the name of the module is known the function sets
`path = dirname(thismodpath)` and builds the string; the code after `done`
then frees `thismodpath` and frees `path`, which is no longer the block that
`malloc` gave but the pointer that `dirname` returned: the second `free` is
not a valid call, the run of the program ends there, and the function does
not return (`none`). -/
def get_bundle_path (env : BundleEnv) (_file : String) : Option (Option bundle_path) :=
  if ¬ env.malloc_thismodpath_ok then some none
  else if ¬ env.malloc_path_ok then some none
  else if ¬ env.malloc_pathtofile_ok then some none
  else if env.GetModuleFileNameA = 0 then some (some bundle_path.buffer)
  else if ¬ (env.GetLastError ≠ env.ERROR_INSUFFICIENT_BUFFER) then
    some (some bundle_path.buffer)
  else none

/-- The `suscan_bundle_get_soapysdr_module_path` function: the pointer it
returns and the static variables after the call; `none` when the call of
`get_bundle_path` does not return. -/
def suscan_bundle_get_soapysdr_module_path (env : BundleEnv) (g : bundle_globals) :
    Option (Option bundle_path × bundle_globals) :=
  if g.g_modpath ≠ none then
    match get_bundle_path env ("modules" ++ env.SOAPY_SDR_ABI_VERSION) with
    | none => none
    | some p => some (p, { g with g_modpath := p })
  else some (g.g_modpath, g)

/-- The `suscan_bundle_get_confdb_path` function: the pointer it returns and
the static variables after the call; `none` when the call of
`get_bundle_path` does not return. -/
def suscan_bundle_get_confdb_path (env : BundleEnv) (g : bundle_globals) :
    Option (Option bundle_path × bundle_globals) :=
  if g.g_configpath = none then
    match get_bundle_path env "config" with
    | none => none
    | some p => some (p, { g with g_configpath := p })
  else some (g.g_configpath, g)

/-- The static variables after `n` calls of
`suscan_bundle_get_soapysdr_module_path`, one after another; `none` when one
of the calls does not return. -/
def module_path_calls (env : BundleEnv) : Nat → bundle_globals → Option bundle_globals
  | 0, g => some g
  | n + 1, g =>
    match suscan_bundle_get_soapysdr_module_path env g with
    | none => none
    | some r => module_path_calls env n r.2

/-! ## Concrete states -/

/-- A channel mode analyzer on which a sweep publish is pending. -/
def c1_analyzer : suscan_local_analyzer_t :=
  { params := { mode := suscan_analyzer_mode.CHANNEL }
    current_sweep_params := { min_freq := 88000000, max_freq := 108000000 }
    pending_sweep_params := { min_freq := 90000000, max_freq := 100000000, strategy := 1 }
    sweep_params_requested := true }

/-- An analyzer whose only inspector (handle 0) is in state INIT. -/
def c2_analyzer : suscan_local_analyzer_t :=
  { inspector_list := [some { addr := 100, state := suscan_async_state.INIT }] }

/-- A RUNNING inspector that carries no request. -/
def c3_inspector : suscan_inspector_t :=
  { addr := 100, state := suscan_async_state.RUNNING, userdata := none }

/-- An analyzer whose inspector at handle 0 is `c3_inspector`. -/
def c3_analyzer : suscan_local_analyzer_t :=
  { inspector_list := [some c3_inspector] }

/-- An analyzer whose inspector at handle 0 carries the request at address 0. -/
def c3_analyzer_req : suscan_local_analyzer_t :=
  { inspector_list := [some { c3_inspector with userdata := some 0 }]
    insp_overridable := some 0
    req_heap := [some { insp := 100, next := none }] }

/-- An analyzer with two RUNNING inspectors; the second one carries the only
request of the list. -/
def c4_analyzer : suscan_local_analyzer_t :=
  { inspector_list :=
      [some c3_inspector,
       some { addr := 300, state := suscan_async_state.RUNNING, userdata := some 0 }]
    insp_overridable := some 0
    req_heap := [some { insp := 300, next := none }] }

/-- A HALTED worker with an empty input queue. -/
def c5_worker : suscan_worker_t :=
  { addr := 50, state := suscan_worker_state.HALTED }

/-- A RUNNING worker with two callbacks pending. -/
def c6_worker : suscan_worker_t :=
  { addr := 50
    state := suscan_worker_state.RUNNING
    private_ := some 9
    mq_in := [suscan_msg.CALLBACK { addr := 1, func := 1, private_ := some 7 },
              suscan_msg.CALLBACK { addr := 2, func := 2, private_ := some 8 }] }

/-- Callbacks for `c6_worker`: each call writes a message to the output queue;
the function 1 returns true, every other function returns false. -/
def c6_F : callback_semantics :=
  fun i func mq_out _ _ => (func == 1, mq_out ++ [suscan_msg.OTHER i none])

/-- A running analyzer whose input queue holds three messages, a HALT and a
message behind the HALT. -/
def c10_analyzer : suscan_local_analyzer_t :=
  { running := true
    source := { addr := 7, samp_rate := 1000, capturing := true }
    mq_in := [suscan_msg.EOS (some 5), suscan_msg.INSPECTOR (some 3),
              suscan_msg.CHANNEL (some 4), suscan_msg.HALT none, suscan_msg.EOS (some 6)] }

/-- Surroundings in which the parser of inspector messages always fails. -/
def c10_env : Env :=
  { parse_inspector_msg := fun _ _ => false }

/-- A running analyzer in wide spectrum mode whose input queue holds two
messages and a HALT. -/
def c11_analyzer : suscan_local_analyzer_t :=
  { params := { mode := suscan_analyzer_mode.WIDE_SPECTRUM }
    running := true
    source := { addr := 7, samp_rate := 1000, capturing := true }
    mq_in := [suscan_msg.CHANNEL (some 4), suscan_msg.INSPECTOR (some 3),
              suscan_msg.HALT none] }

/-- Surroundings in which the allocation of the callback record of the initial
push fails. -/
def c11_env : Env :=
  { push_malloc := none }

/-- An analyzer whose input queue holds three messages and a HALT. -/
def c12_analyzer : suscan_local_analyzer_t :=
  { running := true
    source := { addr := 7, samp_rate := 1000 }
    mq_in := [suscan_msg.CHANNEL (some 4), suscan_msg.THROTTLE 9 0,
              suscan_msg.EOS (some 5), suscan_msg.HALT none] }

/-- An analyzer whose input queue holds an INSPECTOR message and a HALT. -/
def c13_analyzer : suscan_local_analyzer_t :=
  { running := true
    mq_in := [suscan_msg.INSPECTOR (some 3), suscan_msg.HALT none] }

/-- An analyzer in wide spectrum mode with no publish pending. -/
def c17_analyzer : suscan_local_analyzer_t :=
  { params := { mode := suscan_analyzer_mode.WIDE_SPECTRUM }
    current_sweep_params :=
      { min_freq := 88000000, max_freq := 108000000, fft_min_samples := 3584 } }

/-- An analyzer with a detector at one million samples per second. -/
def c16_analyzer : suscan_local_analyzer_t :=
  { running := true
    detector := { addr := 20, params := { mode := 1, samp_rate := 1000000,
                                          window_size := 512, rest := 42 } }
    interval_channels := 10
    interval_psd := 20 }

/-- The payload of a PARAMS message: a larger window, and a sample rate that
the current detector does not have. -/
def c16_params : suscan_analyzer_params :=
  { detector_params := { mode := 2, samp_rate := 5, window_size := 1024, window := 1,
                         fc := 100, rest := 0 }
    channel_update_int := 3
    psd_update_int := 4 }

/-- Surroundings in which the detector can be neither updated in place nor
created again. -/
def c16_env : Env :=
  { su_channel_detector_set_params := fun _ d _ => (false, d)
    su_channel_detector_new := fun _ _ => none }

/-- Another thread that opens an inspector while the mutex is released. -/
def c3_others (self : suscan_local_analyzer_t) : suscan_local_analyzer_t :=
  { self with inspector_list := self.inspector_list ++ [some { addr := 200 }] }

/-- Surroundings in which the source is configured at 1 MHz and the hardware
settles on 960 kHz with a transfer size of 4096 samples. -/
def c19_sys : CtorEnv :=
  { suscan_source_new := some { addr := 7, samp_rate := 1000000 }
    suscan_source_start_capture := fun source =>
      some { source with samp_rate := 960000, capturing := true, mtu := 4096 } }

/-- Surroundings in which the three calls of `pthread_create` fail with the
error number 11 (`EAGAIN`) and every other call succeeds. -/
def c20_sys : CtorEnv :=
  { suscan_source_new := some { addr := 7, samp_rate := 1000000 }
    source_wk_create_rc := 11
    slow_wk_create_rc := 11
    pthread_create_rc := 11 }

/-- A parent analyzer in channel mode, as handed to the constructor. -/
def c19_parent : suscan_analyzer_t :=
  { params :=
      { mode := suscan_analyzer_mode.CHANNEL
        detector_params := { window_size := 512 } } }

/-- A parent analyzer in channel mode that is not running yet. -/
def c20_parent : suscan_analyzer_t :=
  { params :=
      { mode := suscan_analyzer_mode.CHANNEL
        detector_params := { window_size := 512 } }
    running := false }

/-- A device whose reads answer a timeout, an overflow, an underflow and then
512 samples. -/
def c21_dev : SoapyDevice :=
  { readStream := fun k => if k = 0 then -1 else if k = 1 then -4 else if k = 2 then -7 else 512 }

/-- A device on which the deactivation of the stream fails, and whose every
read times out. -/
def c22_dev : SoapyDevice :=
  { deactivateStream_rc := -2
    readStream := fun _ => -1 }

/-- A device without DC offset mode that reports an MTU of 4096 samples and a
sample rate of 960 kHz. -/
def c23_dev : SoapyDevice :=
  { hasDCOffsetMode := false
    getStreamMTU := 4096
    getSampleRate := 960000 }

/-- An adapter configured with a bandwidth of 200 kHz. -/
def c24_source : suscan_source_soapysdr :=
  { config := { bandwidth := 200000 }, sdr := true, rx_stream := true }

/-- A device that accepts a bandwidth of 100 kHz and no other. -/
def c24_dev : SoapyDevice :=
  { setBandwidth := fun _ bw => if bw = 100000 then 0 else -5 }

/-- An analyzer in wide spectrum mode that sweeps 88 MHz to 108 MHz, with no
publish requested and stale pending parameters. -/
def c28_analyzer : suscan_local_analyzer_t :=
  { params := { mode := suscan_analyzer_mode.WIDE_SPECTRUM }
    source := { samp_rate := 1000000 }
    current_sweep_params :=
      { partitioning := 1, min_freq := 88000000, max_freq := 108000000, fft_min_samples := 512 }
    pending_sweep_params := { strategy := 9, partitioning := 9 }
    sweep_params_requested := false }

/-- Five mutator calls; the second `set_hop_range` has `max < min`. -/
def c28_calls : List sweep_call :=
  [sweep_call.set_sweep_strategy 1,
    sweep_call.set_hop_range 90000000 100000000,
    sweep_call.set_hop_range 5 3,
    sweep_call.set_buffering_size 1024,
    sweep_call.set_sweep_strategy 2]

/-- A parent analyzer in wide spectrum mode that sweeps 88 MHz to 108 MHz. -/
def c29_parent : suscan_analyzer_t :=
  { params :=
      { mode := suscan_analyzer_mode.WIDE_SPECTRUM
        detector_params := { window_size := 512 }
        min_freq := 88000000
        max_freq := 108000000 } }

/-- Surroundings in which every call succeeds and the source runs at 1 MHz. -/
def c29_sys : CtorEnv :=
  { suscan_source_new := some { addr := 7, samp_rate := 1000000 } }

/-- An analyzer in wide spectrum mode on a source at 1 MHz that sweeps 88 MHz
to 108 MHz. -/
def c29_analyzer : suscan_local_analyzer_t :=
  { params := { mode := suscan_analyzer_mode.WIDE_SPECTRUM }
    source := { samp_rate := 1000000 }
    current_sweep_params := { min_freq := 88000000, max_freq := 108000000 } }

/-- An analyzer whose only inspector (handle 0, address 100) is RUNNING and
carries no request. -/
def c30_analyzer : suscan_local_analyzer_t :=
  { inspector_list := [some { addr := 100, state := suscan_async_state.RUNNING }] }

/-- Another thread that runs an acquire/release pair on handle 0 while the
inspector list mutex is released. -/
def c30_other_acquire (self : suscan_local_analyzer_t) : suscan_local_analyzer_t :=
  match acquire_release_pair true self 0 with
  | some (_, self) => self
  | none => self

/-- Another thread that, while the inspector list mutex is released, replaces
the inspector at handle 0 by a new RUNNING inspector at address 200. -/
def c30_other_replace (self : suscan_local_analyzer_t) : suscan_local_analyzer_t :=
  { self with
    inspector_list := [some { addr := 200, state := suscan_async_state.RUNNING }] }

/-- An analyzer whose scheduler holds one task-info record, at address 0. -/
def c26_analyzer : suscan_local_analyzer_t :=
  { sched := some 4
    barrier := some 5
    sched_tasks := [0]
    task_heap := [some { insp := 90, channel := some 80 }] }

/-- A tuner channel that is not bound yet. -/
def c26_channel : su_specttuner_channel_t :=
  { addr := 81 }

/-- An inspector that was just created. -/
def c26_inspector : suscan_inspector_t :=
  { addr := 100, state := suscan_async_state.INIT }

/-- A parent analyzer in wide spectrum mode that sweeps 88 MHz to 108 MHz. -/
def c25_parent : suscan_analyzer_t :=
  { params :=
      { mode := suscan_analyzer_mode.WIDE_SPECTRUM
        detector_params := { window_size := 512 }
        min_freq := 88000000
        max_freq := 108000000 } }

/-- Surroundings in which every call succeeds, the source runs at 1 MHz and
the inspector scheduler has three workers. -/
def c25_sys : CtorEnv :=
  { suscan_source_new := some { addr := 7, samp_rate := 1000000 }
    suscan_inspsched_new := some 3 }

/-- Operations on the analyzer once built: a mutator call, a wait at the
barrier, a bind of an inspector, an acquire on a handle that is not in the
table while another thread sets the buffering size, the release of the
inspector list, a HALT request and the run of the control thread. -/
def c25_ops : List analyzer_op :=
  [analyzer_op.call (analyzer_call.sweep (sweep_call.set_sweep_strategy 1)),
    analyzer_op.call analyzer_call.source_barrier,
    analyzer_op.call
      (analyzer_call.bind_inspector_to_channel true true { addr := 81 } { addr := 100 }),
    analyzer_op.acquire_overridable
      [analyzer_call.sweep (sweep_call.set_buffering_size 1024)] true 0,
    analyzer_op.call analyzer_call.unlock_inspector_list,
    analyzer_op.call analyzer_call.req_halt,
    analyzer_op.call analyzer_call.thread]

/-- C1: on an analyzer in CHANNEL mode each of the four wide spectrum mutators
returns false, whatever its argument, and returns the analyzer unchanged; in
particular `current_sweep_params`, `pending_sweep_params` and
`sweep_params_requested` keep their values. -/
theorem C1_channel_mode_rejects_sweep_mutators
    (self : suscan_local_analyzer_t) (strategy partitioning size : Nat)
    (min max : Int) (hmode : self.params.mode = suscan_analyzer_mode.CHANNEL) :
    suscan_local_analyzer_set_sweep_strategy self strategy = (false, self) ∧
    suscan_local_analyzer_set_spectrum_partitioning self partitioning = (false, self) ∧
    suscan_local_analyzer_set_hop_range self min max = (false, self) ∧
    suscan_local_analyzer_set_buffering_size self size = (false, self) := by
  simp [suscan_local_analyzer_set_sweep_strategy,
    suscan_local_analyzer_set_spectrum_partitioning,
    suscan_local_analyzer_set_hop_range,
    suscan_local_analyzer_set_buffering_size, hmode]

/-- Witness of C1: a channel mode analyzer with a publish pending, called with
a valid hop range. -/
theorem C1_channel_mode_rejects_sweep_mutators_witness :
    c1_analyzer.params.mode = suscan_analyzer_mode.CHANNEL ∧
    suscan_local_analyzer_set_sweep_strategy c1_analyzer 1 = (false, c1_analyzer) ∧
    suscan_local_analyzer_set_spectrum_partitioning c1_analyzer 1 = (false, c1_analyzer) ∧
    suscan_local_analyzer_set_hop_range c1_analyzer 88000000 108000000
      = (false, c1_analyzer) ∧
    suscan_local_analyzer_set_buffering_size c1_analyzer 4096 = (false, c1_analyzer) :=
  ⟨rfl, C1_channel_mode_rejects_sweep_mutators c1_analyzer 1 1 4096 88000000 108000000 rfl⟩

/-! ### Overridable requests -/

/-- Writing false into the flag of a free inspector list mutex changes nothing. -/
theorem with_mutex_free (self : suscan_local_analyzer_t)
    (hfree : self.inspector_list_mutex = false) :
    { self with inspector_list_mutex := false } = self := by
  cases self; simp_all

/-- Modifying the cell just appended to a list. -/
theorem modify_append_length {α : Type} (f : α → α) (l : List α) (a : α) :
    List.modify f l.length (l ++ [a]) = l ++ [f a] := by
  induction l with
  | nil => rfl
  | cons x xs ih => simpa [List.modify] using ih

/-- A handle that resolves to an inspector is within the table. -/
theorem get_inspector_range
    (self : suscan_local_analyzer_t) (handle : Int) (insp : suscan_inspector_t)
    (hinsp : suscan_local_analyzer_get_inspector self handle = some insp) :
    0 ≤ handle ∧ handle < (self.inspector_list.length : Int) := by
  unfold suscan_local_analyzer_get_inspector at hinsp
  by_contra h
  simp [h] at hinsp

/-- The table slot of a valid handle after a write to it. -/
theorem getD_set_handle
    (self : suscan_local_analyzer_t) (handle : Int) (insp insp2 : suscan_inspector_t)
    (hinsp : suscan_local_analyzer_get_inspector self handle = some insp) :
    (self.inspector_list.set handle.toNat (some insp2)).getD handle.toNat none
      = some insp2 := by
  have h := get_inspector_range self handle insp hinsp
  have hlt : handle.toNat < self.inspector_list.length := by omega
  simp [List.getD_eq_getElem?_getD, List.getElem?_set, hlt]

/-- A rejected acquire: when the handle does not resolve to a RUNNING inspector
the call returns NULL, nothing but the mutex flag changes, and the inspector
list mutex stays held. -/
theorem acquire_rejected
    (others : suscan_local_analyzer_t → suscan_local_analyzer_t) (calloc_ok : Bool)
    (self : suscan_local_analyzer_t) (handle : Int)
    (hfree : self.inspector_list_mutex = false)
    (hrej : ∀ insp, suscan_local_analyzer_get_inspector self handle = some insp →
      insp.state ≠ suscan_async_state.RUNNING) :
    suscan_local_analyzer_acquire_overridable others calloc_ok self handle
      = some (none, { self with inspector_list_mutex := true }) := by
  have hget : suscan_local_analyzer_get_inspector
      { self with inspector_list_mutex := true } handle
      = suscan_local_analyzer_get_inspector self handle := by
    simp [suscan_local_analyzer_get_inspector]
  cases h : suscan_local_analyzer_get_inspector self handle with
  | none =>
    simp [suscan_local_analyzer_acquire_overridable,
      suscan_local_analyzer_lock_inspector_list, pthread_mutex_lock, hfree, hget, h]
  | some insp =>
    have hne := hrej insp h
    simp [suscan_local_analyzer_acquire_overridable,
      suscan_local_analyzer_lock_inspector_list, pthread_mutex_lock, hfree, hget, h, hne]

/-- Acquire on a RUNNING inspector that already carries a request returns that
request and only takes the mutex. -/
theorem acquire_existing
    (others : suscan_local_analyzer_t → suscan_local_analyzer_t) (calloc_ok : Bool)
    (self : suscan_local_analyzer_t) (handle : Int) (insp : suscan_inspector_t) (r : Nat)
    (hfree : self.inspector_list_mutex = false)
    (hinsp : suscan_local_analyzer_get_inspector self handle = some insp)
    (hrun : insp.state = suscan_async_state.RUNNING)
    (hreq : insp.userdata = some r) :
    suscan_local_analyzer_acquire_overridable others calloc_ok self handle
      = some (some r, { self with inspector_list_mutex := true }) := by
  have hget : suscan_local_analyzer_get_inspector
      { self with inspector_list_mutex := true } handle = some insp := by
    simpa [suscan_local_analyzer_get_inspector] using hinsp
  simp [suscan_local_analyzer_acquire_overridable,
    suscan_local_analyzer_lock_inspector_list, pthread_mutex_lock, hfree, hget, hrun,
    suscan_inspector_get_userdata, hreq]

/-- Acquire on a RUNNING inspector without a request, when the allocation
succeeds and the handle still resolves to a RUNNING inspector once the mutex
is taken again: the new request is pushed at the head of the list and
published in the user-data of the inspector now at the handle. -/
theorem acquire_fresh
    (others : suscan_local_analyzer_t → suscan_local_analyzer_t)
    (self : suscan_local_analyzer_t) (handle : Int) (insp insp2 : suscan_inspector_t)
    (hfree : self.inspector_list_mutex = false)
    (hinsp : suscan_local_analyzer_get_inspector self handle = some insp)
    (hrun : insp.state = suscan_async_state.RUNNING)
    (hreq : insp.userdata = none)
    (hfree2 : (others self).inspector_list_mutex = false)
    (hinsp2 : suscan_local_analyzer_get_inspector (others self) handle = some insp2)
    (hrun2 : insp2.state = suscan_async_state.RUNNING) :
    suscan_local_analyzer_acquire_overridable others true self handle
      = some (some (others self).req_heap.length,
          { others self with
            inspector_list_mutex := true
            req_heap := (others self).req_heap ++
              [some { insp := insp.addr, next := (others self).insp_overridable }]
            insp_overridable := some (others self).req_heap.length
            inspector_list := (others self).inspector_list.set handle.toNat
              (some { insp2 with userdata := some (others self).req_heap.length }) }) := by
  have hget : suscan_local_analyzer_get_inspector
      { self with inspector_list_mutex := true } handle = some insp := by
    simpa [suscan_local_analyzer_get_inspector] using hinsp
  have hrange := get_inspector_range (others self) handle insp2 hinsp2
  have hget2 : suscan_local_analyzer_get_inspector
      { others self with
        inspector_list_mutex := true
        req_heap := (others self).req_heap ++ [some { insp := insp.addr, next := none }] }
      handle = some insp2 := by
    simpa [suscan_local_analyzer_get_inspector] using hinsp2
  have hnot : ¬ (0 ≤ handle → ((others self).inspector_list.length : Int) ≤ handle) := by
    intro h
    have := h hrange.1
    omega
  simp [suscan_local_analyzer_acquire_overridable,
    suscan_local_analyzer_lock_inspector_list, pthread_mutex_lock, hfree, hget, hrun,
    suscan_inspector_get_userdata, hreq, suscan_local_analyzer_unlock_inspector_list,
    pthread_mutex_unlock, with_mutex_free self hfree,
    suscan_inspector_overridable_request_new, hfree2, hget2, hnot, hrun2,
    suscan_inspector_set_userdata, modify_append_length]

/-- C2 (the code departs from it): on an analyzer whose only inspector
is in state INIT, with the inspector list mutex free, acquire with handle 1
(out of range) and with handle 0 (not RUNNING) returns NULL and leaves the
request list and the user-data as they were, but the inspector list mutex is
held after the rejected call; the next acquire never returns. -/
theorem C2_rejected_acquire_leaves_mutex_held :
    c2_analyzer.inspector_list_mutex = false ∧
    suscan_local_analyzer_acquire_overridable id true c2_analyzer 1
      = some (none, { c2_analyzer with inspector_list_mutex := true }) ∧
    suscan_local_analyzer_acquire_overridable id true c2_analyzer 0
      = some (none, { c2_analyzer with inspector_list_mutex := true }) ∧
    suscan_local_analyzer_acquire_overridable id true
      { c2_analyzer with inspector_list_mutex := true } 0 = none := by
  decide

/-- C3: on an analyzer whose inspector list mutex is free, acquire with the
handle of a RUNNING inspector returns a request with the mutex held, and the
release that follows leaves the mutex free.  When the inspector already
carries a request, that request is returned whatever the other threads and
the allocator do; when it carries none, a fresh request is returned provided
the allocation succeeds and, once the mutex is taken again, it was free and
the handle still resolves to a RUNNING inspector. -/
theorem C3_acquire_release_mutex
    (others : suscan_local_analyzer_t → suscan_local_analyzer_t) (calloc_ok : Bool)
    (self : suscan_local_analyzer_t) (handle : Int) (insp : suscan_inspector_t)
    (hfree : self.inspector_list_mutex = false)
    (hinsp : suscan_local_analyzer_get_inspector self handle = some insp)
    (hrun : insp.state = suscan_async_state.RUNNING) :
    (∀ r, insp.userdata = some r →
      ∃ s, suscan_local_analyzer_acquire_overridable others calloc_ok self handle
          = some (some r, s) ∧
        s.inspector_list_mutex = true ∧
        (suscan_local_analyzer_release_overridable s r).2.inspector_list_mutex = false) ∧
    (insp.userdata = none →
      (others self).inspector_list_mutex = false →
      (∃ insp2, suscan_local_analyzer_get_inspector (others self) handle = some insp2 ∧
        insp2.state = suscan_async_state.RUNNING) →
      ∃ req s, suscan_local_analyzer_acquire_overridable others true self handle
          = some (some req, s) ∧
        s.inspector_list_mutex = true ∧
        (suscan_local_analyzer_release_overridable s req).2.inspector_list_mutex = false) := by
  refine ⟨fun r hreq => ?_, fun hreq hfree2 hex => ?_⟩
  · exact ⟨_, acquire_existing others calloc_ok self handle insp r hfree hinsp hrun hreq,
      rfl, rfl⟩
  · obtain ⟨insp2, hinsp2, hrun2⟩ := hex
    exact ⟨_, _, acquire_fresh others self handle insp insp2 hfree hinsp hrun hreq hfree2
      hinsp2 hrun2, rfl, rfl⟩

/-- Witness of C3: at handle 0 of `c3_analyzer` a fresh request is allocated
while another thread appends an inspector to the table; at handle 0 of
`c3_analyzer_req` the inspector already carries the request 0. -/
theorem C3_acquire_release_mutex_witness :
    (∃ req s, suscan_local_analyzer_acquire_overridable c3_others true c3_analyzer 0
        = some (some req, s) ∧
      s.inspector_list_mutex = true ∧
      (suscan_local_analyzer_release_overridable s req).2.inspector_list_mutex = false) ∧
    (∃ s, suscan_local_analyzer_acquire_overridable c3_others false c3_analyzer_req 0
        = some (some 0, s) ∧
      s.inspector_list_mutex = true ∧
      (suscan_local_analyzer_release_overridable s 0).2.inspector_list_mutex = false) :=
  ⟨(C3_acquire_release_mutex c3_others true c3_analyzer 0 c3_inspector rfl rfl rfl).2
      rfl rfl ⟨c3_inspector, rfl, rfl⟩,
    (C3_acquire_release_mutex c3_others false c3_analyzer_req 0
      { c3_inspector with userdata := some 0 } rfl rfl rfl).1 0 rfl⟩

/-- One acquire/release pair on a RUNNING inspector that carries a request
returns the request and leaves the analyzer as it was. -/
theorem pair_existing
    (calloc_ok : Bool)
    (self : suscan_local_analyzer_t) (handle : Int) (insp : suscan_inspector_t) (r : Nat)
    (hfree : self.inspector_list_mutex = false)
    (hinsp : suscan_local_analyzer_get_inspector self handle = some insp)
    (hrun : insp.state = suscan_async_state.RUNNING)
    (hreq : insp.userdata = some r) :
    acquire_release_pair calloc_ok self handle = some (some r, self) := by
  simp [acquire_release_pair,
    acquire_existing id calloc_ok self handle insp r hfree hinsp hrun hreq,
    suscan_local_analyzer_release_overridable, suscan_local_analyzer_unlock_inspector_list,
    pthread_mutex_unlock, with_mutex_free self hfree]

/-- Any number of acquire/release pairs on a RUNNING inspector that carries a
request return that request each time and leave the analyzer as it was. -/
theorem pairs_existing
    (callocs : List Bool)
    (self : suscan_local_analyzer_t) (handle : Int) (insp : suscan_inspector_t) (r : Nat)
    (hfree : self.inspector_list_mutex = false)
    (hinsp : suscan_local_analyzer_get_inspector self handle = some insp)
    (hrun : insp.state = suscan_async_state.RUNNING)
    (hreq : insp.userdata = some r) :
    acquire_release_pairs self handle callocs
      = some (List.replicate callocs.length (some r), self) := by
  induction callocs with
  | nil => rfl
  | cons c cs ih =>
    simp [acquire_release_pairs, pair_existing c self handle insp r hfree hinsp hrun hreq, ih,
      List.replicate_succ]

/-- The first acquire/release pair on a RUNNING inspector without a request. -/
theorem pair_fresh
    (self : suscan_local_analyzer_t) (handle : Int) (insp : suscan_inspector_t)
    (hfree : self.inspector_list_mutex = false)
    (hinsp : suscan_local_analyzer_get_inspector self handle = some insp)
    (hrun : insp.state = suscan_async_state.RUNNING)
    (hreq : insp.userdata = none) :
    acquire_release_pair true self handle
      = some (some self.req_heap.length,
          { self with
            req_heap := self.req_heap ++
              [some { insp := insp.addr, next := self.insp_overridable }]
            insp_overridable := some self.req_heap.length
            inspector_list := self.inspector_list.set handle.toNat
              (some { insp with userdata := some self.req_heap.length }) }) := by
  have h := acquire_fresh id self handle insp insp hfree hinsp hrun hreq hfree hinsp hrun
  simp only [id] at h
  simp [acquire_release_pair, h,
    suscan_local_analyzer_release_overridable, suscan_local_analyzer_unlock_inspector_list,
    pthread_mutex_unlock, hfree]

/-- C4: on an analyzer whose inspector list mutex is free, for a RUNNING
inspector that carries no request and any number of acquire/release pairs run
one after another on its handle, the first of which allocates its request:
every pair returns the same request, the address `req_heap.length` that was
unused before; the final analyzer is the initial one with exactly one new
request, whose `insp` is the inspector and whose `next` is the old head of the
list, placed at the head of the list and published as the user-data of the
inspector.  The later pairs add nothing. -/
theorem C4_one_request_per_inspector
    (self : suscan_local_analyzer_t) (handle : Int) (insp : suscan_inspector_t)
    (callocs : List Bool)
    (hfree : self.inspector_list_mutex = false)
    (hinsp : suscan_local_analyzer_get_inspector self handle = some insp)
    (hrun : insp.state = suscan_async_state.RUNNING)
    (hreq : insp.userdata = none) :
    acquire_release_pairs self handle (true :: callocs)
      = some (List.replicate (callocs.length + 1) (some self.req_heap.length),
          { self with
            req_heap := self.req_heap ++
              [some { insp := insp.addr, next := self.insp_overridable }]
            insp_overridable := some self.req_heap.length
            inspector_list := self.inspector_list.set handle.toNat
              (some { insp with userdata := some self.req_heap.length }) }) := by
  have hget : suscan_local_analyzer_get_inspector
      { self with
        req_heap := self.req_heap ++
          [some { insp := insp.addr, next := self.insp_overridable }]
        insp_overridable := some self.req_heap.length
        inspector_list := self.inspector_list.set handle.toNat
          (some { insp with userdata := some self.req_heap.length }) } handle
      = some { insp with userdata := some self.req_heap.length } := by
    have h1 := getD_set_handle self handle insp
      { insp with userdata := some self.req_heap.length } hinsp
    have h2 := get_inspector_range self handle insp hinsp
    simp [suscan_local_analyzer_get_inspector, h1, h2]
  have hp := pairs_existing callocs
    { self with
      req_heap := self.req_heap ++
        [some { insp := insp.addr, next := self.insp_overridable }]
      insp_overridable := some self.req_heap.length
      inspector_list := self.inspector_list.set handle.toNat
        (some { insp with userdata := some self.req_heap.length }) }
    handle { insp with userdata := some self.req_heap.length } self.req_heap.length
    hfree hget hrun rfl
  simp [acquire_release_pairs, pair_fresh self handle insp hfree hinsp hrun hreq, hp,
    List.replicate_succ]

/-- Witness of C4: three pairs on handle 0 of `c4_analyzer`, whose request list
already holds the request 0 of another inspector; the allocator fails at the
second pair, which does not allocate. -/
theorem C4_one_request_per_inspector_witness :
    acquire_release_pairs c4_analyzer 0 [true, false, true]
      = some ([some 1, some 1, some 1],
          { c4_analyzer with
            req_heap := [some { insp := 300, next := none }, some { insp := 100, next := some 0 }]
            insp_overridable := some 1
            inspector_list :=
              [some { c3_inspector with userdata := some 1 },
               some { addr := 300, state := suscan_async_state.RUNNING, userdata := some 0 }] }) :=
  C4_one_request_per_inspector c4_analyzer 0 c3_inspector [false, true] rfl rfl rfl rfl

/-! ### Worker -/

/-- C5 counterexample: `suscan_worker_push` on a HALTED worker with an empty
input queue returns true and enqueues the CALLBACK message. -/
theorem C5_push_on_halted_worker_counterexample :
    c5_worker.state = suscan_worker_state.HALTED ∧
    suscan_worker_push (some 1) true c5_worker 7 none
      = (true, { c5_worker with
          mq_in := [suscan_msg.CALLBACK { addr := 1, func := 7, private_ := none }] }) ∧
    ¬ ((suscan_worker_push (some 1) true c5_worker 7 none).1 = false ∧
      (suscan_worker_push (some 1) true c5_worker 7 none).2.mq_in = c5_worker.mq_in) := by
  decide

/-- C5 as amended: `suscan_worker_push` does not look at the state of the
worker.  On a HALTED worker it returns true and appends the CALLBACK message
to the tail of the input queue when the allocation of the callback record and
the queue write both succeed; it returns false and leaves the input queue as
it was when one of them fails.  The worker stays HALTED. -/
theorem C5_push_ignores_worker_state
    (malloc : Option Nat) (write_ok : Bool) (worker : suscan_worker_t)
    (func : Nat) (private_ : Option Nat)
    (hstate : worker.state = suscan_worker_state.HALTED) :
    (∀ addr, malloc = some addr → write_ok = true →
      suscan_worker_push malloc write_ok worker func private_
        = (true, { worker with
            mq_in := worker.mq_in ++
              [suscan_msg.CALLBACK { addr := addr, func := func, private_ := private_ }] })) ∧
    ((malloc = none ∨ write_ok = false) →
      (suscan_worker_push malloc write_ok worker func private_).1 = false ∧
      (suscan_worker_push malloc write_ok worker func private_).2.mq_in = worker.mq_in) ∧
    (suscan_worker_push malloc write_ok worker func private_).2.state
      = suscan_worker_state.HALTED := by
  cases malloc <;> cases write_ok <;>
    simp [suscan_worker_push, suscan_worker_callback_new, suscan_mq_write, hstate]

/-- Witness of C5 as amended, on the HALTED worker `c5_worker`. -/
theorem C5_push_ignores_worker_state_witness :
    suscan_worker_push (some 1) true c5_worker 7 none
      = (true, { c5_worker with
          mq_in := c5_worker.mq_in ++
            [suscan_msg.CALLBACK { addr := 1, func := 7, private_ := none }] }) ∧
    (suscan_worker_push none true c5_worker 7 none).1 = false ∧
    (suscan_worker_push none true c5_worker 7 none).2.mq_in = c5_worker.mq_in :=
  ⟨(C5_push_ignores_worker_state (some 1) true c5_worker 7 none rfl).1 1 rfl rfl,
    (C5_push_ignores_worker_state none true c5_worker 7 none rfl).2.1 (Or.inl rfl)⟩

/-- One turn of the worker thread on a CALLBACK message whose callback
returns true. -/
theorem worker_thread_callback_true
    (F : callback_semantics) (fuel i : Nat) (worker : suscan_worker_t)
    (cb : suscan_worker_callback) (rest : List suscan_msg)
    (hq : worker.mq_in = suscan_msg.CALLBACK cb :: rest)
    (hret : (F i cb.func worker.mq_out worker.private_ cb.private_).1 = true) :
    suscan_worker_thread F (fuel + 1) i worker
      = suscan_worker_thread F fuel (i + 1)
          { worker with
            mq_in := rest ++ [suscan_msg.CALLBACK cb]
            mq_out := (F i cb.func worker.mq_out worker.private_ cb.private_).2
            log := worker.log ++ [Event.call cb worker.private_ cb.private_] } := by
  simp [suscan_worker_thread, suscan_mq_read, hq, suscan_worker_thread_switch, hret,
    suscan_mq_write_msg]

/-- One turn of the worker thread on a CALLBACK message whose callback
returns false. -/
theorem worker_thread_callback_false
    (F : callback_semantics) (fuel i : Nat) (worker : suscan_worker_t)
    (cb : suscan_worker_callback) (rest : List suscan_msg)
    (hq : worker.mq_in = suscan_msg.CALLBACK cb :: rest)
    (hret : (F i cb.func worker.mq_out worker.private_ cb.private_).1 = false) :
    suscan_worker_thread F (fuel + 1) i worker
      = suscan_worker_thread F fuel (i + 1)
          { worker with
            mq_in := rest
            mq_out := (F i cb.func worker.mq_out worker.private_ cb.private_).2
            log := worker.log ++
              [Event.call cb worker.private_ cb.private_,
               Event.callback_destroy (suscan_msg.CALLBACK cb),
               Event.msg_destroy (suscan_msg.CALLBACK cb)] } := by
  simp [suscan_worker_thread, suscan_mq_read, hq, suscan_worker_thread_switch, hret]

/-- One turn of the worker thread on a HALT message. -/
theorem worker_thread_halt
    (F : callback_semantics) (fuel i : Nat) (worker : suscan_worker_t)
    (p : Option Nat) (rest : List suscan_msg)
    (hq : worker.mq_in = suscan_msg.HALT p :: rest) :
    suscan_worker_thread F (fuel + 1) i worker
      = thread_outcome.exited
          { worker with
            state := suscan_worker_state.HALTED
            mq_in := rest
            mq_out := suscan_msg.HALT (some worker.addr) :: worker.mq_out
            log := worker.log ++ [Event.msg_destroy (suscan_msg.HALT p)] } := by
  simp [suscan_worker_thread, suscan_mq_read, hq, suscan_worker_thread_switch,
    suscan_worker_ack_halt, suscan_mq_write_urgent, suscan_worker_thread_done]

/-- One turn of the worker thread on a message that is neither a CALLBACK nor
a HALT. -/
theorem worker_thread_other
    (F : callback_semantics) (fuel i : Nat) (worker : suscan_worker_t)
    (msg : suscan_msg) (rest : List suscan_msg)
    (hq : worker.mq_in = msg :: rest)
    (hcb : msg.is_callback = false) (hhalt : msg.is_halt = false) :
    suscan_worker_thread F (fuel + 1) i worker
      = suscan_worker_thread F fuel (i + 1)
          { worker with
            mq_in := rest
            log := worker.log ++ [Event.msg_destroy msg] } := by
  cases msg <;>
    simp_all [suscan_worker_thread, suscan_mq_read, suscan_worker_thread_switch,
      suscan_msg.is_callback, suscan_msg.is_halt]

/-- The calls a run of the worker thread adds to the log are calls of callbacks
that were in the input queue at the start of the run. -/
theorem worker_thread_calls_from_queue (F : callback_semantics) :
    ∀ (fuel i : Nat) (worker : suscan_worker_t),
      ∃ new, (suscan_worker_thread F fuel i worker).state.log = worker.log ++ new ∧
        ∀ cb wp cp, Event.call cb wp cp ∈ new → suscan_msg.CALLBACK cb ∈ worker.mq_in := by
  intro fuel
  induction fuel with
  | zero =>
    intro i worker
    exact ⟨[], by simp [suscan_worker_thread, thread_outcome.state], by simp⟩
  | succ fuel ih =>
    intro i worker
    cases hq : worker.mq_in with
    | nil =>
      exact ⟨[], by simp [suscan_worker_thread, suscan_mq_read, hq, thread_outcome.state],
        by simp⟩
    | cons msg rest =>
      by_cases hc : msg.is_callback = true
      · obtain ⟨cb, rfl⟩ : ∃ cb, msg = suscan_msg.CALLBACK cb := by
          cases msg <;> simp_all [suscan_msg.is_callback]
        cases hret : (F i cb.func worker.mq_out worker.private_ cb.private_).1 with
        | true =>
          rw [worker_thread_callback_true F fuel i worker cb rest hq hret]
          obtain ⟨new, hlog, hcalls⟩ := ih (i + 1)
            { worker with
              mq_in := rest ++ [suscan_msg.CALLBACK cb]
              mq_out := (F i cb.func worker.mq_out worker.private_ cb.private_).2
              log := worker.log ++ [Event.call cb worker.private_ cb.private_] }
          refine ⟨Event.call cb worker.private_ cb.private_ :: new, ?_, ?_⟩
          · simpa using hlog
          · intro c wp cp hmem
            rcases List.mem_cons.mp hmem with h | h
            · injection h with h1
              simp [h1]
            · have := hcalls c wp cp h
              simp at this
              rcases this with h | h
              · exact List.mem_cons_of_mem _ h
              · simp [h]
        | false =>
          rw [worker_thread_callback_false F fuel i worker cb rest hq hret]
          obtain ⟨new, hlog, hcalls⟩ := ih (i + 1)
            { worker with
              mq_in := rest
              mq_out := (F i cb.func worker.mq_out worker.private_ cb.private_).2
              log := worker.log ++
                [Event.call cb worker.private_ cb.private_,
                 Event.callback_destroy (suscan_msg.CALLBACK cb),
                 Event.msg_destroy (suscan_msg.CALLBACK cb)] }
          refine ⟨[Event.call cb worker.private_ cb.private_,
                 Event.callback_destroy (suscan_msg.CALLBACK cb),
                 Event.msg_destroy (suscan_msg.CALLBACK cb)] ++ new, ?_, ?_⟩
          · simpa using hlog
          · intro c wp cp hmem
            simp at hmem
            rcases hmem with h | h
            · simp [h.1]
            · exact List.mem_cons_of_mem _ (hcalls c wp cp h)
      · by_cases hh : msg.is_halt = true
        · obtain ⟨p, rfl⟩ : ∃ p, msg = suscan_msg.HALT p := by
            cases msg <;> simp_all [suscan_msg.is_halt]
          rw [worker_thread_halt F fuel i worker p rest hq]
          exact ⟨[Event.msg_destroy (suscan_msg.HALT p)], by simp [thread_outcome.state],
            by simp⟩
        · rw [worker_thread_other F fuel i worker msg rest hq (by simpa using hc)
            (by simpa using hh)]
          obtain ⟨new, hlog, hcalls⟩ := ih (i + 1)
            { worker with
              mq_in := rest
              log := worker.log ++ [Event.msg_destroy msg] }
          refine ⟨Event.msg_destroy msg :: new, ?_, ?_⟩
          · simpa using hlog
          · intro c wp cp hmem
            simp at hmem
            exact List.mem_cons_of_mem _ (hcalls c wp cp hmem)

/-- C6: when the worker thread takes a CALLBACK message from the head of its
input queue it calls the callback exactly once, with the content of `mq_out`,
the private pointer of the worker and the private pointer of the callback.
If the callback returns true the thread goes on with the very same message at
the tail of the input queue, behind every message that was pending.  If it
returns false the thread goes on with the callback record and the message
destroyed and the message off the queue, and (the record not being queued a
second time) no later turn of the thread calls the callback again. -/
theorem C6_callback_dispatch
    (F : callback_semantics) (fuel i : Nat) (worker : suscan_worker_t)
    (cb : suscan_worker_callback) (rest : List suscan_msg)
    (hq : worker.mq_in = suscan_msg.CALLBACK cb :: rest) :
    ((F i cb.func worker.mq_out worker.private_ cb.private_).1 = true →
      suscan_worker_thread F (fuel + 1) i worker
        = suscan_worker_thread F fuel (i + 1)
            { worker with
              mq_in := rest ++ [suscan_msg.CALLBACK cb]
              mq_out := (F i cb.func worker.mq_out worker.private_ cb.private_).2
              log := worker.log ++ [Event.call cb worker.private_ cb.private_] }) ∧
    ((F i cb.func worker.mq_out worker.private_ cb.private_).1 = false →
      suscan_worker_thread F (fuel + 1) i worker
        = suscan_worker_thread F fuel (i + 1)
            { worker with
              mq_in := rest
              mq_out := (F i cb.func worker.mq_out worker.private_ cb.private_).2
              log := worker.log ++
                [Event.call cb worker.private_ cb.private_,
                 Event.callback_destroy (suscan_msg.CALLBACK cb),
                 Event.msg_destroy (suscan_msg.CALLBACK cb)] } ∧
      (suscan_msg.CALLBACK cb ∉ rest →
        ∃ new, (suscan_worker_thread F (fuel + 1) i worker).state.log
            = worker.log ++
              [Event.call cb worker.private_ cb.private_,
               Event.callback_destroy (suscan_msg.CALLBACK cb),
               Event.msg_destroy (suscan_msg.CALLBACK cb)] ++ new ∧
          ∀ wp cp, Event.call cb wp cp ∉ new)) := by
  refine ⟨fun hret => worker_thread_callback_true F fuel i worker cb rest hq hret,
    fun hret => ⟨worker_thread_callback_false F fuel i worker cb rest hq hret, fun hnot => ?_⟩⟩
  rw [worker_thread_callback_false F fuel i worker cb rest hq hret]
  obtain ⟨new, hlog, hcalls⟩ := worker_thread_calls_from_queue F fuel (i + 1)
    { worker with
      mq_in := rest
      mq_out := (F i cb.func worker.mq_out worker.private_ cb.private_).2
      log := worker.log ++
        [Event.call cb worker.private_ cb.private_,
         Event.callback_destroy (suscan_msg.CALLBACK cb),
         Event.msg_destroy (suscan_msg.CALLBACK cb)] }
  exact ⟨new, hlog, fun wp cp hmem => hnot (hcalls cb wp cp hmem)⟩

/-- Witness of C6: the worker `c6_worker` runs the callbacks `c6_F`; its first
callback returns true and is queued again behind the second one, which
returns false at the next turn and is never called again. -/
theorem C6_callback_dispatch_witness :
    suscan_worker_thread c6_F 4 0 c6_worker
      = suscan_worker_thread c6_F 3 1
          { c6_worker with
            mq_in := [suscan_msg.CALLBACK { addr := 2, func := 2, private_ := some 8 },
                      suscan_msg.CALLBACK { addr := 1, func := 1, private_ := some 7 }]
            mq_out := [suscan_msg.OTHER 0 none]
            log := [Event.call { addr := 1, func := 1, private_ := some 7 } (some 9) (some 7)] } ∧
    ∃ new, (suscan_worker_thread c6_F 3 1
          { c6_worker with
            mq_in := [suscan_msg.CALLBACK { addr := 2, func := 2, private_ := some 8 },
                      suscan_msg.CALLBACK { addr := 1, func := 1, private_ := some 7 }]
            mq_out := [suscan_msg.OTHER 0 none]
            log := [Event.call { addr := 1, func := 1, private_ := some 7 } (some 9)
              (some 7)] }).state.log
        = [Event.call { addr := 1, func := 1, private_ := some 7 } (some 9) (some 7)] ++
          [Event.call { addr := 2, func := 2, private_ := some 8 } (some 9) (some 8),
           Event.callback_destroy
             (suscan_msg.CALLBACK { addr := 2, func := 2, private_ := some 8 }),
           Event.msg_destroy
             (suscan_msg.CALLBACK { addr := 2, func := 2, private_ := some 8 })] ++ new ∧
      ∀ wp cp, Event.call { addr := 2, func := 2, private_ := some 8 } wp cp ∉ new :=
  ⟨(C6_callback_dispatch c6_F 3 0 c6_worker { addr := 1, func := 1, private_ := some 7 }
      [suscan_msg.CALLBACK { addr := 2, func := 2, private_ := some 8 }] rfl).1 rfl,
    ((C6_callback_dispatch c6_F 2 1 _ { addr := 2, func := 2, private_ := some 8 }
      [suscan_msg.CALLBACK { addr := 1, func := 1, private_ := some 7 }] rfl).2 rfl).2
      (by decide)⟩

/-- C7: when the worker thread takes a HALT message from the head of its input
queue it ends at once: the state of the worker is HALTED, the output queue has
exactly one more message, a HALT at its head whose payload is the address of
the worker, and the rest of the input queue is left as it was (no message
behind the HALT is read, no callback is called). -/
theorem C7_halt_dispatch
    (F : callback_semantics) (fuel i : Nat) (worker : suscan_worker_t)
    (p : Option Nat) (rest : List suscan_msg)
    (hq : worker.mq_in = suscan_msg.HALT p :: rest) :
    suscan_worker_thread F (fuel + 1) i worker
      = thread_outcome.exited
          { worker with
            state := suscan_worker_state.HALTED
            mq_in := rest
            mq_out := suscan_msg.HALT (some worker.addr) :: worker.mq_out
            log := worker.log ++ [Event.msg_destroy (suscan_msg.HALT p)] } :=
  worker_thread_halt F fuel i worker p rest hq

/-- Witness of C7: a HALT in front of the two callbacks of `c6_worker`. -/
theorem C7_halt_dispatch_witness :
    suscan_worker_thread c6_F 5 0 (suscan_worker_req_halt c6_worker)
      = thread_outcome.exited
          { suscan_worker_req_halt c6_worker with
            state := suscan_worker_state.HALTED
            mq_in := c6_worker.mq_in
            mq_out := suscan_msg.HALT (some (suscan_worker_req_halt c6_worker).addr)
              :: (suscan_worker_req_halt c6_worker).mq_out
            log := (suscan_worker_req_halt c6_worker).log ++
              [Event.msg_destroy (suscan_msg.HALT none)] } :=
  C7_halt_dispatch c6_F 4 0 (suscan_worker_req_halt c6_worker) none c6_worker.mq_in rfl

/-- The loop of `suscan_worker_destroy` empties the queue and destroys the
record of each CALLBACK message it pops, once. -/
theorem worker_destroy_loop_eq (mq : List suscan_msg) :
    ∀ worker : suscan_worker_t,
      suscan_worker_destroy_loop worker mq
        = { worker with
            mq_in := []
            log := worker.log ++
              (mq.filter suscan_msg.is_callback).map Event.callback_destroy } := by
  induction mq with
  | nil => intro worker; simp [suscan_worker_destroy_loop]
  | cons msg mq ih =>
    intro worker
    cases h : msg.is_callback <;> simp [suscan_worker_destroy_loop, ih, h]

/-- C8: `suscan_worker_destroy` on a RUNNING worker returns false and returns
the worker as it was: nothing is joined, freed or taken from the input queue.
On a HALTED worker, whatever error number `pthread_join` returns, it joins the
thread, pops every message of the input queue, destroys the callback record of
each pending CALLBACK message exactly once (in queue order), finalizes the
queue, frees the worker and returns true. -/
theorem C8_worker_destroy (join_rc : Nat) (worker : suscan_worker_t) :
    (worker.state = suscan_worker_state.RUNNING →
      suscan_worker_destroy join_rc worker = (false, worker)) ∧
    (worker.state = suscan_worker_state.HALTED →
      suscan_worker_destroy join_rc worker
        = (true, { worker with
            mq_in := []
            log := worker.log ++ [Event.pthread_join] ++
              (worker.mq_in.filter suscan_msg.is_callback).map Event.callback_destroy ++
              [Event.mq_finalize, Event.free_worker] })) := by
  constructor
  · intro h
    simp [suscan_worker_destroy, h]
  · intro h
    have hrc : ¬ ((join_rc : Int) = -1) := by omega
    simp [suscan_worker_destroy, h, hrc, suscan_worker_destroy_release,
      worker_destroy_loop_eq]

/-- Witness of C8: the RUNNING worker `c6_worker`, and the same worker once
HALTED, with a failing `pthread_join`. -/
theorem C8_worker_destroy_witness :
    suscan_worker_destroy 3 c6_worker = (false, c6_worker) ∧
    suscan_worker_destroy 3 { c6_worker with state := suscan_worker_state.HALTED }
      = (true, { c6_worker with
          state := suscan_worker_state.HALTED
          mq_in := []
          log := [Event.pthread_join,
            Event.callback_destroy
              (suscan_msg.CALLBACK { addr := 1, func := 1, private_ := some 7 }),
            Event.callback_destroy
              (suscan_msg.CALLBACK { addr := 2, func := 2, private_ := some 8 }),
            Event.mq_finalize, Event.free_worker] }) :=
  ⟨(C8_worker_destroy 3 c6_worker).1 rfl,
    (C8_worker_destroy 3 { c6_worker with state := suscan_worker_state.HALTED }).2 rfl⟩

/-! ### Urgent HALT requests -/

/-- Successful non-urgent writes append to the queue, in order. -/
theorem mq_writes_eq (later : List suscan_msg) :
    ∀ mq : List suscan_msg, suscan_mq_writes mq later = mq ++ later := by
  induction later with
  | nil => intro mq; simp [suscan_mq_writes]
  | cons msg later ih =>
    intro mq
    have := ih (mq ++ [msg])
    simp [suscan_mq_writes, suscan_mq_write] at this ⊢
    exact this

/-- C9: with the queue a FIFO with urgent insertion at the head.  After
`suscan_worker_req_halt`, and after any later non-urgent writes `later`, the
next read of the input queue of the worker gives the HALT, and the worker
thread ends on it: the messages that were pending and the later ones are
all left in the queue, and the log gains no call of a callback.  In the same
way, after `suscan_local_analyzer_req_halt` and any later non-urgent writes
the next read of the input queue of the analyzer gives the HALT, and the
control thread returns with the old and the later messages left in the queue,
having parsed, forwarded and disposed none of them. -/
theorem C9_urgent_halt_is_read_first
    (F : callback_semantics) (fuel i : Nat) (worker : suscan_worker_t)
    (env : Env) (self : suscan_local_analyzer_t) (later : List suscan_msg) :
    suscan_mq_read (suscan_mq_writes (suscan_worker_req_halt worker).mq_in later)
      = some (suscan_msg.HALT none, worker.mq_in ++ later) ∧
    suscan_worker_thread F (fuel + 1) i
        { suscan_worker_req_halt worker with
          mq_in := suscan_mq_writes (suscan_worker_req_halt worker).mq_in later }
      = thread_outcome.exited
          { worker with
            state := suscan_worker_state.HALTED
            mq_in := worker.mq_in ++ later
            mq_out := suscan_msg.HALT (some worker.addr) :: worker.mq_out
            log := worker.log ++ [Event.msg_destroy (suscan_msg.HALT none)] } ∧
    suscan_mq_read (suscan_mq_writes (suscan_local_analyzer_req_halt self).mq_in later)
      = some (suscan_msg.HALT none, self.mq_in ++ later) ∧
    ∃ code final,
      suscan_analyzer_thread env
        { suscan_local_analyzer_req_halt self with
          mq_in := suscan_mq_writes (suscan_local_analyzer_req_halt self).mq_in later }
        = some final ∧
      final.mq_in = self.mq_in ++ later ∧
      final.mq_out = suscan_msg.HALT none :: (self.mq_out ++ [suscan_msg.SOURCE_INIT code]) ∧
      final.log = self.log ++ (if self.source.capturing then [Event.stop_capture] else []) ∧
      final.running = false := by
  refine ⟨?_, ?_, ?_, ?_⟩
  · simp [mq_writes_eq, suscan_worker_req_halt, suscan_mq_write_urgent, suscan_mq_read]
  · have h := worker_thread_halt F fuel i
      { suscan_worker_req_halt worker with
        mq_in := suscan_mq_writes (suscan_worker_req_halt worker).mq_in later }
      none (worker.mq_in ++ later)
      (by simp [mq_writes_eq, suscan_worker_req_halt, suscan_mq_write_urgent])
    rw [h]
    simp [suscan_worker_req_halt]
  · simp [mq_writes_eq, suscan_local_analyzer_req_halt, suscan_mq_write_urgent,
      suscan_mq_read]
  · have hq : suscan_mq_writes (suscan_local_analyzer_req_halt self).mq_in later
        = suscan_msg.HALT none :: (self.mq_in ++ later) := by
      simp [mq_writes_eq, suscan_local_analyzer_req_halt, suscan_mq_write_urgent]
    rw [hq]
    generalize hfunc : (match self.params.mode with
      | suscan_analyzer_mode.CHANNEL => suscan_source_channel_wk_cb
      | suscan_analyzer_mode.WIDE_SPECTRUM => suscan_source_wide_wk_cb) = func
    rcases hpush : suscan_worker_push env.push_malloc env.push_write_ok self.source_wk func
      (some self.source.addr) with ⟨ok, wk⟩
    cases ok
    · refine ⟨suscan_analyzer_init_code.INIT_FAILURE, ?_⟩
      cases hcap : self.source.capturing <;>
        simp [suscan_analyzer_thread, suscan_analyzer_thread_main,
          suscan_local_analyzer_req_halt, hfunc, hpush, suscan_analyzer_thread_done,
          suscan_local_analyzer_wait_for_halt, suscan_local_analyzer_wait_for_halt_loop,
          suscan_analyzer_thread_cleanup, suscan_analyzer_send_status, suscan_mq_write,
          suscan_local_analyzer_ack_halt, suscan_mq_write_urgent, suscan_source_stop_capture,
          hcap]
    · refine ⟨suscan_analyzer_init_code.INIT_SUCCESS, ?_⟩
      cases hcap : self.source.capturing <;>
        simp [suscan_analyzer_thread, suscan_analyzer_thread_main,
          suscan_local_analyzer_req_halt, hfunc, hpush, suscan_analyzer_thread_done,
          suscan_analyzer_thread_loop, suscan_analyzer_thread_switch,
          thread_locals.of_msg, suscan_msg.has_private,
          suscan_analyzer_thread_cleanup, suscan_analyzer_send_status, suscan_mq_write,
          suscan_local_analyzer_ack_halt, suscan_mq_write_urgent, suscan_source_stop_capture,
          hcap]

/-! ### Analyzer control thread -/

/-- The drain loop of the control thread disposes every message in front of
the first HALT once, in order, takes the HALT off the queue and acknowledges
it. -/
theorem wait_for_halt_loop_eq (p : Option Nat) (post : List suscan_msg) :
    ∀ (drained : List suscan_msg) (self : suscan_local_analyzer_t),
      (∀ m ∈ drained, m.is_halt = false) →
      suscan_local_analyzer_wait_for_halt_loop self (drained ++ suscan_msg.HALT p :: post)
        = some (suscan_local_analyzer_ack_halt
            { self with
              mq_in := post
              log := self.log ++ drained.map Event.dispose }) := by
  intro drained
  induction drained with
  | nil =>
    intro self _
    simp [suscan_local_analyzer_wait_for_halt_loop]
  | cons msg drained ih =>
    intro self h
    have hmsg : msg.is_halt = false := h msg (List.mem_cons_self _ _)
    have hrest : ∀ m ∈ drained, m.is_halt = false :=
      fun m hm => h m (List.mem_cons_of_mem _ hm)
    have step : suscan_local_analyzer_wait_for_halt_loop self
        ((msg :: drained) ++ suscan_msg.HALT p :: post)
        = suscan_local_analyzer_wait_for_halt_loop
            (suscan_analyzer_dispose_message self msg)
            (drained ++ suscan_msg.HALT p :: post) := by
      cases msg <;> simp_all [suscan_local_analyzer_wait_for_halt_loop, suscan_msg.is_halt]
    rw [step, ih _ hrest]
    simp [suscan_analyzer_dispose_message]

/-- Readjusting the detector only touches the detector. -/
theorem readjust_detector_frame
    (env : Env) (i : Nat) (self : suscan_local_analyzer_t)
    (params : sigutils_channel_detector_params) :
    ∃ d, (suscan_local_analyzer_readjust_detector env i self params).2
      = { self with detector := d } := by
  unfold suscan_local_analyzer_readjust_detector
  dsimp only
  rcases h : env.su_channel_detector_set_params i self.detector
    (env.su_channel_params_adjust params) with ⟨b, d⟩
  cases b
  · cases h2 : env.su_channel_detector_new i (env.su_channel_params_adjust params) with
    | none => exact ⟨_, rfl⟩
    | some d2 => exact ⟨_, rfl⟩
  · exact ⟨_, rfl⟩

/-- The update of the PARAMS case leaves the queues, the mutexes, the log and
the source as they were. -/
theorem params_update_frame
    (env : Env) (i : Nat) (self : suscan_local_analyzer_t)
    (new_params : suscan_analyzer_params) :
    (suscan_analyzer_thread_params_update env i self new_params).2.mq_in = self.mq_in ∧
    (suscan_analyzer_thread_params_update env i self new_params).2.mq_out = self.mq_out ∧
    (suscan_analyzer_thread_params_update env i self new_params).2.throttle_mutex
      = self.throttle_mutex ∧
    (suscan_analyzer_thread_params_update env i self new_params).2.loop_mutex
      = self.loop_mutex ∧
    (suscan_analyzer_thread_params_update env i self new_params).2.log = self.log ∧
    (suscan_analyzer_thread_params_update env i self new_params).2.source = self.source := by
  unfold suscan_analyzer_thread_params_update
  dsimp only
  generalize env.su_channel_params_adjust _ = p
  obtain ⟨d, hd⟩ := readjust_detector_frame env i self p
  rcases hr : suscan_local_analyzer_readjust_detector env i self p with ⟨b, s⟩
  rw [hr] at hd
  simp only at hd
  subst hd
  cases b
  · simp
  · by_cases hc : env.sufcmp self.interval_psd new_params.psd_update_int = true <;> simp [hc]

/-- The body of the control loop on a message that is not a HALT, with the
loop mutex and the throttle mutex free: the call returns, the input queue is
not touched, the output queue only grows at its tail by messages that are not
a HALT, a `goto done` leaves `halt_acked` false, and when the loop goes on both
mutexes are free again. -/
theorem thread_switch_not_halt
    (env : Env) (i : Nat) (self : suscan_local_analyzer_t) (msg : suscan_msg)
    (hmsg : msg.is_halt = false)
    (hloop : self.loop_mutex = false) (hthr : self.throttle_mutex = false) :
    ∃ s r written,
      suscan_analyzer_thread_switch env i self msg = some (s, r) ∧
      s.mq_in = self.mq_in ∧
      s.mq_out = self.mq_out ++ written ∧
      (∀ m ∈ written, m.is_halt = false) ∧
      (r = none → s.loop_mutex = false ∧ s.throttle_mutex = false) ∧
      (∀ locals, r = some locals → locals.halt_acked = false) := by
  cases msg with
  | HALT p => simp [suscan_msg.is_halt] at hmsg
  | INSPECTOR p =>
    cases h : env.parse_inspector_msg i p
    · have hs : suscan_analyzer_thread_switch env i self (suscan_msg.INSPECTOR p)
          = some ({ self with log := self.log ++ [Event.parse_inspector_msg p] },
              some { private_ := thread_locals.of_msg (suscan_msg.INSPECTOR p) }) := by
        simp [suscan_analyzer_thread_switch, h]
      refine ⟨_, _, [], hs, ?_, ?_, ?_, ?_, ?_⟩ <;> simp
    · have hs : suscan_analyzer_thread_switch env i self (suscan_msg.INSPECTOR p)
          = some ({ self with log := self.log ++ [Event.parse_inspector_msg p] }, none) := by
        simp [suscan_analyzer_thread_switch, h]
      refine ⟨_, _, [], hs, ?_, ?_, ?_, ?_, ?_⟩ <;> simp [hloop, hthr]
  | EOS p =>
    cases h : env.mq_write_ok i
    · have hs : suscan_analyzer_thread_switch env i self (suscan_msg.EOS p)
          = some (self, some { private_ := thread_locals.of_msg (suscan_msg.EOS p) }) := by
        simp [suscan_analyzer_thread_switch, suscan_mq_write, h]
      refine ⟨_, _, [], hs, ?_, ?_, ?_, ?_, ?_⟩ <;> simp
    · have hs : suscan_analyzer_thread_switch env i self (suscan_msg.EOS p)
          = some ({ self with mq_out := self.mq_out ++ [suscan_msg.EOS p] }, none) := by
        simp [suscan_analyzer_thread_switch, suscan_mq_write, h]
      refine ⟨_, _, [suscan_msg.EOS p], hs, ?_, ?_, ?_, ?_, ?_⟩ <;>
        simp [hloop, hthr, suscan_msg.is_halt]
  | CHANNEL p =>
    cases h : env.mq_write_ok i
    · have hs : suscan_analyzer_thread_switch env i self (suscan_msg.CHANNEL p)
          = some (self, some { private_ := thread_locals.of_msg (suscan_msg.CHANNEL p) }) := by
        simp [suscan_analyzer_thread_switch, suscan_mq_write, h]
      refine ⟨_, _, [], hs, ?_, ?_, ?_, ?_, ?_⟩ <;> simp
    · have hs : suscan_analyzer_thread_switch env i self (suscan_msg.CHANNEL p)
          = some ({ self with mq_out := self.mq_out ++ [suscan_msg.CHANNEL p] }, none) := by
        simp [suscan_analyzer_thread_switch, suscan_mq_write, h]
      refine ⟨_, _, [suscan_msg.CHANNEL p], hs, ?_, ?_, ?_, ?_, ?_⟩ <;>
        simp [hloop, hthr, suscan_msg.is_halt]
  | THROTTLE addr samp_rate =>
    have hs : suscan_analyzer_thread_switch env i self (suscan_msg.THROTTLE addr samp_rate)
        = some (suscan_analyzer_dispose_message
            { self with
              throttle := suscan_throttle_init
                (if samp_rate = 0 then suscan_local_analyzer_get_samp_rate self else samp_rate)
              effective_samp_rate :=
                (if samp_rate = 0 then suscan_local_analyzer_get_samp_rate self else samp_rate)
              throttle_mutex := false }
            (suscan_msg.THROTTLE addr samp_rate), none) := by
      by_cases h : samp_rate = 0 <;>
        simp [suscan_analyzer_thread_switch, h, suscan_local_analyzer_reset_throttle,
          suscan_local_analyzer_override_throttle, pthread_mutex_lock, pthread_mutex_unlock,
          hthr]
    refine ⟨_, _, [], hs, ?_, ?_, ?_, ?_, ?_⟩ <;>
      simp [hloop, suscan_analyzer_dispose_message]
  | PARAMS addr new_params =>
    obtain ⟨h1, h2, h3, h4, h5, h6⟩ := params_update_frame env i
      { self with loop_mutex := true } new_params
    rcases hr : suscan_analyzer_thread_params_update env i
      { self with loop_mutex := true } new_params with ⟨b, s⟩
    rw [hr] at h1 h2 h3 h4 h5 h6
    simp only at h1 h2 h3 h4 h5 h6
    cases b
    · have hs : suscan_analyzer_thread_switch env i self (suscan_msg.PARAMS addr new_params)
          = some (s, some {
              private_ := thread_locals.of_msg (suscan_msg.PARAMS addr new_params)
              mutex_acquired := true }) := by
        simp [suscan_analyzer_thread_switch, pthread_mutex_lock, hloop, hr]
      refine ⟨_, _, [], hs, ?_, ?_, ?_, ?_, ?_⟩ <;> simp [h1, h2]
    · have hs : suscan_analyzer_thread_switch env i self (suscan_msg.PARAMS addr new_params)
          = some (suscan_analyzer_dispose_message { s with loop_mutex := false }
              (suscan_msg.PARAMS addr new_params), none) := by
        simp [suscan_analyzer_thread_switch, pthread_mutex_lock, hloop, hr,
          pthread_mutex_unlock]
      refine ⟨_, _, [], hs, ?_, ?_, ?_, ?_, ?_⟩ <;>
        simp [h1, h2, h3, hthr, suscan_analyzer_dispose_message]
  | CALLBACK cb =>
    have hs : suscan_analyzer_thread_switch env i self (suscan_msg.CALLBACK cb)
        = some (suscan_analyzer_dispose_message self (suscan_msg.CALLBACK cb), none) := by
      simp [suscan_analyzer_thread_switch, suscan_msg.has_private]
    refine ⟨_, _, [], hs, ?_, ?_, ?_, ?_, ?_⟩ <;>
      simp [hloop, hthr, suscan_analyzer_dispose_message]
  | SOURCE_INIT code =>
    have hs : suscan_analyzer_thread_switch env i self (suscan_msg.SOURCE_INIT code)
        = some (suscan_analyzer_dispose_message self (suscan_msg.SOURCE_INIT code), none) := by
      simp [suscan_analyzer_thread_switch, suscan_msg.has_private]
    refine ⟨_, _, [], hs, ?_, ?_, ?_, ?_, ?_⟩ <;>
      simp [hloop, hthr, suscan_analyzer_dispose_message]
  | OTHER type p =>
    cases p with
    | none =>
      have hs : suscan_analyzer_thread_switch env i self (suscan_msg.OTHER type none)
          = some (self, none) := by
        simp [suscan_analyzer_thread_switch, suscan_msg.has_private]
      refine ⟨_, _, [], hs, ?_, ?_, ?_, ?_, ?_⟩ <;> simp [hloop, hthr]
    | some a =>
      have hs : suscan_analyzer_thread_switch env i self (suscan_msg.OTHER type (some a))
          = some (suscan_analyzer_dispose_message self (suscan_msg.OTHER type (some a)),
              none) := by
        simp [suscan_analyzer_thread_switch, suscan_msg.has_private]
      refine ⟨_, _, [], hs, ?_, ?_, ?_, ?_, ?_⟩ <;>
        simp [hloop, hthr, suscan_analyzer_dispose_message]

/-- The control loop on a stream of messages with a HALT: it reaches a
`goto done`.  Either it acknowledges the first HALT itself, having handled
every message in front of it, or it stops at a failing message and leaves the
messages `drained` and the HALT in the input queue.  The output queue grows by
`written`, which holds no HALT, and by the acknowledgement when the loop makes
it. -/
theorem thread_loop_spec (env : Env) (p : Option Nat) (post : List suscan_msg) :
    ∀ (pre : List suscan_msg) (i : Nat) (self : suscan_local_analyzer_t),
      (∀ m ∈ pre, m.is_halt = false) →
      self.loop_mutex = false → self.throttle_mutex = false →
      ∃ s1 locals dispatched drained written,
        suscan_analyzer_thread_loop env i self (pre ++ suscan_msg.HALT p :: post)
          = some (s1, locals) ∧
        pre = dispatched ++ drained ∧
        (locals.halt_acked = true → drained = []) ∧
        s1.mq_in = (if locals.halt_acked then post else drained ++ suscan_msg.HALT p :: post) ∧
        s1.mq_out = (if locals.halt_acked then [suscan_msg.HALT none] else []) ++
          self.mq_out ++ written ∧
        (∀ m ∈ written, m.is_halt = false) := by
  intro pre
  induction pre with
  | nil =>
    intro i self _ _ _
    refine ⟨suscan_local_analyzer_ack_halt { self with mq_in := post },
      { private_ := thread_locals.of_msg (suscan_msg.HALT p), halt_acked := true },
      [], [], [], ?_, ?_, ?_, ?_, ?_, ?_⟩ <;>
      simp [suscan_analyzer_thread_loop, suscan_analyzer_thread_switch,
        suscan_local_analyzer_ack_halt, suscan_mq_write_urgent]
  | cons msg pre ih =>
    intro i self hpre hloop hthr
    have hmsg : msg.is_halt = false := hpre msg (List.mem_cons_self _ _)
    have hrest : ∀ m ∈ pre, m.is_halt = false :=
      fun m hm => hpre m (List.mem_cons_of_mem _ hm)
    obtain ⟨s, r, w1, hs, hin, hout, hw1, hfree, hack⟩ :=
      thread_switch_not_halt env i
        { self with mq_in := pre ++ suscan_msg.HALT p :: post } msg hmsg hloop hthr
    cases r with
    | none =>
      obtain ⟨hl, ht⟩ := hfree rfl
      obtain ⟨s1, locals, dispatched, drained, written, h1, h2, h3, h4, h5, h6⟩ :=
        ih (i + 1) s hrest hl ht
      refine ⟨s1, locals, msg :: dispatched, drained, w1 ++ written, ?_, ?_, h3, h4, ?_, ?_⟩
      · simp [suscan_analyzer_thread_loop, hs, h1]
      · simp [h2]
      · rw [h5, hout]
        simp
      · intro m hm
        rcases List.mem_append.mp hm with h | h
        · exact hw1 m h
        · exact h6 m h
    | some locals =>
      have hl := hack locals rfl
      refine ⟨s, locals, [msg], pre, w1, ?_, ?_, ?_, ?_, ?_, hw1⟩
      · simp [suscan_analyzer_thread_loop, hs]
      · simp
      · simp [hl]
      · simp [hl, hin]
      · simp [hl, hout]

/-- The cleanup after the label `done` touches neither queue. -/
theorem thread_cleanup_queues (self : suscan_local_analyzer_t) (locals : thread_locals) :
    (suscan_analyzer_thread_cleanup self locals).mq_in = self.mq_in ∧
    (suscan_analyzer_thread_cleanup self locals).mq_out = self.mq_out := by
  unfold suscan_analyzer_thread_cleanup
  cases locals.mutex_acquired <;> cases locals.private_ <;>
    cases h : self.source.capturing <;>
    simp [h, suscan_analyzer_dispose_message, suscan_source_stop_capture]

/-- C10: on an input stream `pre ++ HALT :: post` whose first HALT comes after
`pre`, with the loop mutex and the throttle mutex free, whatever the outcomes
`env` of the fallible steps, the control thread returns.  The state `s1` at
its `goto done` has the acknowledgement at the head of the output queue when
the dispatch loop made it (`halt_acked`), and then nothing is left to drain;
otherwise the output queue holds no new HALT, the messages `drained` and the
HALT are still in the input queue, and the drain loop disposes each drained
message once and makes the acknowledgement.  In both cases the final output
queue is one urgent HALT with a NULL payload in front of the old content and
of the other writes of the thread, none of which is a HALT; the messages
behind the HALT are still in the input queue; and `running` is false. -/
theorem C10_thread_acknowledges_halt_once
    (env : Env) (self : suscan_local_analyzer_t)
    (pre : List suscan_msg) (p : Option Nat) (post : List suscan_msg)
    (hpre : ∀ m ∈ pre, m.is_halt = false)
    (hloop : self.loop_mutex = false) (hthr : self.throttle_mutex = false)
    (hin : self.mq_in = pre ++ suscan_msg.HALT p :: post) :
    ∃ s1 locals dispatched drained written final,
      suscan_analyzer_thread_main env self = some (s1, locals) ∧
      suscan_analyzer_thread env self = some final ∧
      pre = dispatched ++ drained ∧
      (locals.halt_acked = true → drained = []) ∧
      s1.mq_in = (if locals.halt_acked then post else drained ++ suscan_msg.HALT p :: post) ∧
      s1.mq_out = (if locals.halt_acked then [suscan_msg.HALT none] else []) ++
        self.mq_out ++ written ∧
      (∀ m ∈ written, m.is_halt = false) ∧
      final.mq_out = suscan_msg.HALT none :: (self.mq_out ++ written) ∧
      final.mq_in = post ∧
      final.log = (suscan_analyzer_thread_cleanup s1 locals).log ++
        drained.map Event.dispose ∧
      final.running = false := by
  have key : ∃ s1 locals dispatched drained written,
      suscan_analyzer_thread_main env self = some (s1, locals) ∧
      pre = dispatched ++ drained ∧
      (locals.halt_acked = true → drained = []) ∧
      s1.mq_in = (if locals.halt_acked then post else drained ++ suscan_msg.HALT p :: post) ∧
      s1.mq_out = (if locals.halt_acked then [suscan_msg.HALT none] else []) ++
        self.mq_out ++ written ∧
      (∀ m ∈ written, m.is_halt = false) := by
    unfold suscan_analyzer_thread_main
    dsimp only
    generalize (match self.params.mode with
      | suscan_analyzer_mode.CHANNEL => suscan_source_channel_wk_cb
      | suscan_analyzer_mode.WIDE_SPECTRUM => suscan_source_wide_wk_cb) = func
    rcases hpush : suscan_worker_push env.push_malloc env.push_write_ok self.source_wk func
      (some self.source.addr) with ⟨ok, wk⟩
    cases ok
    · refine ⟨_, _, [], pre, [suscan_msg.SOURCE_INIT suscan_analyzer_init_code.INIT_FAILURE],
        rfl, ?_, ?_, ?_, ?_, ?_⟩ <;>
        simp [suscan_analyzer_send_status, suscan_mq_write, hin, suscan_msg.is_halt]
    · obtain ⟨s1, locals, dispatched, drained, written, h1, h2, h3, h4, h5, h6⟩ :=
        thread_loop_spec env p post pre 0
          (suscan_analyzer_send_status { self with source_wk := wk }
            suscan_analyzer_init_code.INIT_SUCCESS) hpre
          (by simpa [suscan_analyzer_send_status] using hloop)
          (by simpa [suscan_analyzer_send_status] using hthr)
      refine ⟨s1, locals, dispatched, drained,
        suscan_msg.SOURCE_INIT suscan_analyzer_init_code.INIT_SUCCESS :: written,
        ?_, h2, h3, h4, ?_, ?_⟩
      · simp only []
        rw [← h1]
        simp [suscan_analyzer_send_status, hin]
      · rw [h5]
        simp [suscan_analyzer_send_status, suscan_mq_write]
      · intro m hm
        rcases List.mem_cons.mp hm with h | h
        · simp [h, suscan_msg.is_halt]
        · exact h6 m h
  obtain ⟨s1, locals, dispatched, drained, written, h1, h2, h3, h4, h5, h6⟩ := key
  obtain ⟨hcin, hcout⟩ := thread_cleanup_queues s1 locals
  have hdr : ∀ m ∈ drained, m.is_halt = false := by
    intro m hm
    exact hpre m (by rw [h2]; exact List.mem_append_right _ hm)
  cases hacked : locals.halt_acked with
  | true =>
    have hd := h3 hacked
    subst hd
    refine ⟨s1, locals, dispatched, [], written,
      { suscan_analyzer_thread_cleanup s1 locals with running := false },
      h1, ?_, h2, ?_, ?_, ?_, h6, ?_, ?_, ?_, ?_⟩
    · simp [suscan_analyzer_thread, h1, suscan_analyzer_thread_done, hacked]
    · simp
    · simpa [hacked] using h4
    · simpa [hacked] using h5
    · simp [hcout, h5, hacked]
    · simp [hcin, h4, hacked]
    · simp
    · simp
  | false =>
    have hwait : suscan_local_analyzer_wait_for_halt (suscan_analyzer_thread_cleanup s1 locals)
        = some (suscan_local_analyzer_ack_halt
          { suscan_analyzer_thread_cleanup s1 locals with
            mq_in := post
            log := (suscan_analyzer_thread_cleanup s1 locals).log ++
              drained.map Event.dispose }) := by
      unfold suscan_local_analyzer_wait_for_halt
      rw [hcin, h4]
      simp only [hacked]
      exact wait_for_halt_loop_eq p post drained _ hdr
    refine ⟨s1, locals, dispatched, drained, written,
      { suscan_local_analyzer_ack_halt
          { suscan_analyzer_thread_cleanup s1 locals with
            mq_in := post
            log := (suscan_analyzer_thread_cleanup s1 locals).log ++
              drained.map Event.dispose } with running := false },
      h1, ?_, h2, ?_, ?_, ?_, h6, ?_, ?_, ?_, ?_⟩
    · simp [suscan_analyzer_thread, h1, suscan_analyzer_thread_done, hacked, hwait]
    · exact h3
    · simpa [hacked] using h4
    · simpa [hacked] using h5
    · simp [suscan_local_analyzer_ack_halt, suscan_mq_write_urgent, hcout, h5, hacked]
    · simp [suscan_local_analyzer_ack_halt]
    · simp [suscan_local_analyzer_ack_halt]
    · simp

/-- Witness of C10: the parser of inspector messages fails on the second
message of the stream; the CHANNEL message behind it is drained and the HALT
is acknowledged by the drain loop. -/
theorem C10_thread_acknowledges_halt_once_witness :
    ∃ s1 locals dispatched drained written final,
      suscan_analyzer_thread_main c10_env c10_analyzer = some (s1, locals) ∧
      suscan_analyzer_thread c10_env c10_analyzer = some final ∧
      [suscan_msg.EOS (some 5), suscan_msg.INSPECTOR (some 3), suscan_msg.CHANNEL (some 4)]
        = dispatched ++ drained ∧
      (locals.halt_acked = true → drained = []) ∧
      s1.mq_in = (if locals.halt_acked then [suscan_msg.EOS (some 6)]
        else drained ++ suscan_msg.HALT none :: [suscan_msg.EOS (some 6)]) ∧
      s1.mq_out = (if locals.halt_acked then [suscan_msg.HALT none] else []) ++
        c10_analyzer.mq_out ++ written ∧
      (∀ m ∈ written, m.is_halt = false) ∧
      final.mq_out = suscan_msg.HALT none :: (c10_analyzer.mq_out ++ written) ∧
      final.mq_in = [suscan_msg.EOS (some 6)] ∧
      final.log = (suscan_analyzer_thread_cleanup s1 locals).log ++
        drained.map Event.dispose ∧
      final.running = false :=
  C10_thread_acknowledges_halt_once c10_env c10_analyzer
    [suscan_msg.EOS (some 5), suscan_msg.INSPECTOR (some 3), suscan_msg.CHANNEL (some 4)]
    none [suscan_msg.EOS (some 6)] (by decide) rfl rfl rfl

/-! ### Trace of the control thread -/

/-- Overriding the throttle with a free throttle mutex. -/
theorem override_throttle_eq (self : suscan_local_analyzer_t) (val : Nat)
    (hthr : self.throttle_mutex = false) :
    suscan_local_analyzer_override_throttle self val
      = some (true, { self with
          throttle := suscan_throttle_init val
          effective_samp_rate := val
          throttle_mutex := false }) := by
  simp [suscan_local_analyzer_override_throttle, pthread_mutex_lock, pthread_mutex_unlock, hthr]

/-- Overriding the throttle while the throttle mutex is held blocks. -/
theorem override_throttle_blocks (self : suscan_local_analyzer_t) (val : Nat)
    (hthr : self.throttle_mutex = true) :
    suscan_local_analyzer_override_throttle self val = none := by
  simp [suscan_local_analyzer_override_throttle, pthread_mutex_lock, hthr]

/-- The body of the control loop when the loop goes on: the message is not a
HALT, the input queue and the source are not touched, a forwarded message is
appended to the output queue, and the log grows by `handled_events`. -/
theorem thread_switch_continue
    (env : Env) (i : Nat) (self s : suscan_local_analyzer_t) (msg : suscan_msg)
    (h : suscan_analyzer_thread_switch env i self msg = some (s, none)) :
    msg.is_halt = false ∧ s.mq_in = self.mq_in ∧ s.source = self.source ∧
    s.mq_out = self.mq_out ++ (if msg.is_forwarded then [msg] else []) ∧
    s.log = self.log ++ handled_events msg := by
  cases msg with
  | HALT p => simp [suscan_analyzer_thread_switch] at h
  | INSPECTOR p =>
    cases hp : env.parse_inspector_msg i p <;>
      simp [suscan_analyzer_thread_switch, hp] at h
    subst h
    simp [suscan_msg.is_halt, suscan_msg.is_forwarded, handled_events]
  | EOS p =>
    cases hw : env.mq_write_ok i <;>
      simp [suscan_analyzer_thread_switch, suscan_mq_write, hw] at h
    subst h
    simp [suscan_msg.is_halt, suscan_msg.is_forwarded, handled_events]
  | CHANNEL p =>
    cases hw : env.mq_write_ok i <;>
      simp [suscan_analyzer_thread_switch, suscan_mq_write, hw] at h
    subst h
    simp [suscan_msg.is_halt, suscan_msg.is_forwarded, handled_events]
  | THROTTLE addr samp_rate =>
    cases hthr : self.throttle_mutex with
    | true =>
      simp [suscan_analyzer_thread_switch, suscan_local_analyzer_reset_throttle,
        override_throttle_blocks self _ hthr] at h
    | false =>
      by_cases h0 : samp_rate = 0 <;>
        simp [suscan_analyzer_thread_switch, suscan_local_analyzer_reset_throttle,
          override_throttle_eq self _ hthr, h0] at h <;>
        subst h <;>
        simp [suscan_msg.is_halt, suscan_msg.is_forwarded, handled_events,
          suscan_msg.has_private, suscan_analyzer_dispose_message, h0]
  | PARAMS addr new_params =>
    cases hloop : self.loop_mutex with
    | true => simp [suscan_analyzer_thread_switch, pthread_mutex_lock, hloop] at h
    | false =>
      obtain ⟨h1, h2, h3, h4, h5, h6⟩ := params_update_frame env i
        { self with loop_mutex := true } new_params
      rcases hr : suscan_analyzer_thread_params_update env i
        { self with loop_mutex := true } new_params with ⟨b, u⟩
      rw [hr] at h1 h2 h3 h4 h5 h6
      simp only at h1 h2 h3 h4 h5 h6
      cases b <;>
        simp [suscan_analyzer_thread_switch, pthread_mutex_lock, hloop, hr,
          pthread_mutex_unlock] at h
      subst h
      simp [suscan_msg.is_halt, suscan_msg.is_forwarded, handled_events,
        suscan_msg.has_private, suscan_analyzer_dispose_message, h1, h2, h5, h6]
  | CALLBACK cb =>
    simp [suscan_analyzer_thread_switch, suscan_msg.has_private] at h
    subst h
    simp [suscan_msg.is_halt, suscan_msg.is_forwarded, handled_events,
      suscan_msg.has_private, suscan_analyzer_dispose_message]
  | SOURCE_INIT code =>
    simp [suscan_analyzer_thread_switch, suscan_msg.has_private] at h
    subst h
    simp [suscan_msg.is_halt, suscan_msg.is_forwarded, handled_events,
      suscan_msg.has_private, suscan_analyzer_dispose_message]
  | OTHER type p =>
    cases p <;> simp [suscan_analyzer_thread_switch, suscan_msg.has_private] at h <;>
      subst h <;>
      simp [suscan_msg.is_halt, suscan_msg.is_forwarded, handled_events,
        suscan_msg.has_private, suscan_analyzer_dispose_message]

/-- The body of the control loop at a `goto done`: the input queue, the source
and the log are not touched (but for the parser call), the locals hold the
payload of the message, `halt_acked` tells whether the message is a HALT, in
which case the acknowledgement is at the head of the output queue; a
forwarded message ends the loop only when its write has failed. -/
theorem thread_switch_done
    (env : Env) (i : Nat) (self s : suscan_local_analyzer_t) (msg : suscan_msg)
    (locals : thread_locals)
    (h : suscan_analyzer_thread_switch env i self msg = some (s, some locals)) :
    s.mq_in = self.mq_in ∧ s.source = self.source ∧
    locals.private_ = thread_locals.of_msg msg ∧
    locals.halt_acked = msg.is_halt ∧
    s.mq_out = (if msg.is_halt then [suscan_msg.HALT none] else []) ++ self.mq_out ∧
    s.log = self.log ++ failed_events msg ∧
    (msg.is_forwarded = true → env.mq_write_ok i = false) := by
  cases msg with
  | HALT p =>
    simp [suscan_analyzer_thread_switch] at h
    obtain ⟨h1, h2⟩ := h
    subst h1 h2
    simp [suscan_msg.is_halt, suscan_msg.is_forwarded, failed_events,
      suscan_local_analyzer_ack_halt, suscan_mq_write_urgent]
  | INSPECTOR p =>
    cases hp : env.parse_inspector_msg i p <;>
      simp [suscan_analyzer_thread_switch, hp] at h
    obtain ⟨h1, h2⟩ := h
    subst h1 h2
    simp [suscan_msg.is_halt, suscan_msg.is_forwarded, failed_events]
  | EOS p =>
    cases hw : env.mq_write_ok i <;>
      simp [suscan_analyzer_thread_switch, suscan_mq_write, hw] at h
    obtain ⟨h1, h2⟩ := h
    subst h1 h2
    simp [suscan_msg.is_halt, suscan_msg.is_forwarded, failed_events]
  | CHANNEL p =>
    cases hw : env.mq_write_ok i <;>
      simp [suscan_analyzer_thread_switch, suscan_mq_write, hw] at h
    obtain ⟨h1, h2⟩ := h
    subst h1 h2
    simp [suscan_msg.is_halt, suscan_msg.is_forwarded, failed_events]
  | THROTTLE addr samp_rate =>
    cases hthr : self.throttle_mutex with
    | true =>
      simp [suscan_analyzer_thread_switch, suscan_local_analyzer_reset_throttle,
        override_throttle_blocks self _ hthr] at h
    | false =>
      by_cases h0 : samp_rate = 0 <;>
        simp [suscan_analyzer_thread_switch, suscan_local_analyzer_reset_throttle,
          override_throttle_eq self _ hthr, h0] at h
  | PARAMS addr new_params =>
    cases hloop : self.loop_mutex with
    | true => simp [suscan_analyzer_thread_switch, pthread_mutex_lock, hloop] at h
    | false =>
      obtain ⟨h1, h2, h3, h4, h5, h6⟩ := params_update_frame env i
        { self with loop_mutex := true } new_params
      rcases hr : suscan_analyzer_thread_params_update env i
        { self with loop_mutex := true } new_params with ⟨b, u⟩
      rw [hr] at h1 h2 h3 h4 h5 h6
      simp only at h1 h2 h3 h4 h5 h6
      cases b <;>
        simp [suscan_analyzer_thread_switch, pthread_mutex_lock, hloop, hr,
          pthread_mutex_unlock] at h
      obtain ⟨hs, hl⟩ := h
      subst hs hl
      simp [suscan_msg.is_halt, suscan_msg.is_forwarded, failed_events, h1, h2, h5, h6]
  | CALLBACK cb =>
    simp [suscan_analyzer_thread_switch, suscan_msg.has_private] at h
  | SOURCE_INIT code =>
    simp [suscan_analyzer_thread_switch, suscan_msg.has_private] at h
  | OTHER type p =>
    cases p <;> simp [suscan_analyzer_thread_switch, suscan_msg.has_private] at h

/-- The trace of the control loop when it reaches a `goto done`: the stream is
split into the messages `handled` (after each of which the loop went on), the
message `last` at which it stopped and the messages `rest` left in the queue.
The output queue has grown by the forwarded messages of `handled`, in order
(and by the acknowledgement when `last` is a HALT), and the log by the events
of `handled` and of `last`. -/
theorem thread_loop_trace (env : Env) :
    ∀ (stream : List suscan_msg) (i : Nat) (self s1 : suscan_local_analyzer_t)
      (locals : thread_locals),
      suscan_analyzer_thread_loop env i self stream = some (s1, locals) →
      ∃ handled last rest,
        stream = handled ++ last :: rest ∧
        (∀ m ∈ handled, m.is_halt = false) ∧
        s1.mq_in = rest ∧ s1.source = self.source ∧
        locals.private_ = thread_locals.of_msg last ∧
        locals.halt_acked = last.is_halt ∧
        s1.mq_out = (if last.is_halt then [suscan_msg.HALT none] else []) ++
          self.mq_out ++ handled.filter suscan_msg.is_forwarded ∧
        s1.log = self.log ++ handled.flatMap handled_events ++ failed_events last ∧
        (last.is_forwarded = true → env.mq_write_ok (i + handled.length) = false) := by
  intro stream
  induction stream with
  | nil =>
    intro i self s1 locals h
    simp [suscan_analyzer_thread_loop] at h
  | cons msg mq ih =>
    intro i self s1 locals h
    unfold suscan_analyzer_thread_loop at h
    cases hs : suscan_analyzer_thread_switch env i { self with mq_in := mq } msg with
    | none => simp [hs] at h
    | some r =>
      obtain ⟨s, r⟩ := r
      cases r with
      | some l =>
        simp [hs] at h
        obtain ⟨h1, h2⟩ := h
        subst h1 h2
        obtain ⟨a1, a2, a3, a4, a5, a6, a7⟩ := thread_switch_done env i _ s msg l hs
        refine ⟨[], msg, mq, by simp, by simp, a1, a2, a3, a4, ?_, ?_, ?_⟩
        · simpa using a5
        · simpa using a6
        · simpa using a7
      | none =>
        simp [hs] at h
        obtain ⟨b1, b2, b3, b4, b5⟩ := thread_switch_continue env i _ s msg hs
        obtain ⟨handled, last, rest, c1, c2, c3, c4, c5, c6, c7, c8, c9⟩ :=
          ih (i + 1) s s1 locals h
        refine ⟨msg :: handled, last, rest, by simp [c1], ?_, c3, ?_, c5, c6, ?_, ?_, ?_⟩
        · intro m hm
          rcases List.mem_cons.mp hm with hm | hm
          · rw [hm]; exact b1
          · exact c2 m hm
        · rw [c4, b3]
        · rw [c7, b4]
          cases hf : msg.is_forwarded <;> simp [hf, List.filter_cons]
        · rw [c8, b5]
          simp
        · intro hl
          have := c9 hl
          simpa [Nat.add_assoc, Nat.add_comm 1] using this

/-- Two ways of cutting a stream at a message, the first one at its first
HALT: either the cuts agree, or the second cut comes before the HALT. -/
theorem first_halt_split (p : Option Nat) (post : List suscan_msg) :
    ∀ (pre handled : List suscan_msg) (last : suscan_msg) (rest : List suscan_msg),
      pre ++ suscan_msg.HALT p :: post = handled ++ last :: rest →
      (∀ m ∈ pre, m.is_halt = false) → (∀ m ∈ handled, m.is_halt = false) →
      (last = suscan_msg.HALT p ∧ handled = pre ∧ rest = post) ∨
      (last.is_halt = false ∧
        ∃ drained, pre = handled ++ last :: drained ∧
          rest = drained ++ suscan_msg.HALT p :: post) := by
  intro pre
  induction pre with
  | nil =>
    intro handled last rest h _ hh
    cases handled with
    | nil =>
      simp at h
      exact Or.inl ⟨h.1.symm, rfl, h.2.symm⟩
    | cons x xs =>
      simp at h
      have := hh x (List.mem_cons_self _ _)
      rw [← h.1] at this
      simp [suscan_msg.is_halt] at this
  | cons y pre ih =>
    intro handled last rest h hp hh
    cases handled with
    | nil =>
      simp at h
      refine Or.inr ⟨?_, pre, ?_, h.2.symm⟩
      · rw [← h.1]; exact hp y (List.mem_cons_self _ _)
      · simp [h.1]
    | cons x xs =>
      simp at h
      obtain ⟨hxy, hrest⟩ := h
      rcases ih xs last rest hrest (fun m hm => hp m (List.mem_cons_of_mem _ hm))
        (fun m hm => hh m (List.mem_cons_of_mem _ hm)) with ⟨h1, h2, h3⟩ | ⟨h1, drained, h2, h3⟩
      · exact Or.inl ⟨h1, by simp [hxy, h2], h3⟩
      · exact Or.inr ⟨h1, drained, by simp [hxy, h2], h3⟩

/-- The log after the cleanup that follows the label `done`. -/
theorem thread_cleanup_log (self : suscan_local_analyzer_t) (locals : thread_locals) :
    (suscan_analyzer_thread_cleanup self locals).log
      = self.log ++
        (match locals.private_ with
          | some msg => [Event.dispose msg]
          | none => []) ++
        (if self.source.capturing then [Event.stop_capture] else []) := by
  unfold suscan_analyzer_thread_cleanup
  cases locals.mutex_acquired <;> cases locals.private_ <;>
    cases h : self.source.capturing <;>
    simp [h, suscan_analyzer_dispose_message, suscan_source_stop_capture]

/-- The whole run of the control thread after a successful initial push, on a
stream `pre ++ HALT :: post` whose first HALT comes after `pre`, with the loop
mutex and the throttle mutex free.  The loop handles the messages `handled`
and stops at `last`, which is the HALT or a message of `pre` whose handling
fails; in the second case the messages `drained` between `last` and the HALT
are disposed by the drain loop. -/
theorem thread_trace
    (env : Env) (self : suscan_local_analyzer_t)
    (pre : List suscan_msg) (p : Option Nat) (post : List suscan_msg)
    (hpre : ∀ m ∈ pre, m.is_halt = false)
    (hloop : self.loop_mutex = false) (hthr : self.throttle_mutex = false)
    (hin : self.mq_in = pre ++ suscan_msg.HALT p :: post)
    (hpush : (suscan_worker_push env.push_malloc env.push_write_ok self.source_wk
      (match self.params.mode with
        | suscan_analyzer_mode.CHANNEL => suscan_source_channel_wk_cb
        | suscan_analyzer_mode.WIDE_SPECTRUM => suscan_source_wide_wk_cb)
      (some self.source.addr)).1 = true) :
    ∃ handled last drained final,
      suscan_analyzer_thread env self = some final ∧
      ((last = suscan_msg.HALT p ∧ handled = pre ∧ drained = []) ∨
        (last.is_halt = false ∧ pre = handled ++ last :: drained)) ∧
      (last.is_forwarded = true → env.mq_write_ok handled.length = false) ∧
      final.mq_out = suscan_msg.HALT none ::
        (self.mq_out ++ suscan_msg.SOURCE_INIT suscan_analyzer_init_code.INIT_SUCCESS ::
          handled.filter suscan_msg.is_forwarded) ∧
      final.mq_in = post ∧
      final.log = self.log ++ handled.flatMap handled_events ++ failed_events last ++
        (if last.has_private then [Event.dispose last] else []) ++
        (if self.source.capturing then [Event.stop_capture] else []) ++
        drained.map Event.dispose ∧
      final.running = false := by
  rcases hp : suscan_worker_push env.push_malloc env.push_write_ok self.source_wk
      (match self.params.mode with
        | suscan_analyzer_mode.CHANNEL => suscan_source_channel_wk_cb
        | suscan_analyzer_mode.WIDE_SPECTRUM => suscan_source_wide_wk_cb)
      (some self.source.addr) with ⟨ok, wk⟩
  rw [hp] at hpush
  simp only at hpush
  subst hpush
  have hmain : suscan_analyzer_thread_main env self
      = suscan_analyzer_thread_loop env 0
          (suscan_analyzer_send_status { self with source_wk := wk }
            suscan_analyzer_init_code.INIT_SUCCESS)
          (pre ++ suscan_msg.HALT p :: post) := by
    simp only [suscan_analyzer_thread_main, hp]
    simp [suscan_analyzer_send_status, hin]
  obtain ⟨s1, locals, _, _, _, hl, _⟩ :=
    thread_loop_spec env p post pre 0
      (suscan_analyzer_send_status { self with source_wk := wk }
        suscan_analyzer_init_code.INIT_SUCCESS) hpre
      (by simpa [suscan_analyzer_send_status] using hloop)
      (by simpa [suscan_analyzer_send_status] using hthr)
  obtain ⟨handled, last, rest, c1, c2, c3, c4, c5, c6, c7, c8, c9⟩ :=
    thread_loop_trace env _ 0 _ s1 locals hl
  have hsrc : s1.source = self.source := by
    rw [c4]; simp [suscan_analyzer_send_status]
  have hclog := thread_cleanup_log s1 locals
  obtain ⟨hcin, hcout⟩ := thread_cleanup_queues s1 locals
  rw [c5, hsrc, c8] at hclog
  simp only [zero_add] at c9
  rcases first_halt_split p post pre handled last rest c1 hpre c2 with
    ⟨h1, h2, h3⟩ | ⟨h1, drained, h2, h3⟩
  · subst h1 h2 h3
    have hacked : locals.halt_acked = true := by simp [c6, suscan_msg.is_halt]
    refine ⟨handled, suscan_msg.HALT p, [],
      { suscan_analyzer_thread_cleanup s1 locals with running := false },
      ?_, Or.inl ⟨rfl, rfl, rfl⟩, c9, ?_, ?_, ?_, rfl⟩
    · simp [suscan_analyzer_thread, hmain, hl, suscan_analyzer_thread_done, hacked]
    · simp [hcout, c7, suscan_msg.is_halt, suscan_analyzer_send_status, suscan_mq_write]
    · simp [hcin, c3]
    · simp only [hclog]
      cases hp2 : (suscan_msg.HALT p).has_private <;>
        simp [thread_locals.of_msg, hp2, suscan_analyzer_send_status]
  · have hacked : locals.halt_acked = false := by simp [c6, h1]
    have hdr : ∀ m ∈ drained, m.is_halt = false := by
      intro m hm
      exact hpre m (by rw [h2]; simp [hm])
    have hwait : suscan_local_analyzer_wait_for_halt (suscan_analyzer_thread_cleanup s1 locals)
        = some (suscan_local_analyzer_ack_halt
          { suscan_analyzer_thread_cleanup s1 locals with
            mq_in := post
            log := (suscan_analyzer_thread_cleanup s1 locals).log ++
              drained.map Event.dispose }) := by
      unfold suscan_local_analyzer_wait_for_halt
      rw [hcin, c3, h3]
      exact wait_for_halt_loop_eq p post drained _ hdr
    refine ⟨handled, last, drained,
      { suscan_local_analyzer_ack_halt
          { suscan_analyzer_thread_cleanup s1 locals with
            mq_in := post
            log := (suscan_analyzer_thread_cleanup s1 locals).log ++
              drained.map Event.dispose } with running := false },
      ?_, Or.inr ⟨h1, h2⟩, c9, ?_, ?_, ?_, rfl⟩
    · simp [suscan_analyzer_thread, hmain, hl, suscan_analyzer_thread_done, hacked, hwait]
    · simp [suscan_local_analyzer_ack_halt, suscan_mq_write_urgent, hcout, c7, h1,
        suscan_analyzer_send_status, suscan_mq_write]
    · simp [suscan_local_analyzer_ack_halt]
    · simp only [suscan_local_analyzer_ack_halt, hclog]
      cases hp2 : last.has_private <;>
        simp [thread_locals.of_msg, hp2, suscan_analyzer_send_status]

/-- The code after the label `done` when the HALT has not been acknowledged
and the input queue still holds the messages `drained` in front of a HALT. -/
theorem thread_done_drain
    (self : suscan_local_analyzer_t) (locals : thread_locals)
    (drained : List suscan_msg) (p : Option Nat) (post : List suscan_msg)
    (hacked : locals.halt_acked = false)
    (hdr : ∀ m ∈ drained, m.is_halt = false)
    (hin : self.mq_in = drained ++ suscan_msg.HALT p :: post) :
    suscan_analyzer_thread_done self locals
      = some { suscan_local_analyzer_ack_halt
          { suscan_analyzer_thread_cleanup self locals with
            mq_in := post
            log := (suscan_analyzer_thread_cleanup self locals).log ++
              drained.map Event.dispose } with running := false } := by
  obtain ⟨hcin, _⟩ := thread_cleanup_queues self locals
  have hwait := wait_for_halt_loop_eq p post drained
    (suscan_analyzer_thread_cleanup self locals) hdr
  simp only [suscan_analyzer_thread_done, suscan_local_analyzer_wait_for_halt, hcin, hin,
    hacked, Bool.not_false, if_true, hwait]

/-- C11: in the mode-dependent initial push of the capture callback lies the
only choice of the SOURCE_INIT status.  When the push fails the thread emits
INIT_FAILURE and goes to `done` with the input queue untouched; on a stream
with a HALT it then returns having only disposed the messages in front of the
HALT (no parser call, nothing forwarded), with the acknowledgement and that
one status as its only writes.  When the push succeeds the thread emits
INIT_SUCCESS and only then enters the message loop, on the untouched input
queue; on a stream with a HALT it returns with the acknowledgement, that one
status and forwarded EOS and CHANNEL messages as its only writes. -/
theorem C11_one_source_init_status
    (env : Env) (self : suscan_local_analyzer_t)
    (pre : List suscan_msg) (p : Option Nat) (post : List suscan_msg)
    (hpre : ∀ m ∈ pre, m.is_halt = false)
    (hloop : self.loop_mutex = false) (hthr : self.throttle_mutex = false)
    (hin : self.mq_in = pre ++ suscan_msg.HALT p :: post) :
    ((suscan_worker_push env.push_malloc env.push_write_ok self.source_wk
        (match self.params.mode with
          | suscan_analyzer_mode.CHANNEL => suscan_source_channel_wk_cb
          | suscan_analyzer_mode.WIDE_SPECTRUM => suscan_source_wide_wk_cb)
        (some self.source.addr)).1 = false →
      (∃ wk, suscan_analyzer_thread_main env self
        = some ({ self with
            source_wk := wk
            mq_out := self.mq_out ++
              [suscan_msg.SOURCE_INIT suscan_analyzer_init_code.INIT_FAILURE] }, {})) ∧
      ∃ final, suscan_analyzer_thread env self = some final ∧
        final.mq_out = suscan_msg.HALT none ::
          (self.mq_out ++ [suscan_msg.SOURCE_INIT suscan_analyzer_init_code.INIT_FAILURE]) ∧
        final.mq_in = post ∧
        final.log = self.log ++
          (if self.source.capturing then [Event.stop_capture] else []) ++
          pre.map Event.dispose) ∧
    ((suscan_worker_push env.push_malloc env.push_write_ok self.source_wk
        (match self.params.mode with
          | suscan_analyzer_mode.CHANNEL => suscan_source_channel_wk_cb
          | suscan_analyzer_mode.WIDE_SPECTRUM => suscan_source_wide_wk_cb)
        (some self.source.addr)).1 = true →
      (∃ wk, suscan_analyzer_thread_main env self
        = suscan_analyzer_thread_loop env 0
            { self with
              source_wk := wk
              mq_out := self.mq_out ++
                [suscan_msg.SOURCE_INIT suscan_analyzer_init_code.INIT_SUCCESS] }
            self.mq_in) ∧
      ∃ final forwarded, suscan_analyzer_thread env self = some final ∧
        final.mq_out = suscan_msg.HALT none ::
          (self.mq_out ++ suscan_msg.SOURCE_INIT suscan_analyzer_init_code.INIT_SUCCESS ::
            forwarded) ∧
        ∀ m ∈ forwarded, m.is_forwarded = true) := by
  constructor
  · intro hpush
    rcases hp : suscan_worker_push env.push_malloc env.push_write_ok self.source_wk
        (match self.params.mode with
          | suscan_analyzer_mode.CHANNEL => suscan_source_channel_wk_cb
          | suscan_analyzer_mode.WIDE_SPECTRUM => suscan_source_wide_wk_cb)
        (some self.source.addr) with ⟨ok, wk⟩
    rw [hp] at hpush
    simp only at hpush
    subst hpush
    have hmain : suscan_analyzer_thread_main env self
        = some ({ self with
            source_wk := wk
            mq_out := self.mq_out ++
              [suscan_msg.SOURCE_INIT suscan_analyzer_init_code.INIT_FAILURE] }, {}) := by
      simp only [suscan_analyzer_thread_main, hp]
      simp [suscan_analyzer_send_status, suscan_mq_write]
    refine ⟨⟨wk, hmain⟩, ?_⟩
    have hclog := thread_cleanup_log
      { self with
        source_wk := wk
        mq_out := self.mq_out ++
          [suscan_msg.SOURCE_INIT suscan_analyzer_init_code.INIT_FAILURE] } {}
    obtain ⟨hcin, hcout⟩ := thread_cleanup_queues
      { self with
        source_wk := wk
        mq_out := self.mq_out ++
          [suscan_msg.SOURCE_INIT suscan_analyzer_init_code.INIT_FAILURE] } {}
    have hdone := thread_done_drain
      { self with
        source_wk := wk
        mq_out := self.mq_out ++
          [suscan_msg.SOURCE_INIT suscan_analyzer_init_code.INIT_FAILURE] } {}
      pre p post rfl hpre hin
    have hthread : suscan_analyzer_thread env self
        = suscan_analyzer_thread_done
            { self with
              source_wk := wk
              mq_out := self.mq_out ++
                [suscan_msg.SOURCE_INIT suscan_analyzer_init_code.INIT_FAILURE] } {} := by
      simp only [suscan_analyzer_thread, hmain]
    refine ⟨_, hthread.trans hdone, ?_, ?_, ?_⟩
    · simp [suscan_local_analyzer_ack_halt, suscan_mq_write_urgent, hcout]
    · simp [suscan_local_analyzer_ack_halt]
    · simp [suscan_local_analyzer_ack_halt, hclog]
  · intro hpush
    refine ⟨?_, ?_⟩
    · rcases hp : suscan_worker_push env.push_malloc env.push_write_ok self.source_wk
          (match self.params.mode with
            | suscan_analyzer_mode.CHANNEL => suscan_source_channel_wk_cb
            | suscan_analyzer_mode.WIDE_SPECTRUM => suscan_source_wide_wk_cb)
          (some self.source.addr) with ⟨ok, wk⟩
      rw [hp] at hpush
      simp only at hpush
      subst hpush
      refine ⟨wk, ?_⟩
      simp only [suscan_analyzer_thread_main, hp]
      simp [suscan_analyzer_send_status, suscan_mq_write]
    · obtain ⟨handled, last, drained, final, h1, _, _, h4, _⟩ :=
        thread_trace env self pre p post hpre hloop hthr hin hpush
      exact ⟨final, handled.filter suscan_msg.is_forwarded, h1, h4,
        fun m hm => (List.mem_filter.mp hm).2⟩

/-- Witness of C11: on `c11_analyzer` the initial push fails in the
surroundings `c11_env` and succeeds in the default ones. -/
theorem C11_one_source_init_status_witness :
    ((∃ wk, suscan_analyzer_thread_main c11_env c11_analyzer
        = some ({ c11_analyzer with
            source_wk := wk
            mq_out := c11_analyzer.mq_out ++
              [suscan_msg.SOURCE_INIT suscan_analyzer_init_code.INIT_FAILURE] }, {})) ∧
      ∃ final, suscan_analyzer_thread c11_env c11_analyzer = some final ∧
        final.mq_out = suscan_msg.HALT none ::
          (c11_analyzer.mq_out ++
            [suscan_msg.SOURCE_INIT suscan_analyzer_init_code.INIT_FAILURE]) ∧
        final.mq_in = [] ∧
        final.log = c11_analyzer.log ++
          (if c11_analyzer.source.capturing then [Event.stop_capture] else []) ++
          [suscan_msg.CHANNEL (some 4), suscan_msg.INSPECTOR (some 3)].map Event.dispose) ∧
    ((∃ wk, suscan_analyzer_thread_main {} c11_analyzer
        = suscan_analyzer_thread_loop {} 0
            { c11_analyzer with
              source_wk := wk
              mq_out := c11_analyzer.mq_out ++
                [suscan_msg.SOURCE_INIT suscan_analyzer_init_code.INIT_SUCCESS] }
            c11_analyzer.mq_in) ∧
      ∃ final forwarded, suscan_analyzer_thread {} c11_analyzer = some final ∧
        final.mq_out = suscan_msg.HALT none ::
          (c11_analyzer.mq_out ++
            suscan_msg.SOURCE_INIT suscan_analyzer_init_code.INIT_SUCCESS :: forwarded) ∧
        ∀ m ∈ forwarded, m.is_forwarded = true) :=
  ⟨(C11_one_source_init_status c11_env c11_analyzer
      [suscan_msg.CHANNEL (some 4), suscan_msg.INSPECTOR (some 3)] none []
      (by decide) rfl rfl rfl).1 rfl,
    (C11_one_source_init_status {} c11_analyzer
      [suscan_msg.CHANNEL (some 4), suscan_msg.INSPECTOR (some 3)] none []
      (by decide) rfl rfl rfl).2 rfl⟩

/-- C12: after a successful initial push, on a stream `pre ++ HALT :: post`
whose first HALT comes after `pre`, with the loop mutex and the throttle mutex
free.  The control loop handles the messages `handled`, a prefix of `pre`, and
stops at `last`.  The output queue after the run holds, behind the
acknowledgement, the old content and the status, exactly the EOS and CHANNEL
messages of `handled`, each with its type and payload, in the order read.  The
log holds no event for a message of `handled` that was forwarded, so its
payload is not disposed.  An EOS or CHANNEL message is not written only when
it is `last`, which means that its write has failed, or when it is left to
the drain loop after an earlier failure. -/
theorem C12_forwards_eos_and_channel
    (env : Env) (self : suscan_local_analyzer_t)
    (pre : List suscan_msg) (p : Option Nat) (post : List suscan_msg)
    (hpre : ∀ m ∈ pre, m.is_halt = false)
    (hloop : self.loop_mutex = false) (hthr : self.throttle_mutex = false)
    (hin : self.mq_in = pre ++ suscan_msg.HALT p :: post)
    (hpush : (suscan_worker_push env.push_malloc env.push_write_ok self.source_wk
      (match self.params.mode with
        | suscan_analyzer_mode.CHANNEL => suscan_source_channel_wk_cb
        | suscan_analyzer_mode.WIDE_SPECTRUM => suscan_source_wide_wk_cb)
      (some self.source.addr)).1 = true) :
    ∃ handled last drained final,
      suscan_analyzer_thread env self = some final ∧
      ((last = suscan_msg.HALT p ∧ handled = pre ∧ drained = []) ∨
        (last.is_halt = false ∧ pre = handled ++ last :: drained)) ∧
      (last.is_forwarded = true → env.mq_write_ok handled.length = false) ∧
      final.mq_out = suscan_msg.HALT none ::
        (self.mq_out ++ suscan_msg.SOURCE_INIT suscan_analyzer_init_code.INIT_SUCCESS ::
          handled.filter suscan_msg.is_forwarded) ∧
      final.log = self.log ++ handled.flatMap handled_events ++ failed_events last ++
        (if last.has_private then [Event.dispose last] else []) ++
        (if self.source.capturing then [Event.stop_capture] else []) ++
        drained.map Event.dispose ∧
      (∀ m ∈ handled, m.is_forwarded = true → handled_events m = []) := by
  obtain ⟨handled, last, drained, final, h1, h2, h3, h4, _, h6, _⟩ :=
    thread_trace env self pre p post hpre hloop hthr hin hpush
  refine ⟨handled, last, drained, final, h1, h2, h3, h4, h6, ?_⟩
  intro m _ hf
  cases m <;> simp_all [suscan_msg.is_forwarded, handled_events]

/-- Witness of C12: `c12_analyzer` reads a CHANNEL, a THROTTLE and an EOS
message in front of the HALT. -/
theorem C12_forwards_eos_and_channel_witness :
    ∃ handled last drained final,
      suscan_analyzer_thread {} c12_analyzer = some final ∧
      ((last = suscan_msg.HALT none ∧
          handled = [suscan_msg.CHANNEL (some 4), suscan_msg.THROTTLE 9 0,
            suscan_msg.EOS (some 5)] ∧ drained = []) ∨
        (last.is_halt = false ∧
          [suscan_msg.CHANNEL (some 4), suscan_msg.THROTTLE 9 0, suscan_msg.EOS (some 5)]
            = handled ++ last :: drained)) ∧
      (last.is_forwarded = true → ({} : Env).mq_write_ok handled.length = false) ∧
      final.mq_out = suscan_msg.HALT none ::
        (c12_analyzer.mq_out ++
          suscan_msg.SOURCE_INIT suscan_analyzer_init_code.INIT_SUCCESS ::
          handled.filter suscan_msg.is_forwarded) ∧
      final.log = c12_analyzer.log ++ handled.flatMap handled_events ++
        failed_events last ++
        (if last.has_private then [Event.dispose last] else []) ++
        (if c12_analyzer.source.capturing then [Event.stop_capture] else []) ++
        drained.map Event.dispose ∧
      (∀ m ∈ handled, m.is_forwarded = true → handled_events m = []) :=
  C12_forwards_eos_and_channel {} c12_analyzer
    [suscan_msg.CHANNEL (some 4), suscan_msg.THROTTLE 9 0, suscan_msg.EOS (some 5)]
    none [] (by decide) rfl rfl rfl rfl

/-- C13 counterexample: the parser fails on the INSPECTOR message of
`c13_analyzer`; the control thread then disposes the payload of that message
itself. -/
theorem C13_failed_parse_payload_disposed_counterexample :
    ∃ final, suscan_analyzer_thread c10_env c13_analyzer = some final ∧
      final.log = [Event.parse_inspector_msg (some 3),
        Event.dispose (suscan_msg.INSPECTOR (some 3))] := by
  exact ⟨_, rfl, rfl⟩

/-- C13 as amended: the control loop hands the payload of an INSPECTOR message
to the parser.  When the parser returns success the loop goes on with nothing
but the parser call added to the log: the thread does not dispose the
payload.  When the parser returns failure the loop ends with the payload still
referenced by `private`, and the cleanup after the label `done` disposes it,
once, when it is not NULL. -/
theorem C13_inspector_payload
    (env : Env) (i : Nat) (self : suscan_local_analyzer_t) (p : Option Nat)
    (mq : List suscan_msg) :
    (env.parse_inspector_msg i p = true →
      suscan_analyzer_thread_loop env i self (suscan_msg.INSPECTOR p :: mq)
        = suscan_analyzer_thread_loop env (i + 1)
            { self with
              mq_in := mq
              log := self.log ++ [Event.parse_inspector_msg p] } mq) ∧
    (env.parse_inspector_msg i p = false →
      suscan_analyzer_thread_loop env i self (suscan_msg.INSPECTOR p :: mq)
        = some ({ self with
              mq_in := mq
              log := self.log ++ [Event.parse_inspector_msg p] },
            { private_ := thread_locals.of_msg (suscan_msg.INSPECTOR p) }) ∧
      (suscan_analyzer_thread_cleanup
          { self with
            mq_in := mq
            log := self.log ++ [Event.parse_inspector_msg p] }
          { private_ := thread_locals.of_msg (suscan_msg.INSPECTOR p) }).log
        = self.log ++ [Event.parse_inspector_msg p] ++
          (if p.isSome then [Event.dispose (suscan_msg.INSPECTOR p)] else []) ++
          (if self.source.capturing then [Event.stop_capture] else [])) := by
  constructor
  · intro h
    simp [suscan_analyzer_thread_loop, suscan_analyzer_thread_switch, h]
  · intro h
    refine ⟨by simp [suscan_analyzer_thread_loop, suscan_analyzer_thread_switch, h], ?_⟩
    rw [thread_cleanup_log]
    cases p <;> simp [thread_locals.of_msg, suscan_msg.has_private]

/-- Witness of C13 as amended: the parser succeeds in the default
surroundings and fails in `c10_env`. -/
theorem C13_inspector_payload_witness :
    suscan_analyzer_thread_loop {} 0 c13_analyzer
        (suscan_msg.INSPECTOR (some 3) :: [suscan_msg.HALT none])
      = suscan_analyzer_thread_loop {} (0 + 1)
          { c13_analyzer with
            mq_in := [suscan_msg.HALT none]
            log := c13_analyzer.log ++ [Event.parse_inspector_msg (some 3)] }
          [suscan_msg.HALT none] ∧
    (suscan_analyzer_thread_cleanup
        { c13_analyzer with
          mq_in := [suscan_msg.HALT none]
          log := c13_analyzer.log ++ [Event.parse_inspector_msg (some 3)] }
        { private_ := thread_locals.of_msg (suscan_msg.INSPECTOR (some 3)) }).log
      = c13_analyzer.log ++ [Event.parse_inspector_msg (some 3)] ++
        (if (some 3 : Option Nat).isSome then
          [Event.dispose (suscan_msg.INSPECTOR (some 3))] else []) ++
        (if c13_analyzer.source.capturing then [Event.stop_capture] else []) :=
  ⟨(C13_inspector_payload {} 0 c13_analyzer (some 3) [suscan_msg.HALT none]).1 rfl,
    ((C13_inspector_payload c10_env 0 c13_analyzer (some 3) [suscan_msg.HALT none]).2 rfl).2⟩

/-- C14: the body of the control loop on a THROTTLE message, with the throttle
mutex free.  With `samp_rate` 0 the throttle is initialised again with the
sample rate of the source, with a rate R other than 0 with R, and
`effective_samp_rate` is set to the same value; the throttle mutex is free
afterwards, the payload is disposed once and the loop goes on.  The update
takes the throttle mutex: while another thread holds it the body does not
return. -/
theorem C14_throttle_message
    (env : Env) (i : Nat) (self : suscan_local_analyzer_t) (addr samp_rate : Nat)
    (hthr : self.throttle_mutex = false) :
    suscan_analyzer_thread_switch env i self (suscan_msg.THROTTLE addr samp_rate)
      = some ({ self with
          throttle := suscan_throttle_init
            (if samp_rate = 0 then suscan_local_analyzer_get_samp_rate self else samp_rate)
          effective_samp_rate :=
            (if samp_rate = 0 then suscan_local_analyzer_get_samp_rate self else samp_rate)
          throttle_mutex := false
          log := self.log ++ [Event.dispose (suscan_msg.THROTTLE addr samp_rate)] }, none) ∧
    suscan_analyzer_thread_switch env i { self with throttle_mutex := true }
      (suscan_msg.THROTTLE addr samp_rate) = none := by
  constructor
  · by_cases h : samp_rate = 0 <;>
      simp [suscan_analyzer_thread_switch, h, suscan_local_analyzer_reset_throttle,
        override_throttle_eq self _ hthr, suscan_analyzer_dispose_message]
  · by_cases h : samp_rate = 0 <;>
      simp [suscan_analyzer_thread_switch, h, suscan_local_analyzer_reset_throttle,
        suscan_local_analyzer_override_throttle, pthread_mutex_lock]

/-- Witness of C14: a reset (rate 0) on `c12_analyzer`, whose source runs at
1000 samples per second. -/
theorem C14_throttle_message_witness :
    suscan_analyzer_thread_switch {} 1 c12_analyzer (suscan_msg.THROTTLE 9 0)
      = some ({ c12_analyzer with
          throttle := suscan_throttle_init
            (if 0 = 0 then suscan_local_analyzer_get_samp_rate c12_analyzer else 0)
          effective_samp_rate :=
            (if 0 = 0 then suscan_local_analyzer_get_samp_rate c12_analyzer else 0)
          throttle_mutex := false
          log := c12_analyzer.log ++ [Event.dispose (suscan_msg.THROTTLE 9 0)] }, none) ∧
    suscan_analyzer_thread_switch {} 1 { c12_analyzer with throttle_mutex := true }
      (suscan_msg.THROTTLE 9 0) = none :=
  C14_throttle_message {} 1 c12_analyzer 9 0 rfl

/-- C17: on an analyzer in wide spectrum mode, for every strategy S, the
first `set_sweep_strategy(S)` returns true and leaves S in the pending sweep
parameters with the publish requested; the second one returns true and
returns the analyzer as the first call left it. -/
theorem C17_set_sweep_strategy_twice
    (self : suscan_local_analyzer_t) (S : Nat)
    (hmode : self.params.mode = suscan_analyzer_mode.WIDE_SPECTRUM) :
    (suscan_local_analyzer_set_sweep_strategy self S).1 = true ∧
    (suscan_local_analyzer_set_sweep_strategy self S).2.pending_sweep_params.strategy = S ∧
    (suscan_local_analyzer_set_sweep_strategy self S).2.sweep_params_requested = true ∧
    (suscan_local_analyzer_set_sweep_strategy self S).2.current_sweep_params
      = self.current_sweep_params ∧
    suscan_local_analyzer_set_sweep_strategy
        (suscan_local_analyzer_set_sweep_strategy self S).2 S
      = (true, (suscan_local_analyzer_set_sweep_strategy self S).2) := by
  simp [suscan_local_analyzer_set_sweep_strategy, hmode]

/-- Witness of C17: the strategy 1 set twice on `c17_analyzer`. -/
theorem C17_set_sweep_strategy_twice_witness :
    (suscan_local_analyzer_set_sweep_strategy c17_analyzer 1).1 = true ∧
    (suscan_local_analyzer_set_sweep_strategy c17_analyzer 1).2.pending_sweep_params.strategy
      = 1 ∧
    (suscan_local_analyzer_set_sweep_strategy c17_analyzer 1).2.sweep_params_requested
      = true ∧
    (suscan_local_analyzer_set_sweep_strategy c17_analyzer 1).2.current_sweep_params
      = c17_analyzer.current_sweep_params ∧
    suscan_local_analyzer_set_sweep_strategy
        (suscan_local_analyzer_set_sweep_strategy c17_analyzer 1).2 1
      = (true, (suscan_local_analyzer_set_sweep_strategy c17_analyzer 1).2) :=
  C17_set_sweep_strategy_twice c17_analyzer 1 rfl

/-- The update of the PARAMS case in terms of the readjusted detector. -/
theorem params_update_eq
    (env : Env) (i : Nat) (self : suscan_local_analyzer_t)
    (new_params : suscan_analyzer_params) :
    suscan_analyzer_thread_params_update env i self new_params
      = (match suscan_local_analyzer_readjust_detector env i self
          (env.su_channel_params_adjust
            (detector_params_with_message_fields self.detector.params
              new_params.detector_params)) with
        | (false, s) => (false, s)
        | (true, s) =>
          (true, { s with
            interval_channels := new_params.channel_update_int
            interval_psd :=
              if env.sufcmp self.interval_psd new_params.psd_update_int then
                new_params.psd_update_int else self.interval_psd
            det_num_psd :=
              if env.sufcmp self.interval_psd new_params.psd_update_int then 0
              else self.det_num_psd
            last_psd :=
              if env.sufcmp self.interval_psd new_params.psd_update_int then
                env.suscan_gettime_coarse i else self.last_psd })) := by
  unfold suscan_analyzer_thread_params_update detector_params_with_message_fields
  dsimp only
  generalize env.su_channel_params_adjust _ = q
  obtain ⟨d, hd⟩ := readjust_detector_frame env i self q
  rcases hr : suscan_local_analyzer_readjust_detector env i self q with ⟨b, s⟩
  rw [hr] at hd
  simp only at hd
  subst hd
  cases b
  · rfl
  · by_cases hc : env.sufcmp self.interval_psd new_params.psd_update_int = true <;> simp [hc]

/-- C16: the body of the control loop on a PARAMS message, with the loop mutex
free.  The new detector parameters are the current ones with only
`window_size`, `window` and `fc` taken from the message (so `samp_rate`,
`mode` and the other fields are the current ones), then adjusted, and the
detector is readjusted to them; the update reads nothing else of the message
but the two update intervals.  The update runs with the loop mutex held.  When
the readjustment succeeds `interval_channels` becomes the `channel_update_int`
of the message, the mutex is released and the loop goes on after the dispose
of the payload.  When it fails the loop ends with `mutex_acquired` set, and
the cleanup after the label `done` releases the mutex.  While another thread
holds the loop mutex the body does not return. -/
theorem C16_params_message
    (env : Env) (i : Nat) (self : suscan_local_analyzer_t) (addr : Nat)
    (new_params : suscan_analyzer_params)
    (hloop : self.loop_mutex = false) :
    (suscan_analyzer_thread_params_update env i { self with loop_mutex := true }
        new_params).1
      = (suscan_local_analyzer_readjust_detector env i { self with loop_mutex := true }
          (env.su_channel_params_adjust
            (detector_params_with_message_fields self.detector.params
              new_params.detector_params))).1 ∧
    (suscan_analyzer_thread_params_update env i { self with loop_mutex := true }
        new_params).2.detector
      = (suscan_local_analyzer_readjust_detector env i { self with loop_mutex := true }
          (env.su_channel_params_adjust
            (detector_params_with_message_fields self.detector.params
              new_params.detector_params))).2.detector ∧
    ((detector_params_with_message_fields self.detector.params
        new_params.detector_params).samp_rate = self.detector.params.samp_rate ∧
      (detector_params_with_message_fields self.detector.params
        new_params.detector_params).mode = self.detector.params.mode ∧
      (detector_params_with_message_fields self.detector.params
        new_params.detector_params).rest = self.detector.params.rest) ∧
    (∀ other : suscan_analyzer_params,
      other.detector_params.window_size = new_params.detector_params.window_size →
      other.detector_params.window = new_params.detector_params.window →
      other.detector_params.fc = new_params.detector_params.fc →
      other.channel_update_int = new_params.channel_update_int →
      other.psd_update_int = new_params.psd_update_int →
      suscan_analyzer_thread_params_update env i { self with loop_mutex := true } other
        = suscan_analyzer_thread_params_update env i { self with loop_mutex := true }
            new_params) ∧
    (suscan_analyzer_thread_params_update env i { self with loop_mutex := true }
        new_params).2.loop_mutex = true ∧
    ((suscan_analyzer_thread_params_update env i { self with loop_mutex := true }
        new_params).1 = true →
      (suscan_analyzer_thread_params_update env i { self with loop_mutex := true }
        new_params).2.interval_channels = new_params.channel_update_int ∧
      suscan_analyzer_thread_switch env i self (suscan_msg.PARAMS addr new_params)
        = some (suscan_analyzer_dispose_message
            { (suscan_analyzer_thread_params_update env i { self with loop_mutex := true }
                new_params).2 with loop_mutex := false }
            (suscan_msg.PARAMS addr new_params), none)) ∧
    ((suscan_analyzer_thread_params_update env i { self with loop_mutex := true }
        new_params).1 = false →
      suscan_analyzer_thread_switch env i self (suscan_msg.PARAMS addr new_params)
        = some ((suscan_analyzer_thread_params_update env i { self with loop_mutex := true }
              new_params).2,
            some {
              private_ := thread_locals.of_msg (suscan_msg.PARAMS addr new_params)
              mutex_acquired := true }) ∧
      (suscan_analyzer_thread_cleanup
        (suscan_analyzer_thread_params_update env i { self with loop_mutex := true }
          new_params).2
        { private_ := thread_locals.of_msg (suscan_msg.PARAMS addr new_params)
          mutex_acquired := true }).loop_mutex = false) ∧
    suscan_analyzer_thread_switch env i { self with loop_mutex := true }
      (suscan_msg.PARAMS addr new_params) = none := by
  obtain ⟨_, _, _, h4, _, _⟩ := params_update_frame env i
    { self with loop_mutex := true } new_params
  have heq := params_update_eq env i { self with loop_mutex := true } new_params
  refine ⟨?_, ?_, ⟨rfl, rfl, rfl⟩, ?_, h4, ?_, ?_, ?_⟩
  · rw [heq]
    rcases suscan_local_analyzer_readjust_detector env i { self with loop_mutex := true }
      (env.su_channel_params_adjust
        (detector_params_with_message_fields self.detector.params
          new_params.detector_params)) with ⟨b, s⟩
    cases b <;> rfl
  · rw [heq]
    rcases suscan_local_analyzer_readjust_detector env i { self with loop_mutex := true }
      (env.su_channel_params_adjust
        (detector_params_with_message_fields self.detector.params
          new_params.detector_params)) with ⟨b, s⟩
    cases b <;> rfl
  · intro other h1 h2 h3 h5 h6
    rw [params_update_eq env i { self with loop_mutex := true } other, heq]
    simp [detector_params_with_message_fields, h1, h2, h3, h5, h6]
  · intro hok
    constructor
    · rw [heq] at hok ⊢
      revert hok
      rcases suscan_local_analyzer_readjust_detector env i { self with loop_mutex := true }
        (env.su_channel_params_adjust
          (detector_params_with_message_fields self.detector.params
            new_params.detector_params)) with ⟨b, s⟩
      cases b
      · intro hok
        simp at hok
      · intro _
        rfl
    · rcases hr : suscan_analyzer_thread_params_update env i
        { self with loop_mutex := true } new_params with ⟨b, u⟩
      rw [hr] at hok
      simp only at hok
      subst hok
      simp [suscan_analyzer_thread_switch, pthread_mutex_lock, hloop, hr,
        pthread_mutex_unlock]
  · intro hfail
    rcases hr : suscan_analyzer_thread_params_update env i
      { self with loop_mutex := true } new_params with ⟨b, u⟩
    rw [hr] at hfail
    simp only at hfail
    subst hfail
    refine ⟨by simp [suscan_analyzer_thread_switch, pthread_mutex_lock, hloop, hr], ?_⟩
    unfold suscan_analyzer_thread_cleanup
    cases hc : u.source.capturing <;>
      simp [hc, pthread_mutex_unlock, thread_locals.of_msg, suscan_msg.has_private,
        suscan_analyzer_dispose_message, suscan_source_stop_capture]
  · simp [suscan_analyzer_thread_switch, pthread_mutex_lock]

/-- Witness of C16: a PARAMS message on `c16_analyzer`, with a detector that
takes the new parameters in place, and with one that can be neither updated
nor created again. -/
theorem C16_params_message_witness :
    ((suscan_analyzer_thread_params_update {} 0 { c16_analyzer with loop_mutex := true }
        c16_params).2.interval_channels = c16_params.channel_update_int ∧
      suscan_analyzer_thread_switch {} 0 c16_analyzer (suscan_msg.PARAMS 1 c16_params)
        = some (suscan_analyzer_dispose_message
            { (suscan_analyzer_thread_params_update {} 0 { c16_analyzer with loop_mutex := true }
                c16_params).2 with loop_mutex := false }
            (suscan_msg.PARAMS 1 c16_params), none)) ∧
    (suscan_analyzer_thread_switch c16_env 0 c16_analyzer (suscan_msg.PARAMS 1 c16_params)
        = some ((suscan_analyzer_thread_params_update c16_env 0
              { c16_analyzer with loop_mutex := true } c16_params).2,
            some {
              private_ := thread_locals.of_msg (suscan_msg.PARAMS 1 c16_params)
              mutex_acquired := true }) ∧
      (suscan_analyzer_thread_cleanup
        (suscan_analyzer_thread_params_update c16_env 0
          { c16_analyzer with loop_mutex := true } c16_params).2
        { private_ := thread_locals.of_msg (suscan_msg.PARAMS 1 c16_params)
          mutex_acquired := true }).loop_mutex = false) :=
  ⟨(C16_params_message {} 0 c16_analyzer 1 c16_params rfl).2.2.2.2.2.1 rfl,
    (C16_params_message c16_env 0 c16_analyzer 1 c16_params rfl).2.2.2.2.2.2.1 rfl⟩

/-! ### Construction -/

/-- A successful readjustment leaves a detector that came out of
`su_channel_detector_set_params` or of `su_channel_detector_new`, called with
the adjusted parameters; nothing else of the analyzer changes. -/
theorem readjust_detector_success
    (env : Env) (i : Nat) (self s : suscan_local_analyzer_t)
    (params : sigutils_channel_detector_params)
    (h : suscan_local_analyzer_readjust_detector env i self params = (true, s)) :
    s = { self with detector := s.detector } ∧
    ((env.su_channel_detector_set_params i self.detector
        (env.su_channel_params_adjust params) = (true, s.detector)) ∨
      env.su_channel_detector_new i (env.su_channel_params_adjust params)
        = some s.detector) := by
  unfold suscan_local_analyzer_readjust_detector at h
  dsimp only at h
  rcases hs : env.su_channel_detector_set_params i self.detector
    (env.su_channel_params_adjust params) with ⟨b, d⟩
  rw [hs] at h
  cases b
  · cases hn : env.su_channel_detector_new i (env.su_channel_params_adjust params) with
    | none => simp [hn] at h
    | some d2 =>
      simp [hn] at h
      subst h
      exact ⟨rfl, Or.inr rfl⟩
  · simp at h
    subst h
    exact ⟨rfl, Or.inl rfl⟩

/-- What a successful rate block of the constructor has done: only the
detector may have changed; either the rates agreed and nothing was done, or
the detector came out of a call with the adjusted parameters, which are the
value of `det_params` afterwards. -/
theorem ctor_rate_success
    (env : Env) (new0 new : suscan_local_analyzer_t)
    (det0 det : sigutils_channel_detector_params)
    (h : suscan_local_analyzer_ctor_rate env new0 det0 = some (new, det)) :
    new = { new0 with detector := new.detector } ∧
    ((new0.effective_samp_rate = new0.detector.params.samp_rate ∧
        new.detector = new0.detector ∧ det = det0) ∨
      (new0.effective_samp_rate ≠ new0.detector.params.samp_rate ∧
        det = env.su_channel_params_adjust
          { new0.detector.params with samp_rate := new0.effective_samp_rate } ∧
        ((env.su_channel_detector_set_params 0 new0.detector det = (true, new.detector)) ∨
          env.su_channel_detector_new 0 det = some new.detector))) := by
  unfold suscan_local_analyzer_ctor_rate at h
  by_cases hr : new0.effective_samp_rate = new0.detector.params.samp_rate
  · simp [hr] at h
    obtain ⟨h1, h2⟩ := h
    subst h1 h2
    exact ⟨rfl, Or.inl ⟨hr, rfl, rfl⟩⟩
  · simp only [ne_eq, hr, not_false_eq_true, if_true] at h
    rcases hre : suscan_local_analyzer_readjust_detector env 0 new0
      { new0.detector.params with samp_rate := new0.effective_samp_rate } with ⟨b, s⟩
    rw [hre] at h
    cases b
    · simp at h
    · simp at h
      obtain ⟨h1, h2⟩ := h
      subst h1 h2
      obtain ⟨e1, e2⟩ := readjust_detector_success env 0 new0 s _ hre
      exact ⟨e1, Or.inr ⟨hr, rfl, e2⟩⟩

/-- What a successful wide spectrum block of the constructor has done. -/
theorem ctor_wide_success
    (sys : CtorEnv) (parent : suscan_analyzer_t) (new0 new : suscan_local_analyzer_t)
    (det : sigutils_channel_detector_params)
    (h : suscan_local_analyzer_ctor_wide sys parent new0 det = some new) :
    new = { new0 with current_sweep_params := new.current_sweep_params } ∧
    (parent.params.mode = suscan_analyzer_mode.WIDE_SPECTRUM →
      parent.params.max_freq - parent.params.min_freq ≥ (new0.source.samp_rate : Int) ∧
      new.current_sweep_params.min_freq = parent.params.min_freq ∧
      new.current_sweep_params.max_freq = parent.params.max_freq ∧
      new.current_sweep_params.fft_min_samples
        = sys.SUSCAN_ANALYZER_MIN_POST_HOP_FFTS * det.window_size) := by
  unfold suscan_local_analyzer_ctor_wide at h
  by_cases hm : parent.params.mode = suscan_analyzer_mode.WIDE_SPECTRUM
  · by_cases hr : parent.params.max_freq - parent.params.min_freq
        ≥ (suscan_local_analyzer_get_samp_rate new0 : Int)
    · simp [hm, hr] at h
      subst h
      exact ⟨rfl, fun _ => ⟨hr, rfl, rfl, rfl⟩⟩
    · simp [hm, hr] at h
  · simp [hm] at h
    subst h
    exact ⟨rfl, fun hm2 => absurd hm2 hm⟩

/-- What a successful second half of the constructor has done. -/
theorem ctor_start_success
    (sys : CtorEnv) (env : Env) (parent : suscan_analyzer_t)
    (new0 new : suscan_local_analyzer_t) (det0 : sigutils_channel_detector_params)
    (h : suscan_local_analyzer_ctor_start sys env parent new0 det0 = some new) :
    ∃ source det_params,
      sys.suscan_source_start_capture new0.source = some source ∧
      new.source = source ∧
      new.effective_samp_rate = source.samp_rate ∧
      new.barrier = new0.barrier ∧ new.sched = new0.sched ∧
      ((source.samp_rate = new0.detector.params.samp_rate ∧
          new.detector = new0.detector ∧ det_params = det0) ∨
        (source.samp_rate ≠ new0.detector.params.samp_rate ∧
          det_params = env.su_channel_params_adjust
            { new0.detector.params with samp_rate := source.samp_rate } ∧
          ((env.su_channel_detector_set_params 0 new0.detector det_params
              = (true, new.detector)) ∨
            env.su_channel_detector_new 0 det_params = some new.detector))) ∧
      (parent.params.mode = suscan_analyzer_mode.WIDE_SPECTRUM →
        parent.params.max_freq - parent.params.min_freq ≥ (source.samp_rate : Int) ∧
        new.current_sweep_params.min_freq = parent.params.min_freq ∧
        new.current_sweep_params.max_freq = parent.params.max_freq ∧
        new.current_sweep_params.fft_min_samples
          = sys.SUSCAN_ANALYZER_MIN_POST_HOP_FFTS * det_params.window_size) := by
  unfold suscan_local_analyzer_ctor_start at h
  cases hsrc : sys.suscan_source_start_capture new0.source with
  | none => simp [hsrc] at h
  | some source =>
    simp only [hsrc] at h
    split at h
    · simp at h
    · rename_i hre
      split at h
      · simp at h
      · rename_i new1 det1 hrate
        split at h
        · simp at h
        · rename_i new2 hwide
          split at h
          · simp at h
          · simp only [Option.some.injEq] at h
            obtain ⟨e1, e2⟩ := ctor_rate_success env _ new1 det0 det1 hrate
            obtain ⟨w1, w2⟩ := ctor_wide_success sys parent new1 new2 det1 hwide
            refine ⟨source, det1, rfl, ?_, ?_, ?_, ?_, ?_, ?_⟩
            · rw [← h, w1, e1]; by_cases hlt : new0.read_size < source.mtu <;> simp [hlt]
            · rw [← h, w1, e1]
              by_cases hlt : new0.read_size < source.mtu <;>
                simp [hlt, suscan_local_analyzer_get_samp_rate]
            · rw [← h, w1, e1]; by_cases hlt : new0.read_size < source.mtu <;> simp [hlt]
            · rw [← h, w1, e1]; by_cases hlt : new0.read_size < source.mtu <;> simp [hlt]
            · have hd : new.detector = new1.detector := by rw [← h, w1]
              rw [hd]
              by_cases hlt : new0.read_size < source.mtu <;>
                simpa [hlt, suscan_local_analyzer_get_samp_rate] using e2
            · intro hm
              have hs : new1.source = source := by
                rw [e1]; by_cases hlt : new0.read_size < source.mtu <;> simp [hlt]
              have hc : new.current_sweep_params = new2.current_sweep_params := by rw [← h]
              rw [hc, ← hs]
              exact w2 hm

/-- A successful `suscan_local_analyzer_source_init` stores the new source
and leaves the parameters alone. -/
theorem source_init_success
    (source_new : Option suscan_source_t) (self s : suscan_local_analyzer_t)
    (h : suscan_local_analyzer_source_init source_new self = (true, s)) :
    source_new = some s.source ∧ s.params = self.params := by
  unfold suscan_local_analyzer_source_init at h
  cases source_new with
  | none => simp at h
  | some source =>
    by_cases hrt : suscan_local_analyzer_is_real_time { self with source := source }
    · simp [hrt] at h
      subst h
      exact ⟨rfl, rfl⟩
    · simp [hrt] at h
      subst h
      exact ⟨rfl, rfl⟩

/-- What a successful first half of the constructor has done: the source was
created, the detector was created from the template of the parent with the
sample rate of that source, and the second half ran on that object. -/
theorem ctor_build_success
    (sys : CtorEnv) (env : Env) (parent : suscan_analyzer_t)
    (new : suscan_local_analyzer_t)
    (h : suscan_local_analyzer_ctor_build sys env parent = some new) :
    ∃ source detector mid,
      sys.suscan_source_new = some source ∧
      env.su_channel_detector_new 0 (env.su_channel_params_adjust
        { parent.params.detector_params with
          mode := sys.SU_CHANNEL_DETECTOR_MODE_SPECTRUM
          samp_rate := source.samp_rate }) = some detector ∧
      mid.source = source ∧ mid.detector = detector ∧
      suscan_local_analyzer_ctor_start sys env parent mid (env.su_channel_params_adjust
        { parent.params.detector_params with
          mode := sys.SU_CHANNEL_DETECTOR_MODE_SPECTRUM
          samp_rate := source.samp_rate }) = some new := by
  unfold suscan_local_analyzer_ctor_build at h
  split at h
  · simp at h
  · split at h
    · simp at h
    · split at h
      · simp at h
      · dsimp only at h
        split at h
        · simp at h
        · rename_i new1 hsi
          obtain ⟨hs1, hp1⟩ := source_init_success _ _ _ hsi
          split at h
          · simp at h
          · rename_i detector hdet
            split at h
            · simp at h
            · split at h
              · simp at h
              · split at h
                · simp at h
                · split at h
                  · simp at h
                  · split at h
                    · simp at h
                    · split at h
                      · simp at h
                      · split at h
                        · simp at h
                        · split at h
                          · simp at h
                          · simp only [suscan_local_analyzer_init_detector_params,
                              suscan_local_analyzer_get_samp_rate, hp1] at h hdet
                            refine ⟨new1.source, detector, _, hs1, hdet, ?_, ?_, h⟩ <;> rfl

/-- What a successful constructor has done: the source was created and its
capture started, the detector was created with the rate of the source before
the start and readjusted when the start changed the rate, and in wide
spectrum mode the range test passed and the sweep parameters were seeded with
the local variable `det_params`. -/
theorem ctor_success
    (sys : CtorEnv) (env : Env) (parent : suscan_analyzer_t)
    (new : suscan_local_analyzer_t)
    (h : (suscan_local_analyzer_ctor sys env parent).1 = some new) :
    ∃ source0 source detector0 det_params,
      sys.suscan_source_new = some source0 ∧
      sys.suscan_source_start_capture source0 = some source ∧
      env.su_channel_detector_new 0 (env.su_channel_params_adjust
        { parent.params.detector_params with
          mode := sys.SU_CHANNEL_DETECTOR_MODE_SPECTRUM
          samp_rate := source0.samp_rate }) = some detector0 ∧
      new.source = source ∧
      new.effective_samp_rate = source.samp_rate ∧
      ((source.samp_rate = detector0.params.samp_rate ∧
          new.detector = detector0 ∧
          det_params = env.su_channel_params_adjust
            { parent.params.detector_params with
              mode := sys.SU_CHANNEL_DETECTOR_MODE_SPECTRUM
              samp_rate := source0.samp_rate }) ∨
        (source.samp_rate ≠ detector0.params.samp_rate ∧
          det_params = env.su_channel_params_adjust
            { detector0.params with samp_rate := source.samp_rate } ∧
          ((env.su_channel_detector_set_params 0 detector0 det_params
              = (true, new.detector)) ∨
            env.su_channel_detector_new 0 det_params = some new.detector))) ∧
      (parent.params.mode = suscan_analyzer_mode.WIDE_SPECTRUM →
        parent.params.max_freq - parent.params.min_freq ≥ (source.samp_rate : Int) ∧
        new.current_sweep_params.min_freq = parent.params.min_freq ∧
        new.current_sweep_params.max_freq = parent.params.max_freq ∧
        new.current_sweep_params.fft_min_samples
          = sys.SUSCAN_ANALYZER_MIN_POST_HOP_FFTS * det_params.window_size) := by
  unfold suscan_local_analyzer_ctor at h
  cases hb : suscan_local_analyzer_ctor_build sys env parent with
  | none => simp [hb] at h
  | some built =>
    simp only [hb, Option.some.injEq] at h
    obtain ⟨source0, detector0, mid, h1, h2, h3, h4, h5⟩ :=
      ctor_build_success sys env parent built hb
    obtain ⟨source, det_params, k1, k2, k3, _, _, k6, k7⟩ :=
      ctor_start_success sys env parent mid built _ h5
    rw [h3] at k1
    rw [h4] at k6
    refine ⟨source0, source, detector0, det_params, h1, k1, h2, ?_, ?_, ?_, ?_⟩
    · rw [← h]; exact k2
    · rw [← h]; exact k3
    · rw [← h]; exact k6
    · rw [← h]; exact k7

/-- C19: a successful constructor yields an analyzer whose `get_samp_rate`,
whose `effective_samp_rate` and whose detector sample rate are all the sample
rate of the source after `suscan_source_start_capture`, in particular when
that rate differs from the one the detector was first created with (a
detector keeps the parameters it is created or set with, and
`su_channel_params_adjust` leaves the sample rate alone). -/
theorem C19_effective_samp_rate
    (sys : CtorEnv) (env : Env) (parent : suscan_analyzer_t)
    (new : suscan_local_analyzer_t)
    (hnew : ∀ i p d, env.su_channel_detector_new i p = some d → d.params = p)
    (hset : ∀ i d p d2, env.su_channel_detector_set_params i d p = (true, d2) →
      d2.params = p)
    (hadj : ∀ p, (env.su_channel_params_adjust p).samp_rate = p.samp_rate)
    (h : (suscan_local_analyzer_ctor sys env parent).1 = some new) :
    ∃ source0 source detector0,
      sys.suscan_source_new = some source0 ∧
      sys.suscan_source_start_capture source0 = some source ∧
      env.su_channel_detector_new 0 (env.su_channel_params_adjust
        { parent.params.detector_params with
          mode := sys.SU_CHANNEL_DETECTOR_MODE_SPECTRUM
          samp_rate := source0.samp_rate }) = some detector0 ∧
      detector0.params.samp_rate = source0.samp_rate ∧
      suscan_local_analyzer_get_samp_rate new = source.samp_rate ∧
      new.effective_samp_rate = source.samp_rate ∧
      new.detector.params.samp_rate = source.samp_rate := by
  obtain ⟨s0, s1, d0, det, k0, k1, kd, ks, ke, kr, _⟩ := ctor_success sys env parent new h
  refine ⟨s0, s1, d0, k0, k1, kd, ?_, ?_, ke, ?_⟩
  · rw [hnew _ _ _ kd, hadj]
  · simp [suscan_local_analyzer_get_samp_rate, ks]
  · rcases kr with ⟨e0, e1, _⟩ | ⟨_, e2, e3 | e3⟩
    · rw [e1, ← e0]
    · rw [hset _ _ _ _ e3, e2, hadj]
    · rw [hnew _ _ _ e3, e2, hadj]

/-- Witness of C19: the source is configured at 1 MHz and settles on 960 kHz;
the analyzer that the constructor returns reports 960 kHz three times. -/
theorem C19_effective_samp_rate_witness :
    ∃ new, (suscan_local_analyzer_ctor c19_sys {} c19_parent).1 = some new ∧
      ∃ source0 source detector0,
        c19_sys.suscan_source_new = some source0 ∧
        c19_sys.suscan_source_start_capture source0 = some source ∧
        ({} : Env).su_channel_detector_new 0 (({} : Env).su_channel_params_adjust
          { c19_parent.params.detector_params with
            mode := c19_sys.SU_CHANNEL_DETECTOR_MODE_SPECTRUM
            samp_rate := source0.samp_rate }) = some detector0 ∧
        detector0.params.samp_rate = source0.samp_rate ∧
        suscan_local_analyzer_get_samp_rate new = source.samp_rate ∧
        new.effective_samp_rate = source.samp_rate ∧
        new.detector.params.samp_rate = source.samp_rate :=
  ⟨_, rfl, C19_effective_samp_rate c19_sys {} c19_parent _
    (fun _ _ _ h => by cases h; rfl) (fun _ _ _ _ h => by cases h; rfl)
    (fun _ => rfl) rfl⟩

/-- The result of `suscan_worker_new` does not depend on the error number
that `pthread_create` returns. -/
theorem worker_new_ignores_create_rc
    (calloc : Option Nat) (mq_init_ok : Bool) (create_rc : Nat)
    (mq_out : List suscan_msg) (private_ : Option Nat) :
    suscan_worker_new calloc mq_init_ok create_rc mq_out private_
      = suscan_worker_new calloc mq_init_ok 0 mq_out private_ := by
  unfold suscan_worker_new
  have h : ¬ ((create_rc : Int) = -1) := by omega
  cases calloc <;> simp [h]

/-- C20, divergence: when `pthread_create` fails with the error number 11,
`suscan_worker_new` returns a worker in state RUNNING, and
`suscan_local_analyzer_ctor` returns an analyzer without a control thread and
sets `parent.running`.  No error number makes `suscan_worker_new` differ from
the successful call. -/
theorem C20_thread_create_failure_ignored :
    (∀ calloc mq_init_ok create_rc mq_out private_,
      suscan_worker_new calloc mq_init_ok create_rc mq_out private_
        = suscan_worker_new calloc mq_init_ok 0 mq_out private_) ∧
    suscan_worker_new (some 50) true 11 [] none
      = some { addr := 50, state := suscan_worker_state.RUNNING } ∧
    (∃ new, (suscan_local_analyzer_ctor c20_sys {} c20_parent).1 = some new ∧
      new.thread = false ∧ new.running = true ∧
      new.source_wk.state = suscan_worker_state.RUNNING ∧
      new.slow_wk.state = suscan_worker_state.RUNNING) ∧
    (suscan_local_analyzer_ctor c20_sys {} c20_parent).2.running = true :=
  ⟨worker_new_ignores_create_rc, rfl, ⟨_, rfl, rfl, rfl, rfl, rfl⟩, rfl⟩

/-! ### Throttle override and the throttle of the construction -/

/-- The read loop on a device that answers `n` retryable results and then
`dev.readStream (self.reads + n)`: it ends after `n + 1` device reads with that
result, and not before. -/
theorem read_loop_spec (c : SoapyConsts) (dev : SoapyDevice) :
    ∀ (n fuel : Nat) (self : suscan_source_soapysdr),
      self.force_eos = false →
      (∀ k, k < n → c.retryable (dev.readStream (self.reads + k)) = true) →
      c.retryable (dev.readStream (self.reads + n)) = false →
      suscan_source_soapysdr_read_loop c dev fuel self
        = if n < fuel then
            some (dev.readStream (self.reads + n), { self with reads := self.reads + n + 1 })
          else none := by
  intro n
  induction n with
  | zero =>
    intro fuel self hf _ hlast
    cases fuel with
    | zero => simp [suscan_source_soapysdr_read_loop]
    | succ fuel =>
      simp only [SoapyConsts.retryable, Nat.add_zero, decide_eq_false_iff_not] at hlast
      simp [suscan_source_soapysdr_read_loop, hf, hlast]
  | succ n ih =>
    intro fuel self hf hretry hlast
    cases fuel with
    | zero => simp [suscan_source_soapysdr_read_loop]
    | succ fuel =>
      have h0 := hretry 0 (Nat.succ_pos n)
      simp only [SoapyConsts.retryable, Nat.add_zero, decide_eq_true_eq] at h0
      have hrec := ih fuel { self with reads := self.reads + 1 } hf
        (fun k hk => by
          have := hretry (k + 1) (Nat.succ_lt_succ hk)
          simpa [Nat.add_assoc, Nat.add_comm 1 k] using this)
        (by simpa [Nat.add_assoc, Nat.add_comm 1 n] using hlast)
      have hstep : suscan_source_soapysdr_read_loop c dev (fuel + 1) self
          = suscan_source_soapysdr_read_loop c dev fuel
              { self with reads := self.reads + 1 } := by
        rw [suscan_source_soapysdr_read_loop]
        simp [hf, h0]
      rw [hstep, hrec]
      simp [Nat.add_assoc, Nat.add_comm 1 n]

/-- C21: on a device that answers `n` results among `SOAPY_SDR_TIMEOUT`,
`SOAPY_SDR_OVERFLOW` and `SOAPY_SDR_UNDERFLOW` and then a result `r` that is
none of them, `suscan_source_soapysdr_read` (not cancelled) is still in its
loop after `n` iterations, and returns after `n + 1` device reads: `r` when
`r >= 0`, `SU_BLOCK_PORT_READ_ERROR_ACQUIRE` when `r < 0`.  With the three
codes different from `SU_BLOCK_PORT_READ_ERROR_ACQUIRE`, the value returned is
none of the three codes. -/
theorem C21_read_retries
    (c : SoapyConsts) (dev : SoapyDevice) (self : suscan_source_soapysdr) (n fuel : Nat)
    (hforce : self.force_eos = false)
    (hretry : ∀ k, k < n → c.retryable (dev.readStream (self.reads + k)) = true)
    (hlast : c.retryable (dev.readStream (self.reads + n)) = false) :
    (fuel ≤ n → suscan_source_soapysdr_read c dev fuel self = none) ∧
    (n < fuel →
      suscan_source_soapysdr_read c dev fuel self
        = some (if dev.readStream (self.reads + n) < 0 then c.SU_BLOCK_PORT_READ_ERROR_ACQUIRE
              else dev.readStream (self.reads + n),
            { self with reads := self.reads + n + 1 }) ∧
      (c.retryable c.SU_BLOCK_PORT_READ_ERROR_ACQUIRE = false →
        ∀ v s, suscan_source_soapysdr_read c dev fuel self = some (v, s) →
          c.retryable v = false)) := by
  have hloop := read_loop_spec c dev n fuel self hforce hretry hlast
  have hread : n < fuel →
      suscan_source_soapysdr_read c dev fuel self
        = some (if dev.readStream (self.reads + n) < 0 then c.SU_BLOCK_PORT_READ_ERROR_ACQUIRE
              else dev.readStream (self.reads + n),
            { self with reads := self.reads + n + 1 }) := by
    intro hlt
    unfold suscan_source_soapysdr_read
    rw [hloop]
    by_cases hneg : dev.readStream (self.reads + n) < 0 <;> simp [hlt, hneg]
  refine ⟨?_, fun hlt => ⟨hread hlt, ?_⟩⟩
  · intro hle
    unfold suscan_source_soapysdr_read
    rw [hloop]
    simp [Nat.not_lt.mpr hle]
  · intro hacq v s hv
    rw [hread hlt] at hv
    simp only [Option.some.injEq, Prod.mk.injEq] at hv
    obtain ⟨hv, _⟩ := hv
    subst hv
    by_cases hneg : dev.readStream (self.reads + n) < 0
    · simpa [hneg] using hacq
    · simpa [hneg] using hlast

/-- Witness of C21: the device answers a timeout, an overflow and an
underflow and then 512 samples; the read is still looping after three
iterations and returns the 512 samples after the fourth device read. -/
theorem C21_read_retries_witness :
    suscan_source_soapysdr_read {} c21_dev 3 {} = none ∧
    suscan_source_soapysdr_read {} c21_dev 10 {}
      = some (512, { ({} : suscan_source_soapysdr) with reads := 4 }) ∧
    (∀ v s, suscan_source_soapysdr_read {} c21_dev 10 {} = some (v, s) →
      ({} : SoapyConsts).retryable v = false) :=
  ⟨(C21_read_retries {} c21_dev {} 3 3 rfl (by decide) (by decide)).1 (Nat.le_refl 3),
    ((C21_read_retries {} c21_dev {} 3 10 rfl (by decide) (by decide)).2 (by decide)).1,
    ((C21_read_retries {} c21_dev {} 3 10 rfl (by decide) (by decide)).2 (by decide)).2
      (by decide)⟩

/-- C22: `suscan_source_soapysdr_cancel` sets `force_eos` whatever the
deactivation of the stream returns, and returns true exactly when the
deactivation succeeds.  With 0 none of the three retryable codes, a read on an
adapter whose `force_eos` is set returns 0 in the first iteration of its loop
and leaves the adapter as it was: no device read is counted, and `force_eos`
is still set for the next read.  The mutators `set_frequency` and
`set_bandwidth` leave `force_eos` alone. -/
theorem C22_cancel_forces_eos
    (c : SoapyConsts) (dev : SoapyDevice) (self : suscan_source_soapysdr)
    (h0 : c.retryable 0 = false) :
    (suscan_source_soapysdr_cancel dev self).2.force_eos = true ∧
    ((suscan_source_soapysdr_cancel dev self).1 = true ↔ dev.deactivateStream_rc = 0) ∧
    (∀ (s : suscan_source_soapysdr) (fuel : Nat), s.force_eos = true →
      suscan_source_soapysdr_read_loop c dev (fuel + 1) s = some (0, s) ∧
      suscan_source_soapysdr_read c dev (fuel + 1) s = some (0, s)) ∧
    (∀ fuel, suscan_source_soapysdr_read c dev (fuel + 1)
        (suscan_source_soapysdr_cancel dev self).2
      = some (0, (suscan_source_soapysdr_cancel dev self).2)) ∧
    (∀ (s : suscan_source_soapysdr) (v : Int),
      (suscan_source_soapysdr_set_frequency dev s v).2.force_eos = s.force_eos ∧
      (suscan_source_soapysdr_set_bandwidth dev s v).2.force_eos = s.force_eos) := by
  simp only [SoapyConsts.retryable, decide_eq_false_iff_not] at h0
  have hloop : ∀ (s : suscan_source_soapysdr) (fuel : Nat), s.force_eos = true →
      suscan_source_soapysdr_read_loop c dev (fuel + 1) s = some (0, s) := by
    intro s fuel hs
    rw [suscan_source_soapysdr_read_loop]
    simp [hs, h0]
  have hread : ∀ (s : suscan_source_soapysdr) (fuel : Nat), s.force_eos = true →
      suscan_source_soapysdr_read c dev (fuel + 1) s = some (0, s) := by
    intro s fuel hs
    simp [suscan_source_soapysdr_read, hloop s fuel hs]
  have hcancel : (suscan_source_soapysdr_cancel dev self).2.force_eos = true := by
    unfold suscan_source_soapysdr_cancel
    by_cases h : dev.deactivateStream_rc = 0 <;> simp [h]
  refine ⟨hcancel, ?_, fun s fuel hs => ⟨hloop s fuel hs, hread s fuel hs⟩,
    fun fuel => hread _ fuel hcancel, ?_⟩
  · unfold suscan_source_soapysdr_cancel
    by_cases h : dev.deactivateStream_rc = 0 <;> simp [h]
  · intro s v
    constructor
    · unfold suscan_source_soapysdr_set_frequency
      by_cases h : dev.setFrequency s.config.channel v = 0 <;> simp [h]
    · unfold suscan_source_soapysdr_set_bandwidth
      by_cases h : dev.setBandwidth s.config.channel s.config.bandwidth = 0 <;> simp [h]

/-- Witness of C22: the deactivation fails with -2 on a device whose every
read would time out; cancel returns false, and the read that follows returns
0 at once. -/
theorem C22_cancel_forces_eos_witness :
    (suscan_source_soapysdr_cancel c22_dev {}).1 = false ∧
    (suscan_source_soapysdr_cancel c22_dev {}).2.force_eos = true ∧
    suscan_source_soapysdr_read {} c22_dev 1 (suscan_source_soapysdr_cancel c22_dev {}).2
      = some (0, (suscan_source_soapysdr_cancel c22_dev {}).2) ∧
    (suscan_source_soapysdr_cancel c22_dev {}).2.reads = 0 :=
  ⟨by decide, (C22_cancel_forces_eos {} c22_dev {} (by decide)).1,
    (C22_cancel_forces_eos {} c22_dev {} (by decide)).2.2.2.1 0, rfl⟩

/-- A successful `suscan_source_soapysdr_init_sdr` has stored what the device
reports: whether it has a DC offset mode, its MTU and its sample rate. -/
theorem init_sdr_success
    (dev : SoapyDevice) (self s : suscan_source_soapysdr)
    (h : suscan_source_soapysdr_init_sdr dev self = (true, s)) :
    s.have_dc = dev.hasDCOffsetMode ∧ s.mtu = dev.getStreamMTU ∧
    s.samp_rate = dev.getSampleRate := by
  unfold suscan_source_soapysdr_init_sdr at h
  split at h
  · simp at h
  · rename_i s1 _
    unfold suscan_source_soapysdr_init_sdr_stream at h
    cases hdc : dev.hasDCOffsetMode <;> cases hant : dev.getAntenna <;>
      cases hss : dev.setupStream_ok <;>
      by_cases hrc : dev.setDCOffsetMode_rc = 0 <;>
      by_cases hset : (¬ dev.settings_count = 0 ∧ dev.settings_ok = false) <;>
      simp [hdc, hant, hss, hrc, hset] at h <;> subst h <;> simp

/-- The bits of a 64 bit word with the bits of a mask cleared. -/
theorem testBit_and_uint64_not (a d i : Nat) (ha : a < 2 ^ 64) :
    (a &&& uint64_not d).testBit i = (a.testBit i && !d.testBit i) := by
  unfold uint64_not
  rw [Nat.testBit_and, Nat.testBit_xor, Nat.testBit_two_pow_sub_one]
  by_cases hi : i < 64
  · simp [hi]
  · have hlt : a < 2 ^ i :=
      Nat.lt_of_lt_of_le ha (Nat.pow_le_pow_right (by decide) (Nat.le_of_not_lt hi))
    simp [Nat.testBit_lt_two_pow hlt]

/-- C23: after a successful `suscan_source_soapysdr_open`, the source info
holds the MTU and the sample rate that the device reports, the latter in
`source_samp_rate`, `effective_samp_rate` and `measured_samp_rate`.  The
permissions are `SUSCAN_ANALYZER_ALL_SDR_PERMISSIONS` when the device has a DC
offset mode, and that word with the bits of `SUSCAN_ANALYZER_PERM_SET_DC_REMOVE`
cleared when it has none; on a 64 bit word every bit of
`SUSCAN_ANALYZER_ALL_SDR_PERMISSIONS` outside that mask is set in both cases,
and when the mask lies in `SUSCAN_ANALYZER_ALL_SDR_PERMISSIONS` the permissions
are the cleared word if and only if the device has no DC offset mode. -/
theorem C23_open_source_info
    (c : SoapyConsts) (dev : SoapyDevice) (calloc_ok : Bool) (now : Nat)
    (config : suscan_source_config_t) (info info2 : suscan_source_info)
    (new : suscan_source_soapysdr)
    (hopen : suscan_source_soapysdr_open c dev calloc_ok now config info = (some new, info2)) :
    new.have_dc = dev.hasDCOffsetMode ∧
    info2.mtu = dev.getStreamMTU ∧
    info2.source_samp_rate = dev.getSampleRate ∧
    info2.effective_samp_rate = dev.getSampleRate ∧
    info2.measured_samp_rate = dev.getSampleRate ∧
    (dev.hasDCOffsetMode = true →
      info2.permissions = c.SUSCAN_ANALYZER_ALL_SDR_PERMISSIONS) ∧
    (dev.hasDCOffsetMode = false →
      info2.permissions = c.SUSCAN_ANALYZER_ALL_SDR_PERMISSIONS
        &&& uint64_not c.SUSCAN_ANALYZER_PERM_SET_DC_REMOVE) ∧
    (c.SUSCAN_ANALYZER_ALL_SDR_PERMISSIONS < 2 ^ 64 →
      (∀ i, info2.permissions.testBit i
        = (c.SUSCAN_ANALYZER_ALL_SDR_PERMISSIONS.testBit i &&
            !(!dev.hasDCOffsetMode && c.SUSCAN_ANALYZER_PERM_SET_DC_REMOVE.testBit i))) ∧
      (c.SUSCAN_ANALYZER_ALL_SDR_PERMISSIONS &&& c.SUSCAN_ANALYZER_PERM_SET_DC_REMOVE ≠ 0 →
        (info2.permissions = c.SUSCAN_ANALYZER_ALL_SDR_PERMISSIONS
            &&& uint64_not c.SUSCAN_ANALYZER_PERM_SET_DC_REMOVE
          ↔ dev.hasDCOffsetMode = false))) := by
  unfold suscan_source_soapysdr_open at hopen
  cases calloc_ok with
  | false => simp at hopen
  | true =>
    rw [if_neg (by simp)] at hopen
    dsimp only at hopen
    split at hopen
    · simp at hopen
    · rename_i s hinit
      obtain ⟨hdc, hmtu, hrate⟩ := init_sdr_success dev _ s hinit
      simp only [Prod.mk.injEq, Option.some.injEq] at hopen
      obtain ⟨hs, hinfo⟩ := hopen
      subst hs
      have hperm_true : dev.hasDCOffsetMode = true →
          info2.permissions = c.SUSCAN_ANALYZER_ALL_SDR_PERMISSIONS := by
        intro h
        rw [← hinfo]
        simp [hdc, h]
      have hperm_false : dev.hasDCOffsetMode = false →
          info2.permissions = c.SUSCAN_ANALYZER_ALL_SDR_PERMISSIONS
            &&& uint64_not c.SUSCAN_ANALYZER_PERM_SET_DC_REMOVE := by
        intro h
        rw [← hinfo]
        simp [hdc, h]
      refine ⟨hdc, ?_, ?_, ?_, ?_, hperm_true, hperm_false, ?_⟩
      · rw [← hinfo]; simp [hmtu]
      · rw [← hinfo]; simp [hrate]
      · rw [← hinfo]; simp [hrate]
      · rw [← hinfo]; simp [hrate]
      · intro hall
        constructor
        · intro i
          cases h : dev.hasDCOffsetMode with
          | true => simp [hperm_true h]
          | false => simp [hperm_false h, testBit_and_uint64_not _ _ _ hall]
        · intro hmask
          constructor
          · intro heq
            cases h : dev.hasDCOffsetMode with
            | false => rfl
            | true =>
              exfalso
              apply hmask
              apply Nat.eq_of_testBit_eq
              intro i
              have hbit := congrArg (fun x => Nat.testBit x i) heq
              simp only [hperm_true h, testBit_and_uint64_not _ _ _ hall] at hbit
              rw [Nat.testBit_and, Nat.zero_testBit]
              cases ha : c.SUSCAN_ANALYZER_ALL_SDR_PERMISSIONS.testBit i <;>
                cases hd : c.SUSCAN_ANALYZER_PERM_SET_DC_REMOVE.testBit i <;>
                simp [ha, hd] at hbit ⊢
          · exact hperm_false

/-- Witness of C23: a device without DC offset mode that reports an MTU of
4096 samples and a sample rate of 960 kHz. -/
theorem C23_open_source_info_witness :
    ∃ new info2,
      suscan_source_soapysdr_open {} c23_dev true 5 {} {} = (some new, info2) ∧
      new.have_dc = false ∧ info2.mtu = 4096 ∧
      info2.source_samp_rate = 960000 ∧ info2.effective_samp_rate = 960000 ∧
      info2.measured_samp_rate = 960000 ∧
      info2.permissions = 0xfffffffffffe7fbf ∧
      info2.permissions.testBit 6 = false ∧ info2.permissions.testBit 5 = true :=
  ⟨_, _, rfl,
    (C23_open_source_info {} c23_dev true 5 {} {} _ _ rfl).1,
    (C23_open_source_info {} c23_dev true 5 {} {} _ _ rfl).2.1,
    (C23_open_source_info {} c23_dev true 5 {} {} _ _ rfl).2.2.1,
    (C23_open_source_info {} c23_dev true 5 {} {} _ _ rfl).2.2.2.1,
    (C23_open_source_info {} c23_dev true 5 {} {} _ _ rfl).2.2.2.2.1,
    by decide, by decide, by decide⟩

/-- C24, divergence: `suscan_source_soapysdr_set_bandwidth` does not read its
argument; the device is asked to set the bandwidth of the configuration, and
the boolean returned tells whether the device accepts that value.  On an
adapter configured with 200 kHz, the request for 100 kHz sets 200 kHz, and on
a device that accepts 100 kHz only it returns false.  The sibling
`suscan_source_soapysdr_set_frequency` passes its argument on. -/
theorem C24_set_bandwidth_ignores_argument :
    (∀ (dev : SoapyDevice) (self : suscan_source_soapysdr) (bw : Int),
      suscan_source_soapysdr_set_bandwidth dev self bw
        = suscan_source_soapysdr_set_bandwidth dev self self.config.bandwidth ∧
      (suscan_source_soapysdr_set_bandwidth dev self bw).2.calls
        = self.calls ++ [SoapyCall.setBandwidth self.config.channel self.config.bandwidth]) ∧
    (suscan_source_soapysdr_set_bandwidth {} c24_source 100000).2.calls
      = [SoapyCall.setBandwidth 0 200000] ∧
    c24_dev.setBandwidth 0 100000 = 0 ∧
    (suscan_source_soapysdr_set_bandwidth c24_dev c24_source 100000).1 = false ∧
    (suscan_source_soapysdr_set_frequency {} c24_source 100000).2.calls
      = [SoapyCall.setFrequency 0 100000] := by
  refine ⟨fun dev self bw => ⟨rfl, ?_⟩, by decide, by decide, by decide, by decide⟩
  unfold suscan_source_soapysdr_set_bandwidth
  by_cases h : dev.setBandwidth self.config.channel self.config.bandwidth = 0 <;> simp [h]

/-! ### Bundle paths -/

/-- A call of `suscan_bundle_get_soapysdr_module_path` with `g_modpath` NULL
returns NULL and leaves the static variables as they are. -/
theorem module_path_null (env : BundleEnv) (g : bundle_globals)
    (h : g.g_modpath = none) :
    suscan_bundle_get_soapysdr_module_path env g = some (none, g) := by
  simp [suscan_bundle_get_soapysdr_module_path, h]

/-- Any number of calls of `suscan_bundle_get_soapysdr_module_path` with
`g_modpath` NULL at the start return and leave the static variables as they
are. -/
theorem module_path_calls_null (env : BundleEnv) :
    ∀ (n : Nat) (g : bundle_globals), g.g_modpath = none →
      module_path_calls env n g = some g := by
  intro n
  induction n with
  | zero => intro g _; rfl
  | succ n ih =>
    intro g h
    rw [module_path_calls, module_path_null env g h]
    exact ih g h

/-- C27, divergence: starting from `g_modpath = NULL`, whatever the
surroundings, every call of `suscan_bundle_get_soapysdr_module_path` returns
NULL and leaves `g_modpath` NULL, the second call as the first: after any
number of calls the static variables are the initial ones and the next call
returns NULL again, so the path is never set.  The sibling
`suscan_bundle_get_confdb_path` with `g_configpath = NULL` does call
`get_bundle_path` and stores what it returns. -/
theorem C27_module_path_never_set :
    (∀ (env : BundleEnv) (n : Nat) (confdb : Option bundle_path),
      module_path_calls env n { g_modpath := none, g_configpath := confdb }
        = some { g_modpath := none, g_configpath := confdb } ∧
      suscan_bundle_get_soapysdr_module_path env
          { g_modpath := none, g_configpath := confdb }
        = some (none, { g_modpath := none, g_configpath := confdb })) ∧
    (Option.bind (suscan_bundle_get_soapysdr_module_path {} {})
        (fun first => suscan_bundle_get_soapysdr_module_path {} first.2)
      = some (none, {})) ∧
    (∀ (env : BundleEnv) (modpath : Option bundle_path),
      suscan_bundle_get_confdb_path env { g_modpath := modpath, g_configpath := none }
        = (get_bundle_path env "config").map
            fun p => (p, { g_modpath := modpath, g_configpath := p })) := by
  refine ⟨fun env n confdb => ⟨module_path_calls_null env n _ rfl, module_path_null env _ rfl⟩,
    by decide, ?_⟩
  intro env modpath
  unfold suscan_bundle_get_confdb_path
  cases get_bundle_path env "config" <;> simp

/-! ### Sequences of wide spectrum mutator calls -/

/-- The last successful value of a field over a trace, one call at a time. -/
theorem last_successful_cons {α : Type} (field : sweep_call → Option α)
    (call : sweep_call) (ok : Bool) (trace : List (sweep_call × Bool)) (dflt : α) :
    last_successful field ((call, ok) :: trace) dflt
      = last_successful field trace (if ok then (field call).getD dflt else dflt) := by
  unfold last_successful
  cases ok with
  | false => simp
  | true =>
    cases h : field call with
    | none => simp [h]
    | some v => simp [h, List.getLast?_cons]

/-- A trace without a successful call leaves the sweep parameters alone. -/
theorem sweep_params_after_failed (base : suscan_analyzer_sweep_params)
    (trace : List (sweep_call × Bool)) (h : ∀ cr ∈ trace, cr.2 = false) :
    sweep_params_after base trace = base := by
  have hnil : ∀ {α : Type} (field : sweep_call → Option α),
      (trace.filterMap fun cr => if cr.2 then field cr.1 else none) = [] := by
    intro α field
    rw [List.filterMap_eq_nil_iff]
    intro cr hcr
    simp [h cr hcr]
  simp [sweep_params_after, last_successful, hnil]

/-- What one mutator call does on an analyzer in wide spectrum mode: the mode
stays, and either the call fails and changes nothing, or it succeeds and
leaves the publish requested with the pending parameters such that every
trace continues from them as it does from the seed with this call in front. -/
theorem sweep_call_apply_spec (self : suscan_local_analyzer_t) (call : sweep_call)
    (hmode : self.params.mode = suscan_analyzer_mode.WIDE_SPECTRUM) :
    (call.apply self).2.params.mode = suscan_analyzer_mode.WIDE_SPECTRUM ∧
    (((call.apply self).1 = false ∧ (call.apply self).2 = self) ∨
      ((call.apply self).1 = true ∧
        (call.apply self).2 = { self with
          pending_sweep_params := (call.apply self).2.pending_sweep_params
          sweep_params_requested := true } ∧
        ∀ trace, sweep_params_after (call.apply self).2.pending_sweep_params trace
          = sweep_params_after
              (if self.sweep_params_requested then self.pending_sweep_params
                else self.current_sweep_params) ((call, true) :: trace))) := by
  cases call with
  | set_sweep_strategy v =>
    refine ⟨by simp [sweep_call.apply, suscan_local_analyzer_set_sweep_strategy, hmode],
      Or.inr ⟨?_, ?_, ?_⟩⟩ <;>
      simp [sweep_call.apply, suscan_local_analyzer_set_sweep_strategy, hmode,
        sweep_params_after, last_successful_cons, sweep_call.strategy?,
        sweep_call.partitioning?, sweep_call.min_freq?, sweep_call.max_freq?,
        sweep_call.fft_min_samples?]
  | set_spectrum_partitioning v =>
    refine ⟨by simp [sweep_call.apply, suscan_local_analyzer_set_spectrum_partitioning, hmode],
      Or.inr ⟨?_, ?_, ?_⟩⟩ <;>
      simp [sweep_call.apply, suscan_local_analyzer_set_spectrum_partitioning, hmode,
        sweep_params_after, last_successful_cons, sweep_call.strategy?,
        sweep_call.partitioning?, sweep_call.min_freq?, sweep_call.max_freq?,
        sweep_call.fft_min_samples?]
  | set_buffering_size v =>
    refine ⟨by simp [sweep_call.apply, suscan_local_analyzer_set_buffering_size, hmode],
      Or.inr ⟨?_, ?_, ?_⟩⟩ <;>
      simp [sweep_call.apply, suscan_local_analyzer_set_buffering_size, hmode,
        sweep_params_after, last_successful_cons, sweep_call.strategy?,
        sweep_call.partitioning?, sweep_call.min_freq?, sweep_call.max_freq?,
        sweep_call.fft_min_samples?]
  | set_hop_range min max =>
    by_cases hr : max - min ≥ 0
    · refine ⟨by simp [sweep_call.apply, suscan_local_analyzer_set_hop_range, hmode, hr],
        Or.inr ⟨?_, ?_, ?_⟩⟩ <;>
        simp [sweep_call.apply, suscan_local_analyzer_set_hop_range, hmode, hr,
          sweep_params_after, last_successful_cons, sweep_call.strategy?,
          sweep_call.partitioning?, sweep_call.min_freq?, sweep_call.max_freq?,
          sweep_call.fft_min_samples?]
    · refine ⟨by simp [sweep_call.apply, suscan_local_analyzer_set_hop_range, hmode, hr],
        Or.inl ⟨?_, ?_⟩⟩ <;>
        simp [sweep_call.apply, suscan_local_analyzer_set_hop_range, hmode, hr]

/-- A failed call in front of a trace does not change what the trace gives. -/
theorem sweep_params_after_cons_false (base : suscan_analyzer_sweep_params)
    (call : sweep_call) (trace : List (sweep_call × Bool)) :
    sweep_params_after base ((call, false) :: trace) = sweep_params_after base trace := by
  simp [sweep_params_after, last_successful_cons]

/-- A sequence of mutator calls on an analyzer in wide spectrum mode: when no
call succeeds the analyzer is as before; otherwise only the pending
parameters and the request flag have changed, and the pending parameters are
the seed (the pending parameters when a publish was requested before, the
current ones otherwise) with the last successful value of each field. -/
theorem sweep_run_spec :
    ∀ (calls : List sweep_call) (self : suscan_local_analyzer_t),
      self.params.mode = suscan_analyzer_mode.WIDE_SPECTRUM →
      ((∀ cr ∈ (sweep_run self calls).1, cr.2 = false) →
        (sweep_run self calls).2 = self) ∧
      ((∃ cr ∈ (sweep_run self calls).1, cr.2 = true) →
        (sweep_run self calls).2 = { self with
          pending_sweep_params :=
            sweep_params_after
              (if self.sweep_params_requested then self.pending_sweep_params
                else self.current_sweep_params) (sweep_run self calls).1
          sweep_params_requested := true }) := by
  intro calls
  induction calls with
  | nil =>
    intro self _
    simp [sweep_run]
  | cons call calls ih =>
    intro self hmode
    obtain ⟨hm2, hcase⟩ := sweep_call_apply_spec self call hmode
    obtain ⟨ihA, ihB⟩ := ih (call.apply self).2 hm2
    have hrun : sweep_run self (call :: calls)
        = ((call, (call.apply self).1) :: (sweep_run (call.apply self).2 calls).1,
            (sweep_run (call.apply self).2 calls).2) := rfl
    rw [hrun]
    rcases hcase with ⟨hfail, hsame⟩ | ⟨hok, hshape, hafter⟩
    · rw [hfail]
      rw [hsame] at ihA ihB ⊢
      constructor
      · intro hall
        exact ihA (fun cr hcr => hall cr (List.mem_cons_of_mem _ hcr))
      · rintro ⟨cr, hcr, htrue⟩
        rw [sweep_params_after_cons_false]
        rcases List.mem_cons.mp hcr with h | h
        · rw [h] at htrue
          simp at htrue
        · exact ihB ⟨cr, h, htrue⟩
    · rw [hok]
      constructor
      · intro hall
        have := hall _ (List.mem_cons_self _ _)
        simp at this
      · intro _
        have hreq : (call.apply self).2.sweep_params_requested = true := by
          rw [hshape]
        rw [← hafter]
        by_cases hall : ∀ cr ∈ (sweep_run (call.apply self).2 calls).1, cr.2 = false
        · rw [ihA hall, sweep_params_after_failed _ _ hall]
          exact hshape
        · have hex : ∃ cr ∈ (sweep_run (call.apply self).2 calls).1, cr.2 = true := by
            by_contra hne
            apply hall
            intro cr hcr
            cases hb : cr.2 with
            | false => rfl
            | true => exact absurd ⟨cr, hcr, hb⟩ hne
          rw [ihB hex, hreq]
          simp only [if_true]
          rw [hshape]

/-- The trace of a run lists the calls made, in order, and on an analyzer in
wide spectrum mode a call fails exactly when it is a `set_hop_range` with
`max - min < 0`. -/
theorem sweep_run_trace :
    ∀ (calls : List sweep_call) (self : suscan_local_analyzer_t),
      self.params.mode = suscan_analyzer_mode.WIDE_SPECTRUM →
      (sweep_run self calls).1
        = calls.map fun call =>
            (call, match call with
              | sweep_call.set_hop_range min max => decide (max - min ≥ 0)
              | _ => true) := by
  intro calls
  induction calls with
  | nil => intro self _; rfl
  | cons call calls ih =>
    intro self hmode
    obtain ⟨hm2, _⟩ := sweep_call_apply_spec self call hmode
    have hrun : sweep_run self (call :: calls)
        = ((call, (call.apply self).1) :: (sweep_run (call.apply self).2 calls).1,
            (sweep_run (call.apply self).2 calls).2) := rfl
    rw [hrun, ih _ hm2]
    simp only [List.map_cons, List.cons.injEq, Prod.mk.injEq, true_and, and_true]
    cases call with
    | set_sweep_strategy v =>
      simp [sweep_call.apply, suscan_local_analyzer_set_sweep_strategy, hmode]
    | set_spectrum_partitioning v =>
      simp [sweep_call.apply, suscan_local_analyzer_set_spectrum_partitioning, hmode]
    | set_buffering_size v =>
      simp [sweep_call.apply, suscan_local_analyzer_set_buffering_size, hmode]
    | set_hop_range min max =>
      by_cases hr : max - min ≥ 0 <;>
        simp [sweep_call.apply, suscan_local_analyzer_set_hop_range, hmode, hr]

/-- C28: on an analyzer in wide spectrum mode on which no publish is
requested, after any sequence of calls of the four mutators with no publish
in between the current sweep parameters are untouched.  When at least one
call has succeeded, the pending sweep parameters are the current ones with,
for each field, the value of the last successful call that sets it, a publish
is requested, and nothing else has changed; when no call has succeeded the
analyzer is as before.  A call fails exactly when it is a `set_hop_range`
with `max - min < 0`. -/
theorem C28_sweep_mutators_accumulate
    (self : suscan_local_analyzer_t) (calls : List sweep_call)
    (hmode : self.params.mode = suscan_analyzer_mode.WIDE_SPECTRUM)
    (hreq : self.sweep_params_requested = false) :
    (sweep_run self calls).1
      = (calls.map fun call =>
          (call, match call with
            | sweep_call.set_hop_range min max => decide (max - min ≥ 0)
            | _ => true)) ∧
    (sweep_run self calls).2.current_sweep_params = self.current_sweep_params ∧
    ((∃ cr ∈ (sweep_run self calls).1, cr.2 = true) →
      (sweep_run self calls).2.pending_sweep_params
        = sweep_params_after self.current_sweep_params (sweep_run self calls).1 ∧
      (sweep_run self calls).2.sweep_params_requested = true ∧
      (sweep_run self calls).2 = { self with
        pending_sweep_params := (sweep_run self calls).2.pending_sweep_params
        sweep_params_requested := true }) ∧
    ((∀ cr ∈ (sweep_run self calls).1, cr.2 = false) →
      (sweep_run self calls).2 = self) := by
  obtain ⟨hA, hB⟩ := sweep_run_spec calls self hmode
  simp only [hreq, Bool.false_eq_true, if_false] at hB
  refine ⟨sweep_run_trace calls self hmode, ?_, ?_, hA⟩
  · by_cases hall : ∀ cr ∈ (sweep_run self calls).1, cr.2 = false
    · rw [hA hall]
    · have hex : ∃ cr ∈ (sweep_run self calls).1, cr.2 = true := by
        by_contra hne
        apply hall
        intro cr hcr
        cases hb : cr.2 with
        | false => rfl
        | true => exact absurd ⟨cr, hcr, hb⟩ hne
      rw [hB hex]
  · intro hex
    have h := hB hex
    refine ⟨?_, ?_, ?_⟩
    · rw [h]
    · rw [h]
    · conv_lhs => rw [h]
      rw [h]

/-- Witness of C28: five calls on `c28_analyzer`, the third of which fails;
the pending parameters hold the second strategy, the accepted range and the
buffering size, and keep the partitioning of the current parameters. -/
theorem C28_sweep_mutators_accumulate_witness :
    (sweep_run c28_analyzer c28_calls).1
      = [(sweep_call.set_sweep_strategy 1, true),
          (sweep_call.set_hop_range 90000000 100000000, true),
          (sweep_call.set_hop_range 5 3, false),
          (sweep_call.set_buffering_size 1024, true),
          (sweep_call.set_sweep_strategy 2, true)] ∧
    (sweep_run c28_analyzer c28_calls).2.current_sweep_params
      = c28_analyzer.current_sweep_params ∧
    (sweep_run c28_analyzer c28_calls).2.pending_sweep_params
      = { strategy := 2, partitioning := 1, min_freq := 90000000, max_freq := 100000000,
          fft_min_samples := 1024 } ∧
    (sweep_run c28_analyzer c28_calls).2.sweep_params_requested = true :=
  ⟨(C28_sweep_mutators_accumulate c28_analyzer c28_calls rfl rfl).1,
    (C28_sweep_mutators_accumulate c28_analyzer c28_calls rfl rfl).2.1,
    ((C28_sweep_mutators_accumulate c28_analyzer c28_calls rfl rfl).2.2.1
      ⟨(sweep_call.set_sweep_strategy 1, true), by decide, rfl⟩).1.trans (by decide),
    ((C28_sweep_mutators_accumulate c28_analyzer c28_calls rfl rfl).2.2.1
      ⟨(sweep_call.set_sweep_strategy 1, true), by decide, rfl⟩).2.1⟩

/-- C29 counterexample: the constructor in wide spectrum mode leaves a sweep
range of 20 MHz on a source at 1 MHz; `set_hop_range` then accepts the range
from 100 MHz to 100 MHz, and the pending range, 0 Hz, is below the sample
rate. -/
theorem C29_accepted_range_below_sample_rate_counterexample :
    ∃ new, (suscan_local_analyzer_ctor c29_sys {} c29_parent).1 = some new ∧
      new.current_sweep_params.max_freq - new.current_sweep_params.min_freq
        ≥ (suscan_local_analyzer_get_samp_rate new : Int) ∧
      (suscan_local_analyzer_set_hop_range new 100000000 100000000).1 = true ∧
      ¬ ((suscan_local_analyzer_set_hop_range new 100000000 100000000).2.pending_sweep_params.max_freq
          - (suscan_local_analyzer_set_hop_range new 100000000 100000000).2.pending_sweep_params.min_freq
        ≥ (suscan_local_analyzer_get_samp_rate new : Int)) :=
  ⟨_, rfl, by decide, by decide, by decide⟩

/-- C29 as amended: on an analyzer in wide spectrum mode `set_hop_range`
accepts `(min, max)` exactly when `max - min >= 0`, whatever the sample rate.
It then stores `min` and `max` in the pending sweep parameters, requests the
publish and leaves the current sweep parameters and the source alone, so the
pending range is at least the sample rate only when `max - min` is.  With
`max < min` it returns false and leaves the analyzer as it was. -/
theorem C29_set_hop_range_accepts_nonnegative_range
    (self : suscan_local_analyzer_t) (min max : Int)
    (hmode : self.params.mode = suscan_analyzer_mode.WIDE_SPECTRUM) :
    ((suscan_local_analyzer_set_hop_range self min max).1 = true ↔ max - min ≥ 0) ∧
    (max - min ≥ 0 →
      (suscan_local_analyzer_set_hop_range self min max).2.pending_sweep_params.min_freq = min ∧
      (suscan_local_analyzer_set_hop_range self min max).2.pending_sweep_params.max_freq = max ∧
      (suscan_local_analyzer_set_hop_range self min max).2.sweep_params_requested = true ∧
      (suscan_local_analyzer_set_hop_range self min max).2.current_sweep_params
        = self.current_sweep_params ∧
      (suscan_local_analyzer_set_hop_range self min max).2.source = self.source ∧
      ((suscan_local_analyzer_set_hop_range self min max).2.pending_sweep_params.max_freq
          - (suscan_local_analyzer_set_hop_range self min max).2.pending_sweep_params.min_freq
          ≥ (suscan_local_analyzer_get_samp_rate self : Int)
        ↔ max - min ≥ (suscan_local_analyzer_get_samp_rate self : Int))) ∧
    (max < min → suscan_local_analyzer_set_hop_range self min max = (false, self)) := by
  by_cases hr : max - min ≥ 0
  · refine ⟨?_, ?_, ?_⟩
    · simp [suscan_local_analyzer_set_hop_range, hmode, hr]
    · intro _
      simp [suscan_local_analyzer_set_hop_range, hmode, hr]
    · intro hlt
      omega
  · refine ⟨?_, ?_, ?_⟩
    · simp [suscan_local_analyzer_set_hop_range, hmode, hr]
    · intro h
      exact absurd h hr
    · intro _
      simp [suscan_local_analyzer_set_hop_range, hmode, hr]

/-- Witness of C29 as amended: on `c29_analyzer`, whose source runs at 1 MHz,
the range from 100 MHz to 100.5 MHz is accepted, and the range from 5 to 3 is
rejected. -/
theorem C29_set_hop_range_accepts_nonnegative_range_witness :
    (suscan_local_analyzer_set_hop_range c29_analyzer 100000000 100500000).1 = true ∧
    (suscan_local_analyzer_set_hop_range c29_analyzer 100000000
      100500000).2.pending_sweep_params.min_freq = 100000000 ∧
    (suscan_local_analyzer_set_hop_range c29_analyzer 100000000
      100500000).2.pending_sweep_params.max_freq = 100500000 ∧
    suscan_local_analyzer_set_hop_range c29_analyzer 5 3 = (false, c29_analyzer) :=
  ⟨(C29_set_hop_range_accepts_nonnegative_range c29_analyzer 100000000 100500000 rfl).1.mpr
      (by decide),
    ((C29_set_hop_range_accepts_nonnegative_range c29_analyzer 100000000 100500000 rfl).2.1
      (by decide)).1,
    ((C29_set_hop_range_accepts_nonnegative_range c29_analyzer 100000000 100500000 rfl).2.1
      (by decide)).2.1,
    (C29_set_hop_range_accepts_nonnegative_range c29_analyzer 5 3 rfl).2.2 (by decide)⟩

/-! ### Interference in the acquire of an overridable request -/

/-- C30, divergence: in the fresh-request path of
`suscan_local_analyzer_acquire_overridable` the checks made after the mutex is
taken again do not look at the user-data nor at the identity of the inspector.
When another thread attaches the request 0 to the inspector of handle 0 in
the meantime, the call succeeds with the request 1 and overwrites the
user-data, so that two live requests of the list name the inspector 100.
When another thread replaces the inspector of handle 0 by the inspector 200,
the call succeeds with a request whose `insp` field is still 100, attached to
the inspector 200. -/
theorem C30_fresh_request_ignores_interference :
    (c30_other_acquire (suscan_local_analyzer_unlock_inspector_list
        { c30_analyzer with inspector_list_mutex := true })).inspector_list
      = [some { addr := 100, state := suscan_async_state.RUNNING, userdata := some 0 }] ∧
    (∃ s, suscan_local_analyzer_acquire_overridable c30_other_acquire true c30_analyzer 0
        = some (some 1, s) ∧
      s.inspector_list
        = [some { addr := 100, state := suscan_async_state.RUNNING, userdata := some 1 }] ∧
      s.req_heap = [some { insp := 100, next := none }, some { insp := 100, next := some 0 }] ∧
      s.insp_overridable = some 1) ∧
    (∃ s, suscan_local_analyzer_acquire_overridable c30_other_replace true c30_analyzer 0
        = some (some 0, s) ∧
      s.inspector_list
        = [some { addr := 200, state := suscan_async_state.RUNNING, userdata := some 0 }] ∧
      s.req_heap = [some { insp := 100, next := none }]) :=
  ⟨by decide, ⟨_, rfl, by decide, by decide, by decide⟩, ⟨_, rfl, by decide, by decide⟩⟩

/-! ### Inspector binding and the cycle barrier -/

/-- C26: with the scheduler lock free, `suscan_local_analyzer_bind_inspector_to_channel`
returns, with the scheduler lock free again, and returns true exactly when
the allocation of the task-info record and the append to the scheduler both
succeed.  On success the inspector is RUNNING and otherwise unchanged, the
record at the new address holds the inspector and the channel and is the last
one registered with the scheduler, and the `privdata` of the channel is that
address.  On failure the inspector and the channel are unchanged, the
scheduler has the records it had, and the only trace of the call is the cell
of the record allocated and freed. -/
theorem C26_bind_inspector_to_channel
    (calloc_ok append_ok : Bool) (self : suscan_local_analyzer_t)
    (channel : su_specttuner_channel_t) (insp : suscan_inspector_t)
    (hlock : self.sched_lock = false) :
    ∃ ok s c i,
      suscan_local_analyzer_bind_inspector_to_channel calloc_ok append_ok self channel insp
        = some (ok, s, c, i) ∧
      s.sched_lock = false ∧
      (ok = true ↔ calloc_ok = true ∧ append_ok = true) ∧
      s = { self with sched_tasks := s.sched_tasks, task_heap := s.task_heap } ∧
      (ok = true →
        i = { insp with state := suscan_async_state.RUNNING } ∧
        c = { channel with privdata := some self.task_heap.length } ∧
        s.task_heap
          = self.task_heap ++ [some { insp := insp.addr, channel := some channel.addr }] ∧
        s.sched_tasks = self.sched_tasks ++ [self.task_heap.length]) ∧
      (ok = false →
        i = insp ∧ c = channel ∧ s.sched_tasks = self.sched_tasks ∧
        (s.task_heap = self.task_heap ∨ s.task_heap = self.task_heap ++ [none])) := by
  cases calloc_ok with
  | false =>
    refine ⟨false, self, channel, insp, ?_, hlock, ?_, ?_, ?_, ?_⟩ <;>
      simp [suscan_local_analyzer_bind_inspector_to_channel, suscan_inspector_task_info_new]
  | true =>
    cases append_ok with
    | false =>
      have hs : suscan_local_analyzer_bind_inspector_to_channel true false self channel insp
          = some (false,
              { self with task_heap := self.task_heap ++ [none] }, channel, insp) := by
        simp [suscan_local_analyzer_bind_inspector_to_channel, suscan_inspector_task_info_new,
          suscan_local_analyzer_enter_sched, pthread_mutex_lock, hlock,
          suscan_inspsched_append_task_info, suscan_local_analyzer_leave_sched,
          pthread_mutex_unlock, suscan_inspector_task_info_destroy, modify_append_length]
      refine ⟨_, _, _, _, hs, ?_, ?_, ?_, ?_, ?_⟩ <;> simp [hlock]
    | true =>
      have hs : suscan_local_analyzer_bind_inspector_to_channel true true self channel insp
          = some (true,
              { self with
                task_heap := self.task_heap ++
                  [some { insp := insp.addr, channel := some channel.addr }]
                sched_tasks := self.sched_tasks ++ [self.task_heap.length] },
              { channel with privdata := some self.task_heap.length },
              { insp with state := suscan_async_state.RUNNING }) := by
        simp [suscan_local_analyzer_bind_inspector_to_channel, suscan_inspector_task_info_new,
          suscan_local_analyzer_enter_sched, pthread_mutex_lock, hlock,
          suscan_inspsched_append_task_info, suscan_local_analyzer_leave_sched,
          pthread_mutex_unlock, modify_append_length]
      refine ⟨_, _, _, _, hs, ?_, ?_, ?_, ?_, ?_⟩ <;> simp [hlock]

/-- Witness of C26: a successful bind on `c26_analyzer`, and one whose append
to the scheduler fails. -/
theorem C26_bind_inspector_to_channel_witness :
    (∃ ok s c i,
      suscan_local_analyzer_bind_inspector_to_channel true true c26_analyzer c26_channel
          c26_inspector = some (ok, s, c, i) ∧
      s.sched_lock = false ∧
      (ok = true ↔ true = true ∧ true = true) ∧
      s = { c26_analyzer with sched_tasks := s.sched_tasks, task_heap := s.task_heap } ∧
      (ok = true →
        i = { c26_inspector with state := suscan_async_state.RUNNING } ∧
        c = { c26_channel with privdata := some c26_analyzer.task_heap.length } ∧
        s.task_heap
          = c26_analyzer.task_heap ++
            [some { insp := c26_inspector.addr, channel := some c26_channel.addr }] ∧
        s.sched_tasks = c26_analyzer.sched_tasks ++ [c26_analyzer.task_heap.length]) ∧
      (ok = false →
        i = c26_inspector ∧ c = c26_channel ∧ s.sched_tasks = c26_analyzer.sched_tasks ∧
        (s.task_heap = c26_analyzer.task_heap ∨
          s.task_heap = c26_analyzer.task_heap ++ [none]))) ∧
    suscan_local_analyzer_bind_inspector_to_channel true false c26_analyzer c26_channel
        c26_inspector
      = some (false, { c26_analyzer with
          task_heap := [some { insp := 90, channel := some 80 }, none] },
        c26_channel, c26_inspector) :=
  ⟨C26_bind_inspector_to_channel true true c26_analyzer c26_channel c26_inspector rfl,
    by decide⟩

/-- A wide spectrum mutator leaves the barrier and the scheduler alone. -/
theorem sweep_call_width (self : suscan_local_analyzer_t) (call : sweep_call) :
    (call.apply self).2.width = self.width := by
  cases call <;>
    simp only [sweep_call.apply, suscan_local_analyzer_set_sweep_strategy,
      suscan_local_analyzer_set_spectrum_partitioning, suscan_local_analyzer_set_hop_range,
      suscan_local_analyzer_set_buffering_size] <;>
    (repeat' split) <;> rfl

/-- The lock of the inspector list leaves the barrier and the scheduler alone. -/
theorem lock_inspector_list_width (self s : suscan_local_analyzer_t) (b : Bool)
    (h : suscan_local_analyzer_lock_inspector_list self = some (b, s)) :
    s.width = self.width := by
  unfold suscan_local_analyzer_lock_inspector_list pthread_mutex_lock at h
  cases hm : self.inspector_list_mutex <;> simp [hm] at h
  obtain ⟨_, h⟩ := h
  subst h
  rfl

/-- The throttle override leaves the barrier and the scheduler alone. -/
theorem override_throttle_width (self s : suscan_local_analyzer_t) (val : Nat) (b : Bool)
    (h : suscan_local_analyzer_override_throttle self val = some (b, s)) :
    s.width = self.width := by
  unfold suscan_local_analyzer_override_throttle pthread_mutex_lock at h
  cases hm : self.throttle_mutex <;> simp [hm] at h
  obtain ⟨_, h⟩ := h
  subst h
  rfl

/-- Readjusting the detector leaves the barrier and the scheduler alone. -/
theorem readjust_detector_width
    (env : Env) (i : Nat) (self : suscan_local_analyzer_t)
    (params : sigutils_channel_detector_params) :
    (suscan_local_analyzer_readjust_detector env i self params).2.width = self.width := by
  obtain ⟨d, hd⟩ := readjust_detector_frame env i self params
  rw [hd]
  rfl

/-- The update of the PARAMS case leaves the barrier and the scheduler alone. -/
theorem params_update_width
    (env : Env) (i : Nat) (self : suscan_local_analyzer_t)
    (new_params : suscan_analyzer_params) :
    (suscan_analyzer_thread_params_update env i self new_params).2.width = self.width := by
  unfold suscan_analyzer_thread_params_update
  dsimp only
  generalize env.su_channel_params_adjust _ = p
  have hw := readjust_detector_width env i self p
  rcases hr : suscan_local_analyzer_readjust_detector env i self p with ⟨b, s⟩
  rw [hr] at hw
  simp only at hw
  cases b
  · simpa using hw
  · by_cases hc : env.sufcmp s.interval_psd new_params.psd_update_int = true <;>
      simp [hc] <;> exact hw

/-- The body of the control loop leaves the barrier and the scheduler alone. -/
theorem thread_switch_width
    (env : Env) (i : Nat) (self s : suscan_local_analyzer_t) (msg : suscan_msg)
    (r : Option thread_locals)
    (h : suscan_analyzer_thread_switch env i self msg = some (s, r)) :
    s.width = self.width := by
  cases msg with
  | HALT p =>
    simp [suscan_analyzer_thread_switch] at h
    obtain ⟨h, _⟩ := h
    subst h
    rfl
  | INSPECTOR p =>
    cases hp : env.parse_inspector_msg i p <;>
      simp [suscan_analyzer_thread_switch, hp] at h <;>
      (obtain ⟨h, _⟩ := h; subst h; rfl)
  | EOS p =>
    cases hw : env.mq_write_ok i <;>
      simp [suscan_analyzer_thread_switch, suscan_mq_write, hw] at h <;>
      (obtain ⟨h, _⟩ := h; subst h; rfl)
  | CHANNEL p =>
    cases hw : env.mq_write_ok i <;>
      simp [suscan_analyzer_thread_switch, suscan_mq_write, hw] at h <;>
      (obtain ⟨h, _⟩ := h; subst h; rfl)
  | THROTTLE addr samp_rate =>
    unfold suscan_analyzer_thread_switch at h
    dsimp only at h
    split at h
    · simp at h
    · rename_i s1 ho
      simp only [Option.some.injEq, Prod.mk.injEq] at h
      obtain ⟨h, _⟩ := h
      subst h
      by_cases h0 : samp_rate = 0
      · simp only [h0, if_true, suscan_local_analyzer_reset_throttle] at ho
        exact override_throttle_width _ _ _ _ ho
      · simp only [h0, if_false] at ho
        exact override_throttle_width _ _ _ _ ho
    · rename_i s1 ho
      simp only [Option.some.injEq, Prod.mk.injEq] at h
      obtain ⟨h, _⟩ := h
      subst h
      have : s1.width = self.width := by
        by_cases h0 : samp_rate = 0
        · simp only [h0, if_true, suscan_local_analyzer_reset_throttle] at ho
          exact override_throttle_width _ _ _ _ ho
        · simp only [h0, if_false] at ho
          exact override_throttle_width _ _ _ _ ho
      simpa [suscan_analyzer_dispose_message, suscan_local_analyzer_t.width] using this
  | PARAMS addr new_params =>
    unfold suscan_analyzer_thread_switch pthread_mutex_lock at h
    dsimp only at h
    cases hm : self.loop_mutex with
    | true => simp [hm] at h
    | false =>
      simp only [hm, Bool.false_eq_true, if_false] at h
      have hw := params_update_width env i { self with loop_mutex := true } new_params
      revert h hw
      rcases suscan_analyzer_thread_params_update env i
        { self with loop_mutex := true } new_params with ⟨b, s1⟩
      intro h hw
      simp only at hw
      cases b <;> simp [pthread_mutex_unlock] at h <;>
        (obtain ⟨h, _⟩ := h; subst h;
          simpa [suscan_analyzer_dispose_message, suscan_local_analyzer_t.width] using hw)
  | CALLBACK cb =>
    simp [suscan_analyzer_thread_switch, suscan_msg.has_private] at h
    obtain ⟨h, _⟩ := h
    subst h
    rfl
  | SOURCE_INIT code =>
    simp [suscan_analyzer_thread_switch, suscan_msg.has_private] at h
    obtain ⟨h, _⟩ := h
    subst h
    rfl
  | OTHER type p =>
    cases p <;> simp [suscan_analyzer_thread_switch, suscan_msg.has_private] at h <;>
      (obtain ⟨h, _⟩ := h; subst h; rfl)

/-- The message loop of the control thread leaves the barrier and the
scheduler alone. -/
theorem thread_loop_width (env : Env) :
    ∀ (stream : List suscan_msg) (i : Nat) (self s : suscan_local_analyzer_t)
      (locals : thread_locals),
      suscan_analyzer_thread_loop env i self stream = some (s, locals) →
      s.width = self.width := by
  intro stream
  induction stream with
  | nil =>
    intro i self s locals h
    simp [suscan_analyzer_thread_loop] at h
  | cons msg mq ih =>
    intro i self s locals h
    unfold suscan_analyzer_thread_loop at h
    split at h
    · simp at h
    · rename_i s1 l1 hs
      simp only [Option.some.injEq, Prod.mk.injEq] at h
      obtain ⟨h, _⟩ := h
      subst h
      exact thread_switch_width env i { self with mq_in := mq } _ msg _ hs
    · rename_i s1 hs
      rw [ih _ _ _ _ h]
      exact thread_switch_width env i { self with mq_in := mq } _ msg _ hs

/-- The drain loop of the control thread leaves the barrier and the scheduler
alone. -/
theorem wait_for_halt_loop_width :
    ∀ (mq : List suscan_msg) (self s : suscan_local_analyzer_t),
      suscan_local_analyzer_wait_for_halt_loop self mq = some s →
      s.width = self.width := by
  intro mq
  induction mq with
  | nil =>
    intro self s h
    simp [suscan_local_analyzer_wait_for_halt_loop] at h
  | cons msg mq ih =>
    intro self s h
    cases msg with
    | HALT p =>
      simp [suscan_local_analyzer_wait_for_halt_loop] at h
      subst h
      rfl
    | CALLBACK _ =>
      simp only [suscan_local_analyzer_wait_for_halt_loop] at h
      have hw := ih _ _ h
      exact hw
    | INSPECTOR _ =>
      simp only [suscan_local_analyzer_wait_for_halt_loop] at h
      have hw := ih _ _ h
      exact hw
    | EOS _ =>
      simp only [suscan_local_analyzer_wait_for_halt_loop] at h
      have hw := ih _ _ h
      exact hw
    | CHANNEL _ =>
      simp only [suscan_local_analyzer_wait_for_halt_loop] at h
      have hw := ih _ _ h
      exact hw
    | THROTTLE _ _ =>
      simp only [suscan_local_analyzer_wait_for_halt_loop] at h
      have hw := ih _ _ h
      exact hw
    | PARAMS _ _ =>
      simp only [suscan_local_analyzer_wait_for_halt_loop] at h
      have hw := ih _ _ h
      exact hw
    | SOURCE_INIT _ =>
      simp only [suscan_local_analyzer_wait_for_halt_loop] at h
      have hw := ih _ _ h
      exact hw
    | OTHER _ _ =>
      simp only [suscan_local_analyzer_wait_for_halt_loop] at h
      have hw := ih _ _ h
      exact hw

/-- The cleanup after the label `done` leaves the barrier and the scheduler
alone. -/
theorem thread_cleanup_width (self : suscan_local_analyzer_t) (locals : thread_locals) :
    (suscan_analyzer_thread_cleanup self locals).width = self.width := by
  unfold suscan_analyzer_thread_cleanup
  cases locals.mutex_acquired <;> cases locals.private_ <;>
    cases h : self.source.capturing <;>
    simp [h, suscan_analyzer_dispose_message, suscan_source_stop_capture,
      suscan_local_analyzer_t.width]

/-- The control thread leaves the barrier and the scheduler alone. -/
theorem thread_width (env : Env) (self s : suscan_local_analyzer_t)
    (h : suscan_analyzer_thread env self = some s) :
    s.width = self.width := by
  unfold suscan_analyzer_thread at h
  split at h
  · simp at h
  · rename_i s1 locals hmain
    have h1 : s1.width = self.width := by
      unfold suscan_analyzer_thread_main at hmain
      dsimp only at hmain
      split at hmain
      · simp only [Option.some.injEq, Prod.mk.injEq] at hmain
        obtain ⟨hmain, _⟩ := hmain
        subst hmain
        rfl
      · rw [thread_loop_width env _ _ _ _ _ hmain]
        rfl
    unfold suscan_analyzer_thread_done at h
    dsimp only at h
    split at h
    · simp at h
    · rename_i s2 hw
      simp only [Option.some.injEq] at h
      subst h
      have h2 : s2.width = (suscan_analyzer_thread_cleanup s1 locals).width := by
        cases hl : locals.halt_acked
        · simp only [hl, Bool.not_false, if_true] at hw
          exact wait_for_halt_loop_width _ _ _ hw
        · simp [hl] at hw
          rw [hw]
      have h3 := thread_cleanup_width s1 locals
      show (s2.barrier, s2.sched) = self.width
      exact (h2.trans h3).trans h1

/-- A bind of an inspector leaves the barrier and the scheduler workers
alone. -/
theorem bind_inspector_width
    (calloc_ok append_ok : Bool) (self s : suscan_local_analyzer_t)
    (channel c : su_specttuner_channel_t) (insp i : suscan_inspector_t) (ok : Bool)
    (h : suscan_local_analyzer_bind_inspector_to_channel calloc_ok append_ok self channel insp
      = some (ok, s, c, i)) :
    s.width = self.width := by
  unfold suscan_local_analyzer_bind_inspector_to_channel suscan_inspector_task_info_new
    suscan_local_analyzer_enter_sched pthread_mutex_lock
    suscan_inspsched_append_task_info at h
  cases calloc_ok <;> cases append_ok <;> cases hl : self.sched_lock <;>
    simp [hl] at h <;>
    (obtain ⟨_, h, _⟩ := h; subst h; rfl)

/-- Every call leaves the barrier and the scheduler alone. -/
theorem analyzer_call_width (env : Env) (self s : suscan_local_analyzer_t)
    (call : analyzer_call) (h : call.step env self = some s) :
    s.width = self.width := by
  cases call with
  | sweep c =>
    simp only [analyzer_call.step, Option.some.injEq] at h
    subst h
    exact sweep_call_width self c
  | lock_inspector_list =>
    simp only [analyzer_call.step, Option.map_eq_some'] at h
    obtain ⟨⟨b, s1⟩, h1, h2⟩ := h
    subst h2
    exact lock_inspector_list_width _ _ _ h1
  | unlock_inspector_list =>
    simp only [analyzer_call.step, Option.some.injEq] at h
    subst h
    rfl
  | release_overridable rq =>
    simp only [analyzer_call.step, Option.some.injEq] at h
    subst h
    rfl
  | override_throttle val =>
    simp only [analyzer_call.step, Option.map_eq_some'] at h
    obtain ⟨⟨b, s1⟩, h1, h2⟩ := h
    subst h2
    exact override_throttle_width _ _ _ _ h1
  | reset_throttle =>
    simp only [analyzer_call.step, Option.map_eq_some',
      suscan_local_analyzer_reset_throttle] at h
    obtain ⟨⟨b, s1⟩, h1, h2⟩ := h
    subst h2
    exact override_throttle_width _ _ _ _ h1
  | readjust_detector params =>
    simp only [analyzer_call.step, Option.some.injEq] at h
    subst h
    exact readjust_detector_width env 0 self params
  | thread => exact thread_width env self s h
  | write ok msg =>
    simp only [analyzer_call.step, Option.some.injEq] at h
    subst h
    rfl
  | req_halt =>
    simp only [analyzer_call.step, Option.some.injEq] at h
    subst h
    rfl
  | source_barrier =>
    simp only [analyzer_call.step, Option.some.injEq] at h
    subst h
    unfold suscan_local_analyzer_source_barrier
    cases hb : self.barrier <;> simp [suscan_local_analyzer_t.width, hb]
  | enter_sched =>
    simp only [analyzer_call.step, suscan_local_analyzer_enter_sched, pthread_mutex_lock] at h
    cases hl : self.sched_lock <;> simp [hl] at h
    subst h
    rfl
  | leave_sched =>
    simp only [analyzer_call.step, Option.some.injEq] at h
    subst h
    rfl
  | bind_inspector_to_channel calloc_ok append_ok channel insp =>
    simp only [analyzer_call.step, Option.map_eq_some'] at h
    obtain ⟨⟨ok, s1, c, i⟩, h1, h2⟩ := h
    simp only at h2
    subst h2
    exact bind_inspector_width _ _ _ _ _ _ _ _ _ h1

/-- A sequence of calls leaves the barrier and the scheduler alone. -/
theorem analyzer_calls_width (env : Env) :
    ∀ (calls : List analyzer_call) (self : suscan_local_analyzer_t),
      (analyzer_calls env calls self).width = self.width := by
  intro calls
  induction calls with
  | nil => intro self; rfl
  | cons call calls ih =>
    intro self
    unfold analyzer_calls
    cases h : call.step env self with
    | none => rfl
    | some s =>
      simp only
      rw [ih s]
      exact analyzer_call_width env self s call h

/-- An acquire of an overridable request leaves the barrier and the scheduler
alone when the other threads do. -/
theorem acquire_overridable_width
    (others : suscan_local_analyzer_t → suscan_local_analyzer_t)
    (hothers : ∀ s, (others s).width = s.width)
    (calloc_ok : Bool) (self s : suscan_local_analyzer_t) (handle : Int) (r : Option Nat)
    (h : suscan_local_analyzer_acquire_overridable others calloc_ok self handle = some (r, s)) :
    s.width = self.width := by
  have hb : ∀ s, (others s).barrier = s.barrier := fun s => congrArg Prod.fst (hothers s)
  have hs : ∀ s, (others s).sched = s.sched := fun s => congrArg Prod.snd (hothers s)
  unfold suscan_local_analyzer_acquire_overridable suscan_local_analyzer_lock_inspector_list
    pthread_mutex_lock at h
  cases hm : self.inspector_list_mutex with
  | true => simp [hm] at h
  | false =>
    simp only [hm, Bool.false_eq_true, if_false] at h
    have hne : ((0 : Int) != -1) = true := by decide
    simp only [hne] at h
    split at h
    · simp only [Option.some.injEq, Prod.mk.injEq] at h
      obtain ⟨_, h⟩ := h
      subst h
      rfl
    · split at h
      · simp only [Option.some.injEq, Prod.mk.injEq] at h
        obtain ⟨_, h⟩ := h
        subst h
        rfl
      · split at h
        · simp only [Option.some.injEq, Prod.mk.injEq] at h
          obtain ⟨_, h⟩ := h
          subst h
          rfl
        · have ho := hothers (suscan_local_analyzer_unlock_inspector_list
            { self with inspector_list_mutex := true })
          revert h ho
          generalize others (suscan_local_analyzer_unlock_inspector_list
            { self with inspector_list_mutex := true }) = o
          intro h ho
          have ho2 : o.width = self.width := ho
          unfold suscan_inspector_overridable_request_new at h
          cases calloc_ok with
          | false =>
            simp only [Bool.false_eq_true, if_false, Option.some.injEq, Prod.mk.injEq] at h
            obtain ⟨_, h⟩ := h
            subst h
            exact ho2
          | true =>
            simp only [if_true] at h
            cases hom : o.inspector_list_mutex with
            | true => simp [hom] at h
            | false =>
              simp only [hom, Bool.false_eq_true, if_false, hne] at h
              split at h
              · simp only [Option.some.injEq, Prod.mk.injEq] at h
                obtain ⟨_, h⟩ := h
                subst h
                exact ho2
              · split at h
                · simp only [Option.some.injEq, Prod.mk.injEq] at h
                  obtain ⟨_, h⟩ := h
                  subst h
                  exact ho2
                · split at h
                  · simp only [Option.some.injEq, Prod.mk.injEq] at h
                    obtain ⟨_, h⟩ := h
                    subst h
                    exact ho2
                  · simp only [Option.some.injEq, Prod.mk.injEq] at h
                    obtain ⟨_, h⟩ := h
                    subst h
                    exact ho2

/-- Every operation leaves the barrier and the scheduler alone. -/
theorem analyzer_op_width (env : Env) (self s : suscan_local_analyzer_t)
    (op : analyzer_op) (h : op.step env self = some s) :
    s.width = self.width := by
  cases op with
  | call c => exact analyzer_call_width env self s c h
  | acquire_overridable others calloc_ok handle =>
    simp only [analyzer_op.step, Option.map_eq_some'] at h
    obtain ⟨⟨r, s1⟩, h1, h2⟩ := h
    subst h2
    exact acquire_overridable_width _ (analyzer_calls_width env others) _ _ _ _ _ h1

/-- A sequence of operations leaves the barrier and the scheduler alone. -/
theorem analyzer_ops_width (env : Env) :
    ∀ (ops : List analyzer_op) (self : suscan_local_analyzer_t),
      (analyzer_ops env ops self).width = self.width := by
  intro ops
  induction ops with
  | nil => intro self; rfl
  | cons op ops ih =>
    intro self
    unfold analyzer_ops
    cases h : op.step env self with
    | none => rfl
    | some s =>
      simp only
      rw [ih s]
      exact analyzer_op_width env self s op h

/-- A successful first half of the constructor has created the scheduler and
initialised the barrier with the number of its workers plus one. -/
theorem ctor_build_width
    (sys : CtorEnv) (env : Env) (parent : suscan_analyzer_t)
    (new : suscan_local_analyzer_t)
    (h : suscan_local_analyzer_ctor_build sys env parent = some new) :
    ∃ num_workers, sys.suscan_inspsched_new = some num_workers ∧
      new.sched = some num_workers ∧ new.barrier = some (num_workers + 1) := by
  unfold suscan_local_analyzer_ctor_build at h
  split at h
  · simp at h
  · split at h
    · simp at h
    · split at h
      · simp at h
      · dsimp only at h
        split at h
        · simp at h
        · split at h
          · simp at h
          · split at h
            · simp at h
            · split at h
              · simp at h
              · split at h
                · simp at h
                · split at h
                  · simp at h
                  · split at h
                    · simp at h
                    · rename_i num_workers hsched
                      split at h
                      · simp at h
                      · split at h
                        · simp at h
                        · split at h
                          · simp at h
                          · obtain ⟨_, _, _, _, _, k4, k5, _, _⟩ :=
                              ctor_start_success sys env parent _ new _ h
                            exact ⟨num_workers, hsched, k5, k4⟩

/-- C25: a successful constructor leaves the cycle barrier initialised with
the number of workers of the scheduler it has created plus one, and after any
sequence of operations on the analyzer (the calls of `analyzer_call`, and the
acquire of an overridable request with calls of other threads in between),
the count of the barrier and the number of workers are what they were. -/
theorem C25_barrier_width
    (sys : CtorEnv) (env : Env) (parent : suscan_analyzer_t)
    (new : suscan_local_analyzer_t)
    (h : (suscan_local_analyzer_ctor sys env parent).1 = some new) :
    (∃ num_workers, sys.suscan_inspsched_new = some num_workers ∧
      new.sched = some num_workers ∧ new.barrier = some (num_workers + 1)) ∧
    ∀ (env2 : Env) (ops : List analyzer_op),
      (analyzer_ops env2 ops new).sched = new.sched ∧
      (analyzer_ops env2 ops new).barrier = new.barrier := by
  unfold suscan_local_analyzer_ctor at h
  cases hb : suscan_local_analyzer_ctor_build sys env parent with
  | none => simp [hb] at h
  | some built =>
    simp only [hb, Option.some.injEq] at h
    obtain ⟨n, h1, h2, h3⟩ := ctor_build_width sys env parent built hb
    have hs : new.sched = some n := by rw [← h]; exact h2
    have hbar : new.barrier = some (n + 1) := by rw [← h]; exact h3
    refine ⟨⟨n, h1, hs, hbar⟩, ?_⟩
    intro env2 ops
    have hw := analyzer_ops_width env2 ops new
    exact ⟨congrArg Prod.snd hw, congrArg Prod.fst hw⟩

/-- Witness of C25: the analyzer built in `c25_sys`, whose scheduler has three
workers, before and after the operations `c25_ops`, which have left one thread
waiting at the barrier, a publish requested and a task-info registered. -/
theorem C25_barrier_width_witness :
    ∃ new, (suscan_local_analyzer_ctor c25_sys {} c25_parent).1 = some new ∧
      new.sched = some 3 ∧ new.barrier = some 4 ∧
      (analyzer_ops {} c25_ops new).sched = some 3 ∧
      (analyzer_ops {} c25_ops new).barrier = some 4 ∧
      (analyzer_ops {} c25_ops new).barrier_waiting = 1 ∧
      (analyzer_ops {} c25_ops new).sweep_params_requested = true ∧
      (analyzer_ops {} c25_ops new).sched_tasks = [0] ∧
      (analyzer_ops {} c25_ops new).running = false :=
  ⟨_, rfl, rfl, rfl,
    ((C25_barrier_width c25_sys {} c25_parent _ rfl).2 {} c25_ops).1.trans rfl,
    ((C25_barrier_width c25_sys {} c25_parent _ rfl).2 {} c25_ops).2.trans rfl,
    rfl, rfl, rfl, rfl⟩

end Suscan
